import Mathlib

/-!
# QuakeFX: interception, classification and capture subsystem

A shallow embedding of the QuakeFX sources (`source/QuakeFX`) together with
theorems about it.  Stateful C++ code is written as explicit state passing:
every function takes the state it reads and returns the state it leaves behind.

* The OpenGL context is the record `GLContext`: the binding points the code
  queries and restores, plus the list of commands issued so far.  The commands
  follow the binding rules of the OpenGL specification.
* Pointers into `std::vector<ModuleExport>` are indices into a list.
* `uint` counters are natural numbers reduced modulo `2^32`, `int` counters
  are integers wrapped into the 32-bit two's complement range.
* A loaded module is the record `ModuleImage`: the bytes of the process relative
  to the module handle.  The export scanner returns its result together with
  the list of memory accesses it makes; pointer arithmetic is not wrapped.
* The library-load hooks are functions on the record `HookLifecycle` for one
  thread, and a step function for two threads that share it, one access to
  the shared state per step.
-/

namespace QuakeFX

/-! ## OpenGL enumerants (values of the standard headers) -/

def GL_MODELVIEW : Nat := 0x1700
def GL_PROJECTION : Nat := 0x1701
def GL_TEXTURE : Nat := 0x1702
def GL_TEXTURE_2D : Nat := 0x0DE1
def GL_TEXTURE0 : Nat := 0x84C0
def GL_TEXTURE_MAG_FILTER : Nat := 0x2800
def GL_TEXTURE_MIN_FILTER : Nat := 0x2801
def GL_TEXTURE_WRAP_S : Nat := 0x2802
def GL_TEXTURE_WRAP_T : Nat := 0x2803
def GL_TEXTURE_MAX_ANISOTROPY_EXT : Nat := 0x84FE
def GL_LINEAR : Nat := 0x2601
def GL_NEAREST : Nat := 0x2600
def GL_CLAMP_TO_EDGE : Nat := 0x812F
def GL_RGBA : Nat := 0x1908
def GL_RGBA8 : Nat := 0x8058
def GL_DEPTH24_STENCIL8 : Nat := 0x88F0
def GL_UNSIGNED_BYTE : Nat := 0x1401
def GL_UNSIGNED_INT : Nat := 0x1405
def GL_FLOAT : Nat := 0x1406
def GL_TRIANGLES : Nat := 0x0004
def GL_BACK : Nat := 0x0405
def GL_BLEND : Nat := 0x0BE2
def GL_SRC_ALPHA : Nat := 0x0302
def GL_ONE_MINUS_SRC_ALPHA : Nat := 0x0303
def GL_DEPTH_BUFFER_BIT : Nat := 0x0100
def GL_STENCIL_BUFFER_BIT : Nat := 0x0400
def GL_COLOR_BUFFER_BIT : Nat := 0x4000
def GL_ARRAY_BUFFER : Nat := 0x8892
def GL_ELEMENT_ARRAY_BUFFER : Nat := 0x8893
def GL_STATIC_DRAW : Nat := 0x88E4
def GL_FRAMEBUFFER_BINDING : Nat := 0x8CA6
def GL_DRAW_FRAMEBUFFER_BINDING : Nat := 0x8CA6
def GL_READ_FRAMEBUFFER : Nat := 0x8CA8
def GL_DRAW_FRAMEBUFFER : Nat := 0x8CA9
def GL_READ_FRAMEBUFFER_BINDING : Nat := 0x8CAA
def GL_FRAMEBUFFER_COMPLETE : Nat := 0x8CD5
def GL_FRAMEBUFFER_UNDEFINED : Nat := 0x8219
def GL_FRAMEBUFFER_INCOMPLETE_ATTACHMENT : Nat := 0x8CD6
def GL_FRAMEBUFFER_INCOMPLETE_MISSING_ATTACHMENT : Nat := 0x8CD7
def GL_FRAMEBUFFER_INCOMPLETE_DRAW_BUFFER : Nat := 0x8CDB
def GL_FRAMEBUFFER_INCOMPLETE_READ_BUFFER : Nat := 0x8CDC
def GL_FRAMEBUFFER_UNSUPPORTED : Nat := 0x8CDD
def GL_FRAMEBUFFER_INCOMPLETE_MULTISAMPLE : Nat := 0x8D56
def GL_FRAMEBUFFER_INCOMPLETE_LAYER_TARGETS : Nat := 0x8DA8
def GL_COLOR_ATTACHMENT0 : Nat := 0x8CE0
def GL_DEPTH_STENCIL_ATTACHMENT : Nat := 0x821A
def GL_FRAMEBUFFER : Nat := 0x8D40
def GL_RENDERBUFFER : Nat := 0x8D41

/-- Range of `GLuint`, `GLenum` and `uint`. -/
def UINT_RANGE : Nat := 2 ^ 32

/-- Value of a mathematical integer stored into a 32-bit `int`. -/
def wrapInt32 (x : Int) : Int := (x + 2 ^ 31) % 2 ^ 32 - 2 ^ 31

structure IVec2 where
  x : Int
  y : Int
  deriving DecidableEq, Repr

structure IVec4 where
  x : Int
  y : Int
  z : Int
  w : Int
  deriving DecidableEq, Repr

/-- A `GLfloat` or `GLdouble` argument, as far as a comparison observes it: a finite
value (both zeros are `finite 0`), an infinity, or a NaN. -/
inductive GLreal where
  | finite (q : ℚ)
  | posInf
  | negInf
  | nan
  deriving DecidableEq, Repr

namespace GLreal

/-- The C comparison `x < 0` (false on NaN). -/
def ltZero : GLreal → Bool
  | finite q => decide (q < 0)
  | posInf => false
  | negInf => true
  | nan => false

/-- The value is a strictly negative number (finite or minus infinity). -/
def IsNegative (x : GLreal) : Prop := x = negInf ∨ ∃ q : ℚ, x = finite q ∧ q < 0

/-- The value is zero or a positive number (finite or plus infinity). -/
def IsZeroOrPositive (x : GLreal) : Prop := x = posInf ∨ ∃ q : ℚ, x = finite q ∧ 0 ≤ q

end GLreal

/-! ## The OpenGL context -/

/-- Commands that reach the driver (and the host swap chain), with their arguments.
`REPORTERROR` records an expansion of the macro of that name in a build
without `NDEBUG`. -/
inductive GLCall where
  | glBindFramebuffer (target id : Nat)
  | glDrawBuffer (buf : Nat)
  | glReadBuffer (buf : Nat)
  | glActiveTexture (texture : Nat)
  | glBindTexture (target id : Nat)
  | glFramebufferTexture (target attachment texture : Nat) (level : Int)
  | glFramebufferRenderbuffer (target attachment rbTarget rb : Nat)
  | glTexParameteri (target pname : Nat) (param : Int)
  | glTexImage2D (target : Nat) (level : Int) (internalFormat : Nat) (width height : Int)
      (format type : Nat)
  | glViewport (x y w h : Int)
  | glClear (mask : Nat)
  | glBindVertexArray (id : Nat)
  | glBindBuffer (target id : Nat)
  | glBufferData (target usage : Nat)
  | glEnableVertexAttribArray (index : Nat)
  | glVertexAttribPointer (index : Nat) (size : Int) (type : Nat) (normalized : Bool)
      (stride offset : Nat)
  | glUseProgram (id : Nat)
  | glUniform1i (location value : Int)
  | glDrawElements (mode : Nat) (count : Int) (type : Nat)
  | glBlitFramebuffer (srcX0 srcY0 srcX1 srcY1 dstX0 dstY0 dstX1 dstY1 : Int) (mask filter : Nat)
  | glEnable (cap : Nat)
  | glBlendFunc (sfactor dfactor : Nat)
  | glGenFramebuffers (id : Nat)
  | glGenTextures (id : Nat)
  | glGenVertexArrays (id : Nat)
  | glGenBuffers (id : Nat)
  | glGenRenderbuffers (id : Nat)
  | glDeleteRenderbuffers (id : Nat)
  | glBindRenderbuffer (target id : Nat)
  | glRenderbufferStorageMultisample (target : Nat) (samples : Int) (internalFormat : Nat)
      (width height : Int)
  | glMatrixMode (mode : Nat)
  | glLoadMatrixd (m : List GLreal)
  | glLoadMatrixf (m : List GLreal)
  | glFrustum (left right bottom top zNear zFar : GLreal)
  | glOrtho (left right bottom top zNear zFar : GLreal)
  | reshadeSwapBuffers (hdc : Nat)
  | baseSwapBuffers (hdc : Nat)
  | REPORTERROR (msg : String)
  deriving DecidableEq, Repr

/-- The part of the OpenGL context the component reads and writes.

* `elementArrayOf` is the element array binding stored in each vertex array
  object; the binding in effect is the one of the bound vertex array.
* `texture2D` is the `GL_TEXTURE_2D` binding of each texture unit.
* `nextName` is the next object name the driver hands out.
* `framebufferStatus` and `uniformLocation` are the answers of the driver to
  `glCheckFramebufferStatus` and `glGetUniformLocation`.
* `NDEBUG` is the compile-time switch of the build, carried along with the
  context so that the validation helpers can consult it.
* `calls` lists the commands issued so far, oldest first. -/
structure GLContext where
  drawFramebuffer : Nat
  readFramebuffer : Nat
  renderbuffer : Nat
  vertexArray : Nat
  arrayBuffer : Nat
  elementArrayOf : Nat → Nat
  currentProgram : Nat
  activeUnit : Nat
  texture2D : Nat → Nat
  viewport : IVec4
  nextName : Nat
  framebufferStatus : Nat → Nat
  uniformLocation : Nat → String → Int
  NDEBUG : Bool
  calls : List GLCall

namespace GLContext

/-- Append a command to the command list. -/
def record (g : GLContext) (c : GLCall) : GLContext :=
  { g with calls := g.calls ++ [c] }

/-- Binding reported for `GL_ELEMENT_ARRAY_BUFFER_BINDING`. -/
def elementArrayBuffer (g : GLContext) : Nat := g.elementArrayOf g.vertexArray

/-- Binding reported for `GL_TEXTURE_BINDING_2D`. -/
def boundTexture2D (g : GLContext) : Nat := g.texture2D g.activeUnit

end GLContext

/-- Expansion of `REPORTERROR(error)`: empty under `NDEBUG`, a report otherwise. -/
def REPORTERROR (msg : String) (g : GLContext) : GLContext :=
  if g.NDEBUG then g else g.record (.REPORTERROR msg)

def glBindFramebuffer (target id : Nat) (g : GLContext) : GLContext :=
  let g := g.record (.glBindFramebuffer target id)
  if target = GL_FRAMEBUFFER then { g with drawFramebuffer := id, readFramebuffer := id }
  else if target = GL_DRAW_FRAMEBUFFER then { g with drawFramebuffer := id }
  else if target = GL_READ_FRAMEBUFFER then { g with readFramebuffer := id }
  else g

def glActiveTexture (texture : Nat) (g : GLContext) : GLContext :=
  let g := g.record (.glActiveTexture texture)
  if GL_TEXTURE0 ≤ texture then { g with activeUnit := texture - GL_TEXTURE0 } else g

def glBindTexture (target id : Nat) (g : GLContext) : GLContext :=
  let g := g.record (.glBindTexture target id)
  if target = GL_TEXTURE_2D then
    { g with texture2D := fun u => if u = g.activeUnit then id else g.texture2D u }
  else g

def glBindVertexArray (id : Nat) (g : GLContext) : GLContext :=
  { g.record (.glBindVertexArray id) with vertexArray := id }

def glBindBuffer (target id : Nat) (g : GLContext) : GLContext :=
  let g := g.record (.glBindBuffer target id)
  if target = GL_ARRAY_BUFFER then { g with arrayBuffer := id }
  else if target = GL_ELEMENT_ARRAY_BUFFER then
    { g with elementArrayOf := fun v => if v = g.vertexArray then id else g.elementArrayOf v }
  else g

def glUseProgram (id : Nat) (g : GLContext) : GLContext :=
  { g.record (.glUseProgram id) with currentProgram := id }

def glViewport (x y w h : Int) (g : GLContext) : GLContext :=
  let g := g.record (.glViewport x y w h)
  if w < 0 ∨ h < 0 then g else { g with viewport := ⟨x, y, w, h⟩ }

def glBindRenderbuffer (target id : Nat) (g : GLContext) : GLContext :=
  let g := g.record (.glBindRenderbuffer target id)
  if target = GL_RENDERBUFFER then { g with renderbuffer := id } else g

def glDeleteRenderbuffers (id : Nat) (g : GLContext) : GLContext :=
  let g := g.record (.glDeleteRenderbuffers id)
  if id ≠ 0 ∧ g.renderbuffer = id then { g with renderbuffer := 0 } else g

/-- Hand out a fresh object name (`glGen*`); the command itself is recorded by the caller. -/
def genName (g : GLContext) : GLContext × Nat :=
  ({ g with nextName := g.nextName + 1 }, g.nextName)

/-! ## `QfxFramebufferObj` (render/qfx_framebuffer_obj.cpp) -/

/-- `FramebufferTargs::Invalid`. -/
def FramebufferTargs_Invalid : Nat := 0

structure QfxFramebufferObj where
  id : Nat
  target : Nat
  deriving DecidableEq, Repr

namespace QfxFramebufferObj

/-- Constructor `QfxFramebufferObj()`: `id(0), target(Invalid)`, then `glGenFramebuffers(1, &id)`. -/
def construct (g : GLContext) : GLContext × QfxFramebufferObj :=
  let (g, name) := genName g
  (g.record (.glGenFramebuffers name), { id := name, target := FramebufferTargs_Invalid })

def GetIsFramebufferBound (id target : Nat) (g : GLContext) : Bool :=
  let drawFboId := g.drawFramebuffer
  let readFboId := g.readFramebuffer
  if drawFboId ≠ 0 ∨ readFboId ≠ 0 then
    if GL_FRAMEBUFFER_BINDING = target ∧ (drawFboId ≠ id ∨ readFboId ≠ id) then false
    else if GL_DRAW_FRAMEBUFFER_BINDING = target ∧ drawFboId ≠ id then false
    else if GL_READ_FRAMEBUFFER_BINDING = target ∧ readFboId ≠ id then false
    else true
  else false

def GetCurrent (target : Nat) (g : GLContext) : GLContext × Nat :=
  let drawFboId := g.drawFramebuffer
  let readFboId := g.readFramebuffer
  let g :=
    if (drawFboId ≠ 0 ∧ readFboId ≠ 0) ∧ drawFboId ≠ readFboId ∧ target = GL_FRAMEBUFFER then
      REPORTERROR "Framebuffer target ambiguous. More than one FBO is bound to the specified targets." g
    else g
  if (GL_DRAW_FRAMEBUFFER_BINDING &&& target) > 0 ∧ drawFboId ≠ 0 then (g, drawFboId)
  else if (GL_READ_FRAMEBUFFER_BINDING &&& target) > 0 ∧ readFboId ≠ 0 then (g, readFboId)
  else (g, 0)

def GetFramebufferStatus (target : Nat) (g : GLContext) : Nat := g.framebufferStatus target

def GetFramebufferStatusString (fbStatus : Nat) : String :=
  if fbStatus = GL_FRAMEBUFFER_COMPLETE then "Framebuffer Complete"
  else if fbStatus = GL_FRAMEBUFFER_UNDEFINED then "Framebuffer Undefined"
  else if fbStatus = GL_FRAMEBUFFER_INCOMPLETE_ATTACHMENT then "Incomplete: Attachment"
  else if fbStatus = GL_FRAMEBUFFER_INCOMPLETE_MISSING_ATTACHMENT then
    "Incomplete: Missing Attachment"
  else if fbStatus = GL_FRAMEBUFFER_INCOMPLETE_DRAW_BUFFER then "Incomplete: Draw Buffer"
  else if fbStatus = GL_FRAMEBUFFER_INCOMPLETE_READ_BUFFER then "Incomplete: Read Buffer"
  else if fbStatus = GL_FRAMEBUFFER_UNSUPPORTED then "Framebuffer Unsupported"
  else if fbStatus = GL_FRAMEBUFFER_INCOMPLETE_MULTISAMPLE then "Incomplete: Multisample"
  else if fbStatus = GL_FRAMEBUFFER_INCOMPLETE_LAYER_TARGETS then "Incomplete: Layer Targets"
  else "Unknown"

def ValidateFramebuffer (id target : Nat) (requireCompleteness : Bool) (g : GLContext) :
    GLContext :=
  if g.NDEBUG then g
  else if !GetIsFramebufferBound id target g then
    REPORTERROR "Cannot use framebuffer object without binding it." g
  else if requireCompleteness then
    let status := GetFramebufferStatus target g
    if status ≠ GL_FRAMEBUFFER_COMPLETE then
      let error := "Framebuffer must be complete in order to use this function. Error:" ++
        GetFramebufferStatusString status
      REPORTERROR error g
    else g
  else g

def Validate (fbo : QfxFramebufferObj) (requireCompleteness : Bool) (g : GLContext) :
    GLContext :=
  if g.NDEBUG then g else ValidateFramebuffer fbo.id fbo.target requireCompleteness g

def GetIsBound (fbo : QfxFramebufferObj) (g : GLContext) : Bool :=
  GetIsFramebufferBound fbo.id fbo.target g

def Bind (newTarget : Nat) (g : GLContext) (fbo : QfxFramebufferObj) :
    GLContext × QfxFramebufferObj :=
  (glBindFramebuffer newTarget fbo.id g, { fbo with target := newTarget })

def BindFramebuffer (id target : Nat) (g : GLContext) : GLContext :=
  glBindFramebuffer target id g

def UnbindFramebuffer (target : Nat) (g : GLContext) : GLContext :=
  glBindFramebuffer target 0 g

def ClearCurrent (bitMask : Nat) (g : GLContext) : GLContext := g.record (.glClear bitMask)

def Clear (fbo : QfxFramebufferObj) (bitMask : Nat) (g : GLContext) : GLContext :=
  ClearCurrent bitMask (fbo.Validate false g)

/-- `SetDrawBuffer(buffer, colorAttachNum)`; `ColorBuffers::ColorAttach` is `GL_COLOR_ATTACHMENT0`. -/
def SetDrawBuffer (buffer colorAttachNum : Nat) (g : GLContext) : GLContext :=
  let glBuffer := if buffer = GL_COLOR_ATTACHMENT0 then (buffer + colorAttachNum) % UINT_RANGE
    else buffer
  g.record (.glDrawBuffer glBuffer)

/-- `SetFramebufferTexture(texture, buffTarg, attach, colorAttachNum, mipLevel)`, given the
texture name; `FramebufferAttachments::Color` is `GL_COLOR_ATTACHMENT0`. -/
def SetFramebufferTexture (fbo : QfxFramebufferObj) (textureId buffTarg attach colorAttachNum : Nat)
    (mipLevel : Int) (g : GLContext) : GLContext :=
  let g := fbo.Validate false g
  let glAttach := if attach = GL_COLOR_ATTACHMENT0 then (attach + colorAttachNum) % UINT_RANGE
    else attach
  g.record (.glFramebufferTexture buffTarg glAttach textureId mipLevel)

def SetFrameBufferRenderBuffer (fbo : QfxFramebufferObj) (rBufferId attach buffTarg
    colorAttachNum : Nat) (g : GLContext) : GLContext :=
  let g := fbo.Validate false g
  let glAttach := if attach = GL_COLOR_ATTACHMENT0 then (attach + colorAttachNum) % UINT_RANGE
    else attach
  g.record (.glFramebufferRenderbuffer buffTarg glAttach GL_RENDERBUFFER rBufferId)

/-- `Blit(srcOrigin, srcSize, dstOrigin, dstSize, bufMask, useNearestNeighbor)` on the bound
framebuffers. -/
def BlitBound (srcOrigin srcSize dstOrigin dstSize : IVec2) (bufMask : Nat)
    (useNearestNeighbor : Bool) (g : GLContext) : GLContext :=
  let glDepthStencil := bufMask &&& (GL_DEPTH_BUFFER_BIT ||| GL_STENCIL_BUFFER_BIT)
  if !useNearestNeighbor then
    let g := if glDepthStencil > 0 then
        g.record (.glBlitFramebuffer srcOrigin.x srcOrigin.y srcSize.x srcSize.y
          dstOrigin.x dstOrigin.y dstSize.x dstSize.y glDepthStencil GL_NEAREST)
      else g
    if (bufMask &&& GL_COLOR_BUFFER_BIT) > 0 then
      g.record (.glBlitFramebuffer srcOrigin.x srcOrigin.y srcSize.x srcSize.y
        dstOrigin.x dstOrigin.y dstSize.x dstSize.y GL_COLOR_BUFFER_BIT GL_LINEAR)
    else g
  else
    g.record (.glBlitFramebuffer srcOrigin.x srcOrigin.y srcSize.x srcSize.y
      dstOrigin.x dstOrigin.y dstSize.x dstSize.y bufMask GL_NEAREST)

/-- `Blit(srcName, srcColor, srcOrigin, srcSize, dstName, dstColor, dstOrigin, dstSize, ...)`. -/
def BlitNamed (srcName srcColor : Nat) (srcOrigin srcSize : IVec2) (dstName dstColor : Nat)
    (dstOrigin dstSize : IVec2) (bufMask : Nat) (useNearestNeighbor : Bool) (g : GLContext) :
    GLContext :=
  let g := BindFramebuffer srcName GL_READ_FRAMEBUFFER g
  let g := BindFramebuffer dstName GL_DRAW_FRAMEBUFFER g
  let g := g.record (.glReadBuffer srcColor)
  let g := g.record (.glDrawBuffer dstColor)
  BlitBound srcOrigin srcSize dstOrigin dstSize bufMask useNearestNeighbor g

/-- `Blit(srcName, srcColor, dstName, dstColor, size, bufMask, useNearestNeighbor)`. -/
def Blit (srcName srcColor dstName dstColor : Nat) (size : IVec2) (bufMask : Nat)
    (useNearestNeighbor : Bool) (g : GLContext) : GLContext :=
  BlitNamed srcName srcColor ⟨0, 0⟩ size dstName dstColor ⟨0, 0⟩ size bufMask
    useNearestNeighbor g

def BlitTo (srcColor dstName dstColor : Nat) (size : IVec2) (bufMask : Nat) (autoUnbind
    useNearestNeighbor : Bool) (g : GLContext) (fbo : QfxFramebufferObj) :
    GLContext × QfxFramebufferObj :=
  let g := fbo.Validate true g
  let g := Blit fbo.id srcColor dstName dstColor size bufMask useNearestNeighbor g
  let g := UnbindFramebuffer GL_FRAMEBUFFER g
  if !autoUnbind then Bind fbo.target g fbo else (g, fbo)

end QfxFramebufferObj

/-! ## `QfxTextureBase` and `QfxTexture2D` (render/qfx_texture.cpp, render/qfx_texture2D.cpp) -/

def GL_TEXTURE_BINDING_2D : Nat := 0x8069

/-- `TexTargs::Invalid`, `TexBindings::Invalid` and the other `Invalid = -1` enumerators,
as the `GLenum` they convert to. -/
def ENUM_INVALID : Nat := UINT_RANGE - 1

/-- A `QfxTexture2D`: the fields of `QfxTextureBase` followed by its own. -/
structure QfxTexture2D where
  id : Nat
  texUnit : Nat
  target : Nat
  binding : Nat
  dim : IVec2
  internalFormat : Nat
  format : Nat
  pixType : Nat
  lod : Int
  minInterp : Nat
  magInterp : Nat
  wrapS : Nat
  wrapT : Nat
  deriving DecidableEq, Repr

namespace QfxTextureBase

def GetActiveTextureUnit (g : GLContext) : Nat := g.activeUnit

/-- `glGetIntegerv(binding, &name)`; only the `GL_TEXTURE_2D` binding point is kept in the
context record. -/
def GetCurrentTexture (binding : Nat) (g : GLContext) : Nat :=
  if binding = GL_TEXTURE_BINDING_2D then g.boundTexture2D else 0

def GetTextureBinding (target : Nat) : Nat :=
  if target = GL_TEXTURE_2D then GL_TEXTURE_BINDING_2D else ENUM_INVALID

def BindTexture (target id slot : Nat) (g : GLContext) : GLContext :=
  glBindTexture target id (glActiveTexture (GL_TEXTURE0 + slot) g)

end QfxTextureBase

namespace QfxTexture2D

/-- Constructor `QfxTexture2D()` with the default arguments of the header: an empty RGBA8
texture, so that only `glGenTextures` is issued. -/
def construct (g : GLContext) : GLContext × QfxTexture2D :=
  let (g, name) := genName g
  (g.record (.glGenTextures name),
   { id := name, texUnit := 0, target := GL_TEXTURE_2D,
     binding := QfxTextureBase.GetTextureBinding GL_TEXTURE_2D, dim := ⟨0, 0⟩,
     internalFormat := GL_RGBA8, format := GL_RGBA, pixType := GL_UNSIGNED_BYTE, lod := 0,
     minInterp := GL_LINEAR, magInterp := GL_LINEAR, wrapS := GL_CLAMP_TO_EDGE,
     wrapT := GL_CLAMP_TO_EDGE })

def IsBound (t : QfxTexture2D) (g : GLContext) : Bool :=
  QfxTextureBase.GetCurrentTexture t.binding g = t.id

def IsActive (t : QfxTexture2D) (g : GLContext) : Bool :=
  t.IsBound g && (QfxTextureBase.GetActiveTextureUnit g = t.texUnit)

def Validate (t : QfxTexture2D) (g : GLContext) : GLContext :=
  if g.NDEBUG then g
  else if !t.IsActive g then
    REPORTERROR "The texture must be active and bound before it can be used." g
  else g

def Bind (slot : Nat) (g : GLContext) (t : QfxTexture2D) : GLContext × QfxTexture2D :=
  (glBindTexture t.target t.id (glActiveTexture (GL_TEXTURE0 + slot) g), { t with texUnit := slot })

def SetParameter (t : QfxTexture2D) (param value : Nat) (g : GLContext) : GLContext :=
  (t.Validate g).record (.glTexParameteri t.target param value)

def SetSize (size : IVec2) (g : GLContext) (t : QfxTexture2D) : GLContext × QfxTexture2D :=
  let g := t.Validate g
  if t.dim.x ≠ size.x ∨ t.dim.y ≠ size.y then
    let t := { t with dim := size }
    let g := t.SetParameter GL_TEXTURE_MIN_FILTER t.minInterp g
    let g := t.SetParameter GL_TEXTURE_MAG_FILTER t.magInterp g
    let g := t.SetParameter GL_TEXTURE_WRAP_S t.wrapS g
    let g := t.SetParameter GL_TEXTURE_WRAP_T t.wrapS g
    (g.record (.glTexImage2D t.target t.lod t.internalFormat t.dim.x t.dim.y t.format t.pixType), t)
  else (g, t)

end QfxTexture2D

/-! ## `QfxProgram` (render/qfx_program.cpp) -/

structure QfxProgram where
  id : Nat
  uniformCache : List (String × Int)
  deriving DecidableEq, Repr

namespace QfxProgram

/-- Constructor `QfxProgram()`. -/
def construct : QfxProgram := { id := 0, uniformCache := [] }

def GetCurrentProgram (g : GLContext) : Nat := g.currentProgram

def BindProgram (id : Nat) (g : GLContext) : GLContext := glUseProgram id g

def Bind (p : QfxProgram) (g : GLContext) : GLContext := glUseProgram p.id g

def Validate (p : QfxProgram) (g : GLContext) : GLContext :=
  if g.NDEBUG then g
  else if p.id ≠ GetCurrentProgram g then
    REPORTERROR "Invalid operation. Shader programs must be bound before they can be used." g
  else g

def GetUniformLocation (name : String) (g : GLContext) (p : QfxProgram) : QfxProgram × Int :=
  match p.uniformCache.lookup name with
  | some location => (p, location)
  | none =>
    let location := g.uniformLocation p.id name
    ({ p with uniformCache := (name, location) :: p.uniformCache }, location)

/-- `SetUniform(const std::string&, int)`. -/
def SetUniform (name : String) (value : Int) (g : GLContext) (p : QfxProgram) :
    GLContext × QfxProgram :=
  let g := p.Validate g
  let (p, location) := p.GetUniformLocation name g
  (g.record (.glUniform1i location value), p)

end QfxProgram

/-! ## `QfxBuffer` (render/qfx_buffer.cpp) -/

def GL_ARRAY_BUFFER_BINDING : Nat := 0x8894
def GL_ELEMENT_ARRAY_BUFFER_BINDING : Nat := 0x8895
def GL_PIXEL_PACK_BUFFER : Nat := 0x88EB
def GL_PIXEL_UNPACK_BUFFER : Nat := 0x88EC
def GL_PIXEL_PACK_BUFFER_BINDING : Nat := 0x88ED
def GL_PIXEL_UNPACK_BUFFER_BINDING : Nat := 0x88EF
def GL_UNIFORM_BUFFER : Nat := 0x8A11
def GL_UNIFORM_BUFFER_BINDING : Nat := 0x8A28
def GL_TRANSFORM_FEEDBACK_BUFFER : Nat := 0x8C8E
def GL_TRANSFORM_FEEDBACK_BUFFER_BINDING : Nat := 0x8C8F
def GL_SHADER_STORAGE_BUFFER : Nat := 0x90D2
def GL_SHADER_STORAGE_BUFFER_BINDING : Nat := 0x90D3
def GL_DISPATCH_INDIRECT_BUFFER : Nat := 0x90EE
def GL_DISPATCH_INDIRECT_BUFFER_BINDING : Nat := 0x90EF

structure QfxBuffer where
  id : Nat
  target : Nat
  binding : Nat
  pattern : Nat
  deriving DecidableEq, Repr

namespace QfxBuffer

def GetBufferContextBinding (target : Nat) : Nat :=
  if target = GL_ARRAY_BUFFER then GL_ARRAY_BUFFER_BINDING
  else if target = GL_DISPATCH_INDIRECT_BUFFER then GL_DISPATCH_INDIRECT_BUFFER_BINDING
  else if target = GL_ELEMENT_ARRAY_BUFFER then GL_ELEMENT_ARRAY_BUFFER_BINDING
  else if target = GL_PIXEL_PACK_BUFFER then GL_PIXEL_PACK_BUFFER_BINDING
  else if target = GL_PIXEL_UNPACK_BUFFER then GL_PIXEL_UNPACK_BUFFER_BINDING
  else if target = GL_SHADER_STORAGE_BUFFER then GL_SHADER_STORAGE_BUFFER_BINDING
  else if target = GL_TRANSFORM_FEEDBACK_BUFFER then GL_TRANSFORM_FEEDBACK_BUFFER_BINDING
  else if target = GL_UNIFORM_BUFFER then GL_UNIFORM_BUFFER_BINDING
  else ENUM_INVALID

/-- Constructor `QfxBuffer()`: an empty, invalid wrapper. -/
def constructEmpty : QfxBuffer :=
  { id := 0, target := ENUM_INVALID, binding := ENUM_INVALID, pattern := ENUM_INVALID }

/-- Constructor `QfxBuffer(target, pattern)`. -/
def construct (target pattern : Nat) (g : GLContext) : GLContext × QfxBuffer :=
  let (g, name) := genName g
  (g.record (.glGenBuffers name),
   { id := name, target := target, binding := GetBufferContextBinding target,
     pattern := pattern })

/-- `GetCurrentBuffer(BufferContextBinding)`: `glGetIntegerv(binding, &name)`; the array and
element array binding points are kept in the context record. -/
def GetCurrentBufferAt (binding : Nat) (g : GLContext) : Nat :=
  if binding = GL_ARRAY_BUFFER_BINDING then g.arrayBuffer
  else if binding = GL_ELEMENT_ARRAY_BUFFER_BINDING then g.elementArrayBuffer
  else 0

/-- `GetCurrentBuffer(BufferBindingTargets)`. -/
def GetCurrentBuffer (target : Nat) (g : GLContext) : Nat :=
  GetCurrentBufferAt (GetBufferContextBinding target) g

def GetIsBufferBound (id binding : Nat) (g : GLContext) : Bool :=
  id ≠ 0 && (GetCurrentBufferAt binding g = id)

def ValidateBuffer (id binding : Nat) (bindRequired : Bool) (g : GLContext) : GLContext :=
  if g.NDEBUG then g
  else if (bindRequired ∧ id = 0) ∨ binding = ENUM_INVALID then
    REPORTERROR "Cannot perform operations on non-existant buffers or buffers with invalid bindings or usage patterns." g
  else if bindRequired ∧ GetIsBufferBound id binding g = false then
    REPORTERROR "The buffer must be bound to the current context to use this function." g
  else g

def Validate (b : QfxBuffer) (bindRequired : Bool) (g : GLContext) : GLContext :=
  if g.NDEBUG then g
  else if b.target = ENUM_INVALID ∨ b.pattern = ENUM_INVALID then
    REPORTERROR "Cannot perform operations on non-existant buffers or buffers with invalid bindings or usage patterns." g
  else ValidateBuffer b.id b.binding bindRequired g

def Bind (b : QfxBuffer) (g : GLContext) : GLContext :=
  glBindBuffer b.target b.id (b.Validate false g)

def SetData (b : QfxBuffer) (g : GLContext) : GLContext :=
  (b.Validate true g).record (.glBufferData b.target b.pattern)

def BindBuffer (target id : Nat) (g : GLContext) : GLContext :=
  glBindBuffer target id (ValidateBuffer id (GetBufferContextBinding target) false g)

end QfxBuffer

/-! ## `QfxVertexArrayObj` (render/qfx_vertex_array_obj.cpp) -/

structure QfxVertexArrayObj where
  id : Nat
  deriving DecidableEq, Repr

namespace QfxVertexArrayObj

/-- Constructor `QfxVertexArrayObj()`. -/
def construct (g : GLContext) : GLContext × QfxVertexArrayObj :=
  let (g, name) := genName g
  (g.record (.glGenVertexArrays name), { id := name })

def GetCurrentVAO (g : GLContext) : Nat := g.vertexArray

def IsBound (v : QfxVertexArrayObj) (g : GLContext) : Bool :=
  v.id ≠ 0 && (GetCurrentVAO g = v.id)

def Validate (v : QfxVertexArrayObj) (g : GLContext) : GLContext :=
  if g.NDEBUG then g
  else if !v.IsBound g then
    REPORTERROR "Vertex array objects must be bound before they can be used." g
  else g

def Bind (v : QfxVertexArrayObj) (g : GLContext) : GLContext := glBindVertexArray v.id g

def BindVAO (id : Nat) (g : GLContext) : GLContext := glBindVertexArray id g

/-- `SetLayout` for the layout of the capture quad: two attributes of two floats each
(`GetSize() = 2 * 4`, stride 16). -/
def SetLayoutQuad (v : QfxVertexArrayObj) (g : GLContext) : GLContext :=
  let g := v.Validate g
  let g := g.record (.glEnableVertexAttribArray 0)
  let g := g.record (.glVertexAttribPointer 0 2 GL_FLOAT false 16 0)
  let g := g.record (.glEnableVertexAttribArray 1)
  g.record (.glVertexAttribPointer 1 2 GL_FLOAT false 16 8)

end QfxVertexArrayObj

/-! ## `CaptureBuffer` (render/qfx_capture_buffer.cpp) -/

/-- Members of `CaptureBuffer`, in declaration order.  The quad coordinates are the
integral floats of the source. -/
structure CaptureBuffer where
  fbo : QfxFramebufferObj
  lastDrawFbo : Nat
  lastReadFbo : Nat
  texture : QfxTexture2D
  vao : QfxVertexArrayObj
  vertexBuffer : QfxBuffer
  indexBuffer : QfxBuffer
  program : QfxProgram
  vertices : List (Int × Int)
  triangles : List (Int × Int × Int)
  viewport : IVec4
  capturing : Bool
  captured : Bool
  deriving DecidableEq, Repr

namespace CaptureBuffer

/-- Constructor `CaptureBuffer()`.  `linked` is the value of
`QfxProgram(std::string(defaultShaderSrc))` (compiling and linking the built-in shader is
left to the driver; when it throws no object exists), `vp0` the indeterminate initial
content of the member `viewport`. -/
def construct (linked : QfxProgram) (vp0 : IVec4) (g : GLContext) : GLContext × CaptureBuffer :=
  -- member initialisation
  let (g, fbo) := QfxFramebufferObj.construct g
  let (g, texture) := QfxTexture2D.construct g
  let (g, vao) := QfxVertexArrayObj.construct g
  -- body
  let (g, lastDrawFbo) := QfxFramebufferObj.GetCurrent GL_DRAW_FRAMEBUFFER g
  let (g, lastReadFbo) := QfxFramebufferObj.GetCurrent GL_READ_FRAMEBUFFER g
  let lastVao := QfxVertexArrayObj.GetCurrentVAO g
  let lastVBuff := QfxBuffer.GetCurrentBuffer GL_ARRAY_BUFFER g
  let lastIBuff := QfxBuffer.GetCurrentBuffer GL_ELEMENT_ARRAY_BUFFER g
  let lastProgram := QfxProgram.GetCurrentProgram g
  let lastTexture := QfxTextureBase.GetCurrentTexture GL_TEXTURE_BINDING_2D g
  let lastTexUnit := QfxTextureBase.GetActiveTextureUnit g
  let (g, fbo) := fbo.Bind GL_FRAMEBUFFER g
  let g := QfxFramebufferObj.SetDrawBuffer GL_COLOR_ATTACHMENT0 0 g
  let (g, texture) := texture.Bind lastTexUnit g
  let g := fbo.SetFramebufferTexture texture.id GL_FRAMEBUFFER GL_COLOR_ATTACHMENT0 0 0 g
  let g := vao.Bind g
  let (g, vertexBuffer) := QfxBuffer.construct GL_ARRAY_BUFFER GL_STATIC_DRAW g
  let g := vertexBuffer.Bind g
  let g := vertexBuffer.SetData g
  let (g, indexBuffer) := QfxBuffer.construct GL_ELEMENT_ARRAY_BUFFER GL_STATIC_DRAW g
  let g := indexBuffer.Bind g
  let g := indexBuffer.SetData g
  let g := vao.SetLayoutQuad g
  let g := QfxVertexArrayObj.BindVAO lastVao g
  let g := QfxBuffer.BindBuffer GL_ARRAY_BUFFER lastVBuff g
  let g := QfxBuffer.BindBuffer GL_ELEMENT_ARRAY_BUFFER lastIBuff g
  let g := QfxProgram.BindProgram lastProgram g
  let g := QfxTextureBase.BindTexture GL_TEXTURE_2D lastTexture lastTexUnit g
  let g := QfxFramebufferObj.BindFramebuffer lastReadFbo GL_READ_FRAMEBUFFER g
  let g := QfxFramebufferObj.BindFramebuffer lastDrawFbo GL_DRAW_FRAMEBUFFER g
  (g, { fbo := fbo, lastDrawFbo := lastDrawFbo, lastReadFbo := lastReadFbo, texture := texture,
        vao := vao, vertexBuffer := vertexBuffer, indexBuffer := indexBuffer, program := linked,
        vertices := [(-1, -1), (0, 0), (-1, 1), (0, 1), (1, 1), (1, 1), (1, -1), (1, 0)],
        triangles := [(0, 1, 2), (0, 2, 3)],
        viewport := vp0, capturing := false, captured := false })

def GetIsCapturing (cb : CaptureBuffer) : Bool := cb.capturing

def GetIsCaptured (cb : CaptureBuffer) : Bool := cb.captured

/-- `StartCapture(glm::ivec4 vp)`. -/
def StartCaptureVp (vp : IVec4) (g : GLContext) (cb : CaptureBuffer) : GLContext × CaptureBuffer :=
  if !cb.capturing && !cb.captured then
    let cb := { cb with viewport := vp }
    let lastTexture := QfxTextureBase.GetCurrentTexture GL_TEXTURE_BINDING_2D g
    let lastTexUnit := QfxTextureBase.GetActiveTextureUnit g
    let (g, lastReadFbo) := QfxFramebufferObj.GetCurrent GL_READ_FRAMEBUFFER g
    let (g, lastDrawFbo) := QfxFramebufferObj.GetCurrent GL_DRAW_FRAMEBUFFER g
    let (g, texture) := cb.texture.Bind lastTexUnit g
    let (g, texture) := texture.SetSize ⟨vp.z, vp.w⟩ g
    let (g, fbo) := cb.fbo.Bind GL_FRAMEBUFFER g
    let g := QfxFramebufferObj.SetDrawBuffer GL_COLOR_ATTACHMENT0 0 g
    let g := fbo.SetFramebufferTexture texture.id GL_FRAMEBUFFER GL_COLOR_ATTACHMENT0 0 0 g
    let g := glViewport vp.x vp.y vp.z vp.w g
    let g := fbo.Clear GL_COLOR_BUFFER_BIT g
    let g := QfxTextureBase.BindTexture GL_TEXTURE_2D lastTexture lastTexUnit g
    (g, { cb with lastReadFbo := lastReadFbo, lastDrawFbo := lastDrawFbo, texture := texture,
                  fbo := fbo, captured := false, capturing := true })
  else (g, cb)

/-- `StartCapture()`: reads `GL_VIEWPORT` and starts capturing with it. -/
def StartCapture (g : GLContext) (cb : CaptureBuffer) : GLContext × CaptureBuffer :=
  StartCaptureVp g.viewport g cb

def ResumeCapture (g : GLContext) (cb : CaptureBuffer) : GLContext × CaptureBuffer :=
  if cb.captured then
    let (g, lastReadFbo) := QfxFramebufferObj.GetCurrent GL_READ_FRAMEBUFFER g
    let (g, lastDrawFbo) := QfxFramebufferObj.GetCurrent GL_DRAW_FRAMEBUFFER g
    let (g, fbo) := cb.fbo.Bind GL_FRAMEBUFFER g
    let g := QfxFramebufferObj.SetDrawBuffer GL_COLOR_ATTACHMENT0 0 g
    let g := fbo.SetFramebufferTexture cb.texture.id GL_FRAMEBUFFER GL_COLOR_ATTACHMENT0 0 0 g
    let g := glViewport cb.viewport.x cb.viewport.y cb.viewport.z cb.viewport.w g
    (g, { cb with lastReadFbo := lastReadFbo, lastDrawFbo := lastDrawFbo, fbo := fbo })
  else (g, cb)

def StopCapture (g : GLContext) (cb : CaptureBuffer) : GLContext × CaptureBuffer :=
  if cb.capturing then
    let g := QfxFramebufferObj.BindFramebuffer cb.lastReadFbo GL_READ_FRAMEBUFFER g
    let g := QfxFramebufferObj.BindFramebuffer cb.lastDrawFbo GL_DRAW_FRAMEBUFFER g
    (g, { cb with captured := true, capturing := false })
  else (g, cb)

def Draw (g : GLContext) (cb : CaptureBuffer) : GLContext × CaptureBuffer :=
  let (g, cb) := StopCapture g cb
  if cb.captured then
    let lastVao := QfxVertexArrayObj.GetCurrentVAO g
    let lastVBuff := QfxBuffer.GetCurrentBuffer GL_ARRAY_BUFFER g
    let lastIBuff := QfxBuffer.GetCurrentBuffer GL_ELEMENT_ARRAY_BUFFER g
    let lastProgram := QfxProgram.GetCurrentProgram g
    let lastTexture := QfxTextureBase.GetCurrentTexture GL_TEXTURE_BINDING_2D g
    let lastTexUnit := QfxTextureBase.GetActiveTextureUnit g
    let (g, texture) := cb.texture.Bind lastTexUnit g
    let g := cb.program.Bind g
    let (g, program) := cb.program.SetUniform "u_Texture" lastTexUnit g
    let g := cb.vao.Bind g
    let g := g.record (.glDrawElements GL_TRIANGLES (cb.triangles.length * 3) GL_UNSIGNED_INT)
    let g := QfxVertexArrayObj.BindVAO lastVao g
    let g := QfxBuffer.BindBuffer GL_ARRAY_BUFFER lastVBuff g
    let g := QfxBuffer.BindBuffer GL_ELEMENT_ARRAY_BUFFER lastIBuff g
    let g := QfxProgram.BindProgram lastProgram g
    let g := QfxTextureBase.BindTexture GL_TEXTURE_2D lastTexture lastTexUnit g
    (g, { cb with texture := texture, program := program, captured := false })
  else (g, cb)

end CaptureBuffer

/-! ## `QfxRenderBuffer` (render/qfx_render_buffer.cpp) -/

def GL_RENDERBUFFER_BINDING : Nat := 0x8CA7

structure QfxRenderBuffer where
  id : Nat
  internalFormat : Nat
  dim : IVec2
  samples : Int
  deriving DecidableEq, Repr

namespace QfxRenderBuffer

def GetCurrentRenderbuffer (g : GLContext) : Nat := g.renderbuffer

def Validate (rb : QfxRenderBuffer) (g : GLContext) : GLContext :=
  if g.NDEBUG then g
  else if GetCurrentRenderbuffer g ≠ rb.id then
    REPORTERROR "Renderbuffer objects must be bound before they can be oeprated on." g
  else g

def Bind (rb : QfxRenderBuffer) (g : GLContext) : GLContext :=
  glBindRenderbuffer GL_RENDERBUFFER rb.id g

def Unbind (rb : QfxRenderBuffer) (g : GLContext) : GLContext :=
  glBindRenderbuffer GL_RENDERBUFFER 0 (rb.Validate g)

/-- Constructor `QfxRenderBuffer(internalFormat, dim, samples)`; the member `samples` starts
at 0 whatever the argument is. -/
def construct (internalFormat : Nat) (dim : IVec2) (samples : Int) (g : GLContext) :
    GLContext × QfxRenderBuffer :=
  let (g, name) := genName g
  let g := g.record (.glGenRenderbuffers name)
  let rb : QfxRenderBuffer :=
    { id := name, internalFormat := internalFormat, dim := dim, samples := 0 }
  if dim.x > 0 ∨ dim.y > 0 then
    let g := rb.Bind g
    (g.record (.glRenderbufferStorageMultisample GL_RENDERBUFFER samples internalFormat
      dim.x dim.y), rb)
  else (g, rb)

def SetSize (newSize : IVec2) (newSamples : Int) (g : GLContext) (rb : QfxRenderBuffer) :
    GLContext × QfxRenderBuffer :=
  let g := rb.Validate g
  if newSize ≠ rb.dim ∨ (newSamples ≠ -1 ∧ newSamples ≠ rb.samples) then
    let rb := { rb with samples := if newSamples ≠ -1 then newSamples else rb.samples }
    let rb := { rb with dim := newSize }
    let g := glDeleteRenderbuffers rb.id g
    let (g, name) := genName g
    let g := g.record (.glGenRenderbuffers name)
    let rb := { rb with id := name }
    let g := rb.Bind g
    (g.record (.glRenderbufferStorageMultisample GL_RENDERBUFFER rb.samples rb.internalFormat
      rb.dim.x rb.dim.y), rb)
  else (g, rb)

end QfxRenderBuffer

/-! ## `QfxRenderer` (render/qfx_renderer.cpp) -/

/-- `QfxConfig` (qfx_runtime.hpp). -/
structure QfxConfig where
  renderFrame : Int
  anisotropyLevel : Int
  msaaFactor : Int
  deriving DecidableEq, Repr

/-- Members of `QfxRenderer`, in declaration order; handles are numbers, `NULL` is 0. -/
structure QfxRenderer where
  curDevContext : Nat
  curRenderContext : Nat
  lastMatrixMode : Nat
  viewport : IVec4
  vpSize : IVec2
  uiCap : CaptureBuffer
  sceneFbo : QfxFramebufferObj
  colorBuf : QfxRenderBuffer
  depthStencilBuf : QfxRenderBuffer
  curFrameOffset : Int
  lastFrameCount : Nat
  frameCount : Nat
  viewportFrame : Nat
  skipQfxRender : Bool
  maxAnisotropy : Nat
  maxMsaa : Nat
  deriving DecidableEq, Repr

namespace QfxRenderer

/-- Constructor `QfxRenderer()`; `linked` and `vp0` are handed to the constructor of the
member `uiCap`. -/
def construct (linked : QfxProgram) (vp0 : IVec4) (g : GLContext) : GLContext × QfxRenderer :=
  let (g, uiCap) := CaptureBuffer.construct linked vp0 g
  let (g, sceneFbo) := QfxFramebufferObj.construct g
  let (g, colorBuf) := QfxRenderBuffer.construct GL_RGBA8 ⟨0, 0⟩ 0 g
  let (g, depthStencilBuf) := QfxRenderBuffer.construct GL_DEPTH24_STENCIL8 ⟨0, 0⟩ 0 g
  (g, { curDevContext := 0, curRenderContext := 0, lastMatrixMode := GL_MODELVIEW,
        viewport := ⟨0, 0, 0, 0⟩, vpSize := ⟨0, 0⟩, uiCap := uiCap, sceneFbo := sceneFbo,
        colorBuf := colorBuf, depthStencilBuf := depthStencilBuf, curFrameOffset := 0,
        lastFrameCount := 0, frameCount := 0, viewportFrame := 0, skipQfxRender := false,
        maxAnisotropy := 0, maxMsaa := 0 })

def OnMatrixModeChanged (mode : Nat) (r : QfxRenderer) : QfxRenderer :=
  { r with lastMatrixMode := mode }

/-- `OnSetBlendFunc`: the trampoline forwards a blend function to the hooked `glBlendFunc`. -/
def OnSetBlendFunc (sfactor dfactor : Nat) (g : GLContext) (r : QfxRenderer) : GLContext :=
  if r.uiCap.GetIsCapturing then g.record (.glBlendFunc GL_SRC_ALPHA GL_ONE_MINUS_SRC_ALPHA)
  else g.record (.glBlendFunc sfactor dfactor)

def OnBindTex2D (cfg : QfxConfig) (g : GLContext) (r : QfxRenderer) : GLContext :=
  if r.maxAnisotropy > 1 then
    let value : Int := max 1 (min (wrapInt32 r.maxAnisotropy) cfg.anisotropyLevel)
    g.record (.glTexParameteri GL_TEXTURE_2D GL_TEXTURE_MAX_ANISOTROPY_EXT value)
  else g

def OnProjection (cfg : QfxConfig) (isOrthographic : Bool) (g : GLContext) (r : QfxRenderer) :
    GLContext × QfxRenderer :=
  if isOrthographic then
    let r :=
      if r.lastFrameCount ≠ r.frameCount then
        { r with lastFrameCount := r.frameCount, curFrameOffset := 0 }
      else
        { r with curFrameOffset := wrapInt32 (r.curFrameOffset + 1) }
    if r.curFrameOffset = cfg.renderFrame then
      if !r.skipQfxRender && cfg.renderFrame != -1 then
        let (g, uiCap) := r.uiCap.StartCapture g
        (g, { r with uiCap := uiCap })
      else (g, r)
    else (g, r)
  else
    if r.viewportFrame ≠ r.frameCount then (g, { r with viewportFrame := r.frameCount })
    else (g, r)

/-- `OnSwapBuffers(hdc)`; `success` is what the host's real swap returns.  The two swap
trampolines are recorded as commands. -/
def OnSwapBuffers (cfg : QfxConfig) (hdc : Nat) (success : Bool) (g : GLContext)
    (r : QfxRenderer) : (GLContext × QfxRenderer) × Bool :=
  let (g, uiCap) := r.uiCap.StopCapture g
  let r := { r with uiCap := uiCap }
  let (g, sceneFbo) :=
    if r.sceneFbo.GetIsBound g then
      r.sceneFbo.BlitTo GL_COLOR_ATTACHMENT0 0 GL_BACK r.vpSize
        (GL_COLOR_BUFFER_BIT ||| GL_DEPTH_BUFFER_BIT ||| GL_STENCIL_BUFFER_BIT) true false g
    else (g, r.sceneFbo)
  let r := { r with sceneFbo := sceneFbo }
  let g := g.record (.reshadeSwapBuffers hdc)
  let (g, r) :=
    if hdc ≠ 0 then
      let (g, uiCap) :=
        if r.uiCap.GetIsCaptured then
          let g := g.record (.glEnable GL_BLEND)
          let g := g.record (.glBlendFunc GL_SRC_ALPHA GL_ONE_MINUS_SRC_ALPHA)
          r.uiCap.Draw g
        else (g, r.uiCap)
      (g, { r with uiCap := uiCap, frameCount := (r.frameCount + 1) % UINT_RANGE })
    else (g, r)
  let g := g.record (.baseSwapBuffers hdc)
  let r := { r with viewport := g.viewport }
  let r := { r with vpSize := ⟨r.viewport.z, r.viewport.w⟩ }
  let msaaFactor : Int := min (wrapInt32 r.maxMsaa) cfg.msaaFactor
  let (g, sceneFbo) := r.sceneFbo.Bind GL_FRAMEBUFFER g
  let g := QfxFramebufferObj.SetDrawBuffer GL_COLOR_ATTACHMENT0 0 g
  let g := r.colorBuf.Bind g
  let (g, colorBuf) := r.colorBuf.SetSize r.vpSize msaaFactor g
  let g := r.depthStencilBuf.Bind g
  let (g, depthStencilBuf) := r.depthStencilBuf.SetSize r.vpSize msaaFactor g
  let g := depthStencilBuf.Unbind g
  let g := sceneFbo.SetFrameBufferRenderBuffer colorBuf.id GL_COLOR_ATTACHMENT0 GL_FRAMEBUFFER 0 g
  let g := sceneFbo.SetFrameBufferRenderBuffer depthStencilBuf.id GL_DEPTH_STENCIL_ATTACHMENT
    GL_FRAMEBUFFER 0 g
  ((g, { r with sceneFbo := sceneFbo, colorBuf := colorBuf, depthStencilBuf := depthStencilBuf }),
   success)

end QfxRenderer

/-! ## The intercepted OpenGL entry points (opengl/qfx_opengl_hooks.cpp) -/

/-- Everything the exported hooks reach: the OpenGL context, the configuration returned by
`QfxRuntime::GetConfig()`, the static members of `QfxRenderer` (`instancePtr` is the static member `instance`), and whether
`g_current_runtime` is set and has a compatibility context (`runtimeCompat`).
`linkedProgram` and `staleViewport` are the arguments of `QfxRenderer.construct` used when
`GetInstance` creates the renderer. -/
structure World where
  gl : GLContext
  cfg : QfxConfig
  isInitialized : Bool
  isContextInitialized : Bool
  runtimeCompat : Bool
  instancePtr : Option QfxRenderer
  linkedProgram : QfxProgram
  staleViewport : IVec4

namespace World

/-- `QfxRenderer::GetIsInitialized()`. -/
def GetIsInitialized (w : World) : Bool :=
  w.isInitialized && w.instancePtr.isSome && w.runtimeCompat

/-- `QfxRenderer::GetInstance()`, the macro `RENDERER`: creates the renderer on first use. -/
def GetInstance (w : World) : World :=
  if w.isInitialized && w.instancePtr.isNone && w.runtimeCompat then
    let (g, r) := QfxRenderer.construct w.linkedProgram w.staleViewport w.gl
    { w with gl := g, instancePtr := some r }
  else w

/-- The macro `MATRIXMODE`: `RENDERER->GetLastMatrixMode()`, read when the instance exists. -/
def MATRIXMODE (w : World) : Option Nat := w.instancePtr.map (·.lastMatrixMode)

/-- `RENDERER->OnMatrixModeChanged(mode)`. -/
def OnMatrixModeChanged (mode : Nat) (w : World) : World :=
  { w with instancePtr := w.instancePtr.map (QfxRenderer.OnMatrixModeChanged mode) }

/-- `RENDERER->OnProjection(isOrthographic)`. -/
def OnProjection (isOrthographic : Bool) (w : World) : World :=
  match w.instancePtr with
  | some r =>
    let (g, r) := r.OnProjection w.cfg isOrthographic w.gl
    { w with gl := g, instancePtr := some r }
  | none => w

/-- `RENDERER->OnSetBlendFunc(sfactor, dfactor)`. -/
def OnSetBlendFunc (sfactor dfactor : Nat) (w : World) : World :=
  match w.instancePtr with
  | some r => { w with gl := r.OnSetBlendFunc sfactor dfactor w.gl }
  | none => w

/-- `RENDERER->OnBindTex2D()`. -/
def OnBindTex2D (w : World) : World :=
  match w.instancePtr with
  | some r => { w with gl := r.OnBindTex2D w.cfg w.gl }
  | none => w

/-- `RENDERER->OnSwapBuffers(hdc)`. -/
def OnSwapBuffers (hdc : Nat) (success : Bool) (w : World) : World × Bool :=
  match w.instancePtr with
  | some r =>
    let ((g, r), ok) := r.OnSwapBuffers w.cfg hdc success w.gl
    ({ w with gl := g, instancePtr := some r }, ok)
  | none => (w, false)

/-- A trampoline call: the command goes on to the hooked implementation. -/
def forward (c : GLCall) (w : World) : World := { w with gl := w.gl.record c }

end World

/-- `IS_3D_PROJECTION_MATRIX(x)`: `(x[2*4+3] < 0)`. -/
def IS_3D_PROJECTION_MATRIX (x : Fin 16 → GLreal) : Bool := (x ⟨2 * 4 + 3, by decide⟩).ltZero

def qfx_glMatrixMode (mode : Nat) (w : World) : World :=
  let w := w.GetInstance
  let w := if w.GetIsInitialized then w.GetInstance.OnMatrixModeChanged mode else w
  w.forward (.glMatrixMode mode)

def qfx_glLoadMatrixd (m : Fin 16 → GLreal) (w : World) : World :=
  let w := w.forward (.glLoadMatrixd (List.ofFn m))
  let w := w.GetInstance
  if w.GetIsInitialized && w.GetInstance.MATRIXMODE == some GL_PROJECTION then
    w.GetInstance.OnProjection (!IS_3D_PROJECTION_MATRIX m)
  else w

def qfx_glLoadMatrixf (m : Fin 16 → GLreal) (w : World) : World :=
  let w := w.forward (.glLoadMatrixf (List.ofFn m))
  let w := w.GetInstance
  if w.GetIsInitialized && w.GetInstance.MATRIXMODE == some GL_PROJECTION then
    w.GetInstance.OnProjection (!IS_3D_PROJECTION_MATRIX m)
  else w

def qfx_glFrustum (left right bottom top zNear zFar : GLreal) (w : World) : World :=
  let w := w.forward (.glFrustum left right bottom top zNear zFar)
  let w := w.GetInstance
  if w.GetIsInitialized && w.GetInstance.MATRIXMODE == some GL_PROJECTION then
    w.GetInstance.OnProjection false
  else w

def qfx_glOrtho (left right bottom top zNear zFar : GLreal) (w : World) : World :=
  let w := w.forward (.glOrtho left right bottom top zNear zFar)
  let w := w.GetInstance
  if w.GetIsInitialized && w.GetInstance.MATRIXMODE == some GL_PROJECTION then
    w.GetInstance.OnProjection true
  else w

def qfx_glBlendFunc (sfactor dfactor : Nat) (w : World) : World :=
  let w := w.GetInstance
  if w.GetIsInitialized then w.GetInstance.OnSetBlendFunc sfactor dfactor
  else w.forward (.glBlendFunc sfactor dfactor)

def qfx_glBindTexture (target texture : Nat) (w : World) : World :=
  let w := { w with gl := glBindTexture target texture w.gl }
  let w := w.GetInstance
  if w.GetIsInitialized && target = GL_TEXTURE_2D then w.GetInstance.OnBindTex2D else w

def qfx_wglSwapBuffers (hdc : Nat) (reshadeResult baseResult : Bool) (w : World) :
    World × Bool :=
  let w := w.GetInstance
  if !w.GetIsInitialized then (w.forward (.reshadeSwapBuffers hdc), reshadeResult)
  else w.GetInstance.OnSwapBuffers hdc baseResult

/-! ## Hook target matching and installation (qfx_hook_manager.cpp) -/

/-- `strcmp` on the characters before the terminating NUL. -/
def strcmp : List Char → List Char → Int
  | [], [] => 0
  | [], _ :: _ => -1
  | _ :: _, [] => 1
  | a :: as, b :: bs => if a = b then strcmp as bs else if a.toNat < b.toNat then -1 else 1

/-- `strstr(haystack, needle)`: the offset of the first occurrence of `needle`, or `none`
for a null result. -/
def strstr : List Char → List Char → Option Nat
  | [], needle => if needle.isPrefixOf [] then some 0 else none
  | c :: rest, needle =>
    if needle.isPrefixOf (c :: rest) then some 0 else (strstr rest needle).map (· + 1)

/-- `ModuleExport`: `address` 0 is `nullptr`, `name` `none` is `nullptr`; the characters of a
name are its `char`s before the terminating NUL. -/
structure ModuleExport where
  address : Nat
  name : Option String
  ordinal : Nat
  deriving DecidableEq, Repr

/-- `RepTargPair`: the two pointers into the export vector are positions in it; a null
`target` is `none`. -/
structure RepTargPair where
  replacement : Nat
  target : Option Nat
  deriving DecidableEq, Repr

/-- Arguments of one `hooks::install(name, target, replacement, queue_enable)` call. -/
structure InstallRequest where
  name : Option String
  target : Nat
  replacement : Nat
  queue_enable : Bool
  deriving DecidableEq, Repr

/-- What the hook manager asks of the host and of the log, in order. -/
inductive HookEvent where
  | install (request : InstallRequest)
  | apply_queued_actions
  | LogInfo (format : String) (count : Nat)
  | LogError (format : String) (name : Option String)
  deriving DecidableEq, Repr

/-- First loop of `GetQfxReshadeHookPairs`, from the export at position `i` on. -/
def collectReplacements (pfx : String) : List ModuleExport → Nat → List RepTargPair
  | [], _ => []
  | symbol :: rest, i =>
    match symbol.name with
    | some name =>
      if symbol.address ≠ 0 ∧ (strstr name.toList pfx.toList).isSome then
        { replacement := i, target := none } :: collectReplacements pfx rest (i + 1)
      else collectReplacements pfx rest (i + 1)
    | none => collectReplacements pfx rest (i + 1)

/-- Inner loop of `GetQfxReshadeHookPairs`: the first export, from position `j` on, that is
not the replacement itself, has a name and an address, and whose name compares equal to
`stripped`, the string at `pair.replacement->name + 4`. -/
def findTarget (replacement : Nat) (stripped : List Char) : List ModuleExport → Nat → Option Nat
  | [], _ => none
  | symbol :: rest, j =>
    match symbol.name with
    | some name =>
      if j ≠ replacement ∧ symbol.address ≠ 0 ∧ strcmp stripped name.toList = 0 then some j
      else findTarget replacement stripped rest (j + 1)
    | none => findTarget replacement stripped rest (j + 1)

/-- The string at `name + 4`.  `TryInstallGlHooks` passes the four-character prefix `qfx_`, and
every candidate name contains the prefix, so the pointer stays inside the string
(`candidate_name_length`); for a name of fewer than four characters the C expression would
point past the terminator, and the model yields the empty string. -/
def skipFour (name : String) : List Char := name.toList.drop 4

/-- Second loop of `GetQfxReshadeHookPairs` for one pair. -/
def matchTarget (reshadeExports : List ModuleExport) (pair : RepTargPair) : RepTargPair :=
  match reshadeExports.get? pair.replacement with
  | some replacement =>
    match replacement.name with
    | some name =>
      match findTarget pair.replacement (skipFour name) reshadeExports 0 with
      | some j => { pair with target := some j }
      | none => pair
    | none => pair
  | none => pair

def GetQfxReshadeHookPairs (reshadeExports : List ModuleExport) (pfx : String) :
    List RepTargPair × List HookEvent :=
  let log := [HookEvent.LogInfo "Loaded %i exported functions from the local module."
    reshadeExports.length]
  let repTargPairs := collectReplacements pfx reshadeExports 0
  (repTargPairs.map (matchTarget reshadeExports), log)

/-- Static members of `QfxHookManager`, and the requests made so far. -/
structure QfxHookManager where
  moduleHandle : Nat
  LibLoadCallback : Nat
  registered : Bool
  initialized : Bool
  glHooksInstalled : Bool
  events : List HookEvent
  deriving DecidableEq, Repr

namespace QfxHookManager

/-- The `for` loop of `TryInstallGlHooks` over the remaining pairs; the result carries the
value of `glHooksInstalled` after the loop. -/
def installLoop (reshadeExports : List ModuleExport) :
    List RepTargPair → Bool → List HookEvent → Bool × List HookEvent
  | [], installed, events => (installed, events)
  | hookPair :: rest, installed, events =>
    let replacement := (reshadeExports.get? hookPair.replacement).getD ⟨0, none, 0⟩
    match hookPair.target with
    | some t =>
      let target := (reshadeExports.get? t).getD ⟨0, none, 0⟩
      installLoop reshadeExports rest installed
        (events ++ [.install ⟨replacement.name, target.address, replacement.address, true⟩])
    | none =>
      if replacement.name.isSome then
        (false, events ++ [.LogError "Could not find hook target for %s" replacement.name])
      else installLoop reshadeExports rest installed events

/-- `TryInstallGlHooks()`; `reshadeExports` is the value of
`GetEnumeratedModuleExports(moduleHandle)`. -/
def TryInstallGlHooks (reshadeExports : List ModuleExport) (m : QfxHookManager) :
    QfxHookManager × Bool :=
  let m :=
    if m.initialized && !m.glHooksInstalled then
      let (reshadeHookPairs, log) := GetQfxReshadeHookPairs reshadeExports "qfx_"
      let m := { m with events := m.events ++ log, glHooksInstalled := true }
      if reshadeHookPairs.length > 0 then
        let events := m.events ++
          [.LogInfo "Found %i OpenGL Hooks. Installing..." reshadeHookPairs.length]
        let (installed, events) := installLoop reshadeExports reshadeHookPairs true events
        { m with events := events, glHooksInstalled := installed }
      else
        { m with events := m.events ++ [.LogError "No hook targets found." none],
                 glHooksInstalled := false }
    else m
  let m := { m with events := m.events ++ [.apply_queued_actions] }
  (m, m.glHooksInstalled)

/-- The install requests among a list of events, in order. -/
def installRequests : List HookEvent → List InstallRequest
  | [] => []
  | .install r :: rest => r :: installRequests rest
  | _ :: rest => installRequests rest

end QfxHookManager

/-! ## Notions used in the statements -/

/-- One step in the life of a capture buffer: one of its operations, or commands of the
host application that leave the OpenGL context as `after`. -/
inductive CaptureOp where
  | StartCapture
  | StartCaptureVp (vp : IVec4)
  | ResumeCapture
  | StopCapture
  | Draw
  | hostCommands (after : GLContext)

namespace CaptureOp

def run : CaptureOp → GLContext × CaptureBuffer → GLContext × CaptureBuffer
  | StartCapture, s => s.2.StartCapture s.1
  | StartCaptureVp vp, s => s.2.StartCaptureVp vp s.1
  | ResumeCapture, s => s.2.ResumeCapture s.1
  | StopCapture, s => s.2.StopCapture s.1
  | Draw, s => s.2.Draw s.1
  | hostCommands after, s => (after, s.2)

/-- Run a sequence of steps, first step first. -/
def runAll : List CaptureOp → GLContext × CaptureBuffer → GLContext × CaptureBuffer
  | [], s => s
  | op :: ops, s => runAll ops (op.run s)

end CaptureOp

namespace CaptureBuffer

/-- Pipeline state `Idle`: neither capturing nor captured. -/
def IsIdle (cb : CaptureBuffer) : Prop := cb.capturing = false ∧ cb.captured = false

/-- Pipeline state `Capturing`. -/
def IsCapturing (cb : CaptureBuffer) : Prop := cb.capturing = true ∧ cb.captured = false

/-- Pipeline state `Captured`. -/
def IsCaptured (cb : CaptureBuffer) : Prop := cb.capturing = false ∧ cb.captured = true

instance (cb : CaptureBuffer) : Decidable cb.IsIdle := by unfold IsIdle; infer_instance

instance (cb : CaptureBuffer) : Decidable cb.IsCapturing := by unfold IsCapturing; infer_instance

instance (cb : CaptureBuffer) : Decidable cb.IsCaptured := by unfold IsCaptured; infer_instance

end CaptureBuffer

/-- The states in which the specification calls an operation valid: `StartCapture` from
`Idle`, `StopCapture` from `Capturing`, `ResumeCapture` and `Draw` from `Captured`. -/
def CaptureOp.ValidIn : CaptureOp → CaptureBuffer → Prop
  | .StartCapture, cb => cb.IsIdle
  | .StartCaptureVp _, cb => cb.IsIdle
  | .StopCapture, cb => cb.IsCapturing
  | .ResumeCapture, cb => cb.IsCaptured
  | .Draw, cb => cb.IsCaptured
  | .hostCommands _, _ => True

/-- Every step of the sequence is invoked in a state in which it is valid. -/
def CaptureOp.Legal : List CaptureOp → GLContext × CaptureBuffer → Prop
  | [], _ => True
  | op :: ops, s => op.ValidIn s.2 ∧ CaptureOp.Legal ops (op.run s)

/-! ## Concrete inputs -/

/-- A release-build context with the default framebuffer bound and a 640 by 480 viewport. -/
def sampleContext : GLContext :=
  { drawFramebuffer := 0, readFramebuffer := 0, renderbuffer := 0, vertexArray := 0,
    arrayBuffer := 0, elementArrayOf := fun _ => 0, currentProgram := 0, activeUnit := 0,
    texture2D := fun _ => 0, viewport := ⟨0, 0, 640, 480⟩, nextName := 1,
    framebufferStatus := fun _ => GL_FRAMEBUFFER_COMPLETE, uniformLocation := fun _ _ => 0,
    NDEBUG := true, calls := [] }

/-- The built-in program as the driver linked it under name 9. -/
def sampleProgram : QfxProgram := { id := 9, uniformCache := [] }

/-- A freshly constructed capture buffer together with the context it leaves. -/
def sampleCapture : GLContext × CaptureBuffer :=
  CaptureBuffer.construct sampleProgram ⟨0, 0, 0, 0⟩ sampleContext

/-! ## Further notions and inputs: matcher, installer, classifier -/

/-- An export the first loop of the matcher accepts: it has an address and a name in which
`strstr` finds the prefix. -/
def ModuleExport.IsCandidate (pfx : String) (e : ModuleExport) : Prop :=
  e.address ≠ 0 ∧ ∃ n, e.name = some n ∧ (strstr n.toList pfx.toList).isSome = true

/-- The export has a name and the name starts with the prefix. -/
def ModuleExport.nameStartsWith (pfx : String) (e : ModuleExport) : Bool :=
  match e.name with
  | some n => pfx.toList.isPrefixOf n.toList
  | none => false

namespace QfxHookManager

/-- The install requests made by one call of `TryInstallGlHooks`, in order. -/
def requestsBy (reshadeExports : List ModuleExport) (m : QfxHookManager) : List InstallRequest :=
  (installRequests (TryInstallGlHooks reshadeExports m).1.events).drop
    (installRequests m.events).length

/-- The request the loop of `TryInstallGlHooks` makes for a pair. -/
def requestFor (reshadeExports : List ModuleExport) (p : RepTargPair) : InstallRequest :=
  ⟨((reshadeExports.get? p.replacement).getD ⟨0, none, 0⟩).name,
   (((p.target.bind reshadeExports.get?).getD ⟨0, none, 0⟩)).address,
   ((reshadeExports.get? p.replacement).getD ⟨0, none, 0⟩).address, true⟩

end QfxHookManager

/-- Three exports: a replacement without target, then a replacement and its target. -/
def unresolvedFirstExports : List ModuleExport :=
  [⟨1, some "qfx_glFrustum", 0⟩, ⟨2, some "qfx_glOrtho", 1⟩, ⟨3, some "glOrtho", 2⟩]

/-- Two exports: a replacement and its target. -/
def resolvedExports : List ModuleExport := [⟨1, some "qfx_glOrtho", 0⟩, ⟨2, some "glOrtho", 1⟩]

/-- The hook manager once the libraries are stable, before any install attempt. -/
def stableManager : QfxHookManager :=
  { moduleHandle := 100, LibLoadCallback := 0, registered := true, initialized := true,
    glHooksInstalled := false, events := [] }

namespace QfxRenderer

/-- Whether this classification starts capture: the capture buffer is not capturing before
`OnProjection` and is capturing after it. -/
def startsCapture (cfg : QfxConfig) (isOrthographic : Bool) (g : GLContext) (r : QfxRenderer) :
    Bool :=
  !r.uiCap.capturing && (r.OnProjection cfg isOrthographic g).2.uiCap.capturing

/-- For the classifications of a frame, in order (`true` is orthographic), whether each of
them starts capture. -/
def captureStarts (cfg : QfxConfig) : List Bool → GLContext → QfxRenderer → List Bool
  | [], _, _ => []
  | e :: es, g, r =>
    startsCapture cfg e g r ::
      captureStarts cfg es (r.OnProjection cfg e g).1 (r.OnProjection cfg e g).2

end QfxRenderer

/-- Configuration with capture target index 2. -/
def sampleConfig : QfxConfig := { renderFrame := 2, anisotropyLevel := 16, msaaFactor := 4 }

/-- A freshly created renderer together with the context it leaves. -/
def freshRenderer : GLContext × QfxRenderer :=
  QfxRenderer.construct sampleProgram ⟨0, 0, 0, 0⟩ sampleContext

/-- The renderer after a first frame without classifications, ended by a buffer swap with a
non-null device context. -/
def afterSwap : GLContext × QfxRenderer :=
  (freshRenderer.2.OnSwapBuffers sampleConfig 1 true freshRenderer.1).1

/-- The renderer after a first frame without classifications, a second frame with one
orthographic classification, and a buffer swap with a null device context. -/
def afterNullSwap : GLContext × QfxRenderer :=
  let s := (freshRenderer.2.OnSwapBuffers sampleConfig 1 true freshRenderer.1).1
  let s := s.2.OnProjection sampleConfig true s.1
  (s.2.OnSwapBuffers sampleConfig 0 false s.1).1

/-- The renderer exists, is initialised, and its recorded matrix mode is `GL_PROJECTION`. -/
def World.InProjectionMode (w : World) : Prop :=
  w.isInitialized = true ∧ w.runtimeCompat = true ∧
    ∃ r, w.instancePtr = some r ∧ r.lastMatrixMode = GL_PROJECTION

/-- A world whose renderer was created and switched to the projection matrix. -/
def sampleWorld : World :=
  { gl := freshRenderer.1, cfg := sampleConfig, isInitialized := true,
    isContextInitialized := true, runtimeCompat := true,
    instancePtr := some (freshRenderer.2.OnMatrixModeChanged GL_PROJECTION),
    linkedProgram := sampleProgram, staleViewport := ⟨0, 0, 0, 0⟩ }

/-- A matrix that is zero except for the entry at flattened index 11. -/
def matrixWith11 (x : GLreal) : Fin 16 → GLreal := fun i => if i = 11 then x else .finite 0

/-! ## Further notions and inputs: commands issued, bindings -/

/-- Commands issued between the context `before` and the later context `after`. -/
def GLContext.issuedSince (after before : GLContext) : List GLCall :=
  after.calls.drop before.calls.length

/-- The command clears a buffer or allocates texture storage. -/
def GLCall.isClearOrResize : GLCall → Bool
  | .glClear _ => true
  | .glTexImage2D _ _ _ _ _ _ _ => true
  | _ => false

/-- The command is an indexed draw. -/
def GLCall.isDrawElements : GLCall → Bool
  | .glDrawElements _ _ _ => true
  | _ => false

/-- A debug-build context in which the host has bound objects of its own everywhere:
framebuffer 5 for drawing and 7 for reading, vertex array 3 with index buffer 5, vertex
buffer 4, program 6, and texture 8 on the active unit 2. -/
def hostContext : GLContext :=
  { drawFramebuffer := 5, readFramebuffer := 7, renderbuffer := 0, vertexArray := 3,
    arrayBuffer := 4, elementArrayOf := fun v => if v = 3 then 5 else 0, currentProgram := 6,
    activeUnit := 2, texture2D := fun u => if u = 2 then 8 else 0,
    viewport := ⟨0, 0, 640, 480⟩, nextName := 20,
    framebufferStatus := fun _ => GL_FRAMEBUFFER_COMPLETE, uniformLocation := fun _ _ => 0,
    NDEBUG := false, calls := [] }

/-- The sample capture buffer after `StartCapture` and `StopCapture`: the pipeline is
`Captured`. -/
def capturedSample : GLContext × CaptureBuffer :=
  CaptureOp.runAll [.StartCapture, .StopCapture] sampleCapture

/-- The captured sample capture buffer in the context `hostContext`. -/
def capturedInHost : GLContext × CaptureBuffer := (hostContext, capturedSample.2)

/-! ## Further notions and inputs: render events -/

/-- An event the renderer is told about: a matrix-mode change, a projection classification
(`true` is orthographic), or a buffer swap with the device context `hdc` whose real swap
returns `success`. -/
inductive RenderEvent where
  | matrixMode (mode : Nat)
  | projection (isOrthographic : Bool)
  | swapBuffers (hdc : Nat) (success : Bool)

namespace RenderEvent

def run (cfg : QfxConfig) : RenderEvent → GLContext × QfxRenderer → GLContext × QfxRenderer
  | matrixMode mode, s => (s.1, s.2.OnMatrixModeChanged mode)
  | projection isOrthographic, s => s.2.OnProjection cfg isOrthographic s.1
  | swapBuffers hdc success, s => (s.2.OnSwapBuffers cfg hdc success s.1).1

/-- Run a sequence of events, first event first. -/
def runAll (cfg : QfxConfig) : List RenderEvent → GLContext × QfxRenderer →
    GLContext × QfxRenderer
  | [], s => s
  | e :: es, s => runAll cfg es (e.run cfg s)

end RenderEvent

/-- Configuration with capture target index -1. -/
def neverCaptureConfig : QfxConfig := { renderFrame := -1, anisotropyLevel := 16, msaaFactor := 4 }

/-- The world of `sampleWorld` with the renderer as constructed: the recorded matrix mode is
`GL_MODELVIEW`. -/
def modelViewWorld : World := { sampleWorld with instancePtr := some freshRenderer.2 }

/-! ## Further notions and inputs: render buffers -/

namespace QfxRenderer

end QfxRenderer

/-- `IMAGE_NT_SIGNATURE`, the bytes `PE\0\0`. -/
def IMAGE_NT_SIGNATURE : Nat := 0x00004550

def IMAGE_DIRECTORY_ENTRY_EXPORT : Nat := 0

/-- A module as the scanner sees it: `handle` is the address the `HMODULE` stands for,
`byteAt off` the byte of the process at `handle + off`, `stringAt off` the NUL-terminated
string that starts there, and `size` the declared size of the image.  The scanner is given
the handle only.  `byteAt` answers for every offset, also outside the image, where the
process need not have readable memory: `GetEnumeratedModuleExportsTraced` tells what the
scanner computes when every access succeeds, and `GetEnumeratedModuleExportsMapped` takes an
access outside the image for the access violation it is when nothing is mapped there. -/
structure ModuleImage where
  handle : Nat
  size : Nat
  byteAt : Int → Nat
  stringAt : Int → String

/-- One memory access of the scanner: `width` bytes at `handle + offset`. -/
structure MemRead where
  offset : Int
  width : Nat
  deriving DecidableEq, Repr

namespace ModuleImage

def readBYTE (img : ModuleImage) (off : Int) : Nat := img.byteAt off % 256

/-- A little-endian `WORD`. -/
def readWORD (img : ModuleImage) (off : Int) : Nat :=
  img.readBYTE off + 256 * img.readBYTE (off + 1)

/-- A little-endian `DWORD`. -/
def readDWORD (img : ModuleImage) (off : Int) : Nat :=
  img.readWORD off + 65536 * img.readWORD (off + 2)

/-- A little-endian `LONG`. -/
def readLONG (img : ModuleImage) (off : Int) : Int := wrapInt32 (img.readDWORD off)

end ModuleImage

/-- `offsetof(IMAGE_DOS_HEADER, e_lfanew)`. -/
def OFFSET_e_lfanew : Int := 0x3C

/-- `offsetof(IMAGE_NT_HEADERS, OptionalHeader.DataDirectory)`: 4 + 20 + 96 in a 32-bit
build, 4 + 20 + 112 in a 64-bit build. -/
def OFFSET_DataDirectory (win64 : Bool) : Int := if win64 then 136 else 120

-- Offsets of the members of `IMAGE_DATA_DIRECTORY`.
def OFFSET_VirtualAddress : Int := 0
def OFFSET_Size : Int := 4

-- Offsets of the members of `IMAGE_EXPORT_DIRECTORY` the scanner reads.
def OFFSET_Base : Int := 16
def OFFSET_NumberOfFunctions : Int := 20
def OFFSET_NumberOfNames : Int := 24
def OFFSET_AddressOfFunctions : Int := 28
def OFFSET_AddressOfNames : Int := 32
def OFFSET_AddressOfNameOrdinals : Int := 36

/-- The body of the loop of `GetEnumeratedModuleExports` for the index `i`: the symbol it
fills in, and the memory it reads.  `ordinal` is an `unsigned short`; the index into the
address table is computed in `int`. -/
def scanSymbol (img : ModuleImage) (exportDir : Int) (exportBase : Nat) (i : Nat) :
    ModuleExport × List MemRead :=
  let ordinals : Int := img.readDWORD (exportDir + OFFSET_AddressOfNameOrdinals)
  let names : Int := img.readDWORD (exportDir + OFFSET_AddressOfNames)
  let addresses : Int := img.readDWORD (exportDir + OFFSET_AddressOfFunctions)
  let ordinal : Nat := (exportBase + img.readWORD (ordinals + 2 * i)) % 2 ^ 16
  let name := img.stringAt (img.readDWORD (names + 4 * i))
  let index : Int := (ordinal : Int) - (exportBase : Int)
  let address := img.handle + img.readDWORD (addresses + 4 * index)
  ({ address := address, name := some name, ordinal := ordinal },
   [⟨exportDir + OFFSET_AddressOfNameOrdinals, 4⟩, ⟨exportDir + OFFSET_AddressOfNames, 4⟩,
    ⟨exportDir + OFFSET_AddressOfFunctions, 4⟩, ⟨ordinals + 2 * i, 2⟩, ⟨names + 4 * i, 4⟩,
    ⟨addresses + 4 * index, 4⟩])

/-- `GetEnumeratedModuleExports(handle)` together with the memory it reads, in order.
`win64` tells for which platform `IMAGE_NT_HEADERS` is compiled.  `reserve` on the empty
vector makes its capacity the requested number. -/
def GetEnumeratedModuleExportsTraced (win64 : Bool) (img : ModuleImage) :
    List ModuleExport × List MemRead :=
  let imgHeader : Int := img.readLONG OFFSET_e_lfanew
  let imgDataDir : Int := imgHeader + OFFSET_DataDirectory win64
  let exportEntry : Int := imgDataDir + 8 * IMAGE_DIRECTORY_ENTRY_EXPORT
  let reads : List MemRead := [⟨OFFSET_e_lfanew, 4⟩, ⟨imgHeader, 4⟩]
  if img.readDWORD imgHeader ≠ IMAGE_NT_SIGNATURE then ([], reads)
  else
    let reads := reads ++ [⟨exportEntry + OFFSET_Size, 4⟩]
    if img.readDWORD (exportEntry + OFFSET_Size) = 0 then ([], reads)
    else
      let exportDir : Int := img.readDWORD (exportEntry + OFFSET_VirtualAddress)
      let exportBase : Nat := img.readDWORD (exportDir + OFFSET_Base) % 2 ^ 16
      let reads := reads ++ [⟨exportEntry + OFFSET_VirtualAddress, 4⟩,
        ⟨exportDir + OFFSET_Base, 4⟩, ⟨exportDir + OFFSET_NumberOfFunctions, 4⟩]
      if img.readDWORD (exportDir + OFFSET_NumberOfFunctions) = 0 then ([], reads)
      else
        let capacity := img.readDWORD (exportDir + OFFSET_NumberOfNames)
        let symbols := (List.range capacity).map (scanSymbol img exportDir exportBase)
        (symbols.map (·.1),
         reads ++ [⟨exportDir + OFFSET_NumberOfNames, 4⟩] ++ (symbols.map (·.2)).flatten)

/-- `GetEnumeratedModuleExports(handle)`. -/
def GetEnumeratedModuleExports (win64 : Bool) (img : ModuleImage) : List ModuleExport :=
  (GetEnumeratedModuleExportsTraced win64 img).1

/-! ## Notions used in the statements about the export scanner

The Portable Executable format, read off the image independently of the scanner. -/

namespace ModuleImage

/-- Offset of the NT headers. -/
def ntHeaders (img : ModuleImage) : Int := img.readLONG 0x3C

def signature (img : ModuleImage) : Nat := img.readDWORD img.ntHeaders

/-- Offset of the export entry of the data directory. -/
def exportEntry (win64 : Bool) (img : ModuleImage) : Int :=
  img.ntHeaders + (if win64 then 136 else 120)

/-- Declared size of the export directory. -/
def exportSize (win64 : Bool) (img : ModuleImage) : Nat :=
  img.readDWORD (img.exportEntry win64 + 4)

/-- Offset of the export directory. -/
def exportDirectory (win64 : Bool) (img : ModuleImage) : Int :=
  img.readDWORD (img.exportEntry win64)

def ordinalBase (win64 : Bool) (img : ModuleImage) : Nat :=
  img.readDWORD (img.exportDirectory win64 + 16)

def numberOfFunctions (win64 : Bool) (img : ModuleImage) : Nat :=
  img.readDWORD (img.exportDirectory win64 + 20)

def numberOfNames (win64 : Bool) (img : ModuleImage) : Nat :=
  img.readDWORD (img.exportDirectory win64 + 24)

/-- Offsets of the address table, the name table and the name-ordinal table. -/
def addressTable (win64 : Bool) (img : ModuleImage) : Int :=
  img.readDWORD (img.exportDirectory win64 + 28)

def nameTable (win64 : Bool) (img : ModuleImage) : Int :=
  img.readDWORD (img.exportDirectory win64 + 32)

def nameOrdinalTable (win64 : Bool) (img : ModuleImage) : Int :=
  img.readDWORD (img.exportDirectory win64 + 36)

/-- Entry `k` of the address table, a relative address. -/
def functionRva (win64 : Bool) (img : ModuleImage) (k : Nat) : Nat :=
  img.readDWORD (img.addressTable win64 + 4 * k)

/-- The `i`-th name. -/
def exportName (win64 : Bool) (img : ModuleImage) (i : Nat) : String :=
  img.stringAt (img.readDWORD (img.nameTable win64 + 4 * i))

/-- Entry `i` of the name-ordinal table. -/
def nameOrdinal (win64 : Bool) (img : ModuleImage) (i : Nat) : Nat :=
  img.readWORD (img.nameOrdinalTable win64 + 2 * i)

/-- The image has a valid header and export directory: the signature is right, the export
directory is declared with a size and with functions, the ordinals `base + index` of its
functions fit the 16 bits of an ordinal, and every name ordinal is an index into the address
table. -/
def HasValidExports (win64 : Bool) (img : ModuleImage) : Prop :=
  img.signature = IMAGE_NT_SIGNATURE ∧ img.exportSize win64 ≠ 0 ∧
  img.numberOfFunctions win64 ≠ 0 ∧
  img.ordinalBase win64 + img.numberOfFunctions win64 ≤ 2 ^ 16 ∧
  ∀ i < img.numberOfNames win64, img.nameOrdinal win64 i < img.numberOfFunctions win64

instance (win64 : Bool) (img : ModuleImage) : Decidable (img.HasValidExports win64) := by
  unfold HasValidExports; infer_instance

/-- Everything the headers declare lies inside the declared bounds of the image: the DOS
header, the NT headers through the export entry of the data directory and, when the
signature is right and the export directory is declared with a size, the export directory
and, when it declares functions, its three tables for the declared counts; the function
ordinals fit 16 bits and every name ordinal is an index into the address table. -/
def WellFormed (win64 : Bool) (img : ModuleImage) : Prop :=
  64 ≤ img.size ∧ 0 ≤ img.ntHeaders ∧ img.exportEntry win64 + 8 ≤ img.size ∧
  (img.signature = IMAGE_NT_SIGNATURE → img.exportSize win64 ≠ 0 →
    img.exportDirectory win64 + 40 ≤ img.size ∧
    (img.numberOfFunctions win64 ≠ 0 →
      img.ordinalBase win64 + img.numberOfFunctions win64 ≤ 2 ^ 16 ∧
      img.addressTable win64 + 4 * img.numberOfFunctions win64 ≤ img.size ∧
      img.nameTable win64 + 4 * img.numberOfNames win64 ≤ img.size ∧
      img.nameOrdinalTable win64 + 2 * img.numberOfNames win64 ≤ img.size ∧
      ∀ i < img.numberOfNames win64, img.nameOrdinal win64 i < img.numberOfFunctions win64))

instance (win64 : Bool) (img : ModuleImage) : Decidable (img.WellFormed win64) := by
  unfold WellFormed; infer_instance

end ModuleImage

/-- The access lies inside an image of the given size. -/
def MemRead.InBounds (rd : MemRead) (size : Nat) : Prop :=
  0 ≤ rd.offset ∧ rd.offset + rd.width ≤ size

instance (rd : MemRead) (size : Nat) : Decidable (rd.InBounds size) := by
  unfold MemRead.InBounds; infer_instance

/-- Memory that holds the little-endian `DWORD` `v` at offset `off` and is `m` elsewhere. -/
def putDWORD (off : Int) (v : Nat) (m : Int → Nat) : Int → Nat := fun a =>
  if a = off then v % 256
  else if a = off + 1 then v / 256 % 256
  else if a = off + 2 then v / 65536 % 256
  else if a = off + 3 then v / 16777216 % 256
  else m a

/-- Memory that holds the little-endian `WORD` `v` at offset `off` and is `m` elsewhere. -/
def putWORD (off : Int) (v : Nat) (m : Int → Nat) : Int → Nat := fun a =>
  if a = off then v % 256 else if a = off + 1 then v / 256 % 256 else m a

/-- A 32-bit image of 8192 bytes mapped at 0x10000000 whose export directory declares
three functions from ordinal 1 on, two of them named: `glOrtho` for the function of index 2
and `qfx_glOrtho` for the function of index 0. -/
def sampleImage : ModuleImage :=
  { handle := 0x10000000, size := 8192,
    byteAt :=
      putDWORD 0x3C 0x40 <| putDWORD 0x40 0x4550 <|
      putDWORD 0xB8 0x100 <| putDWORD 0xBC 0x80 <|
      putDWORD 0x110 1 <| putDWORD 0x114 3 <| putDWORD 0x118 2 <|
      putDWORD 0x11C 0x130 <| putDWORD 0x120 0x140 <| putDWORD 0x124 0x150 <|
      putDWORD 0x130 0x1000 <| putDWORD 0x134 0x1010 <| putDWORD 0x138 0x1020 <|
      putDWORD 0x140 0x160 <| putDWORD 0x144 0x170 <|
      putWORD 0x150 2 <| putWORD 0x152 0 <| fun _ => 0,
    stringAt := fun a => if a = 0x160 then "glOrtho" else if a = 0x170 then "qfx_glOrtho" else "" }

/-- An image of 4096 bytes that is zero everywhere except for the field `e_lfanew`, which
holds 0x100000. -/
def strayHeaderImage : ModuleImage :=
  { handle := 0x10000000, size := 4096, byteAt := putDWORD 0x3C 0x100000 fun _ => 0,
    stringAt := fun _ => "" }

/-- An image of 4096 bytes that is zero everywhere. -/
def blankImage : ModuleImage :=
  { handle := 0x10000000, size := 4096, byteAt := fun _ => 0, stringAt := fun _ => "" }

/-! ## Further notions and inputs: blend function, anisotropy, framebuffer queries -/

/-- The renderer exists, is initialised, and its capture pipeline is capturing. -/
def World.capturing (w : World) : Bool :=
  w.GetIsInitialized &&
    match w.instancePtr with
    | some r => r.uiCap.GetIsCapturing
    | none => false

/-- The frame counter of the renderer, when the renderer exists. -/
def World.frameCount (w : World) : Option Nat := w.instancePtr.map (·.frameCount)

/-- The three valid values of `FramebufferTargs`. -/
def IsFramebufferTarget (target : Nat) : Prop :=
  target = GL_DRAW_FRAMEBUFFER ∨ target = GL_READ_FRAMEBUFFER ∨ target = GL_FRAMEBUFFER

/-- The framebuffer named `id` is the one bound at `target`: the draw binding for `Draw`,
the read binding for `Read`, both for `Framebuffer`. -/
def GLContext.framebufferBoundAt (g : GLContext) (id target : Nat) : Prop :=
  (target = GL_DRAW_FRAMEBUFFER ∧ g.drawFramebuffer = id) ∨
  (target = GL_READ_FRAMEBUFFER ∧ g.readFramebuffer = id) ∨
  (target = GL_FRAMEBUFFER ∧ g.drawFramebuffer = id ∧ g.readFramebuffer = id)

/-- A renderer on a context that supports anisotropy up to 16. -/
def anisotropicRenderer : QfxRenderer := { freshRenderer.2 with maxAnisotropy := 16 }

/-- Configuration with anisotropy level 0. -/
def noAnisotropyConfig : QfxConfig := { renderFrame := 2, anisotropyLevel := 0, msaaFactor := 4 }

/-- The sample capture buffer after `StartCapture` in the debug-build context `hostContext`:
the pipeline is `Capturing`. -/
def capturingInHost : GLContext × CaptureBuffer := sampleCapture.2.StartCapture hostContext

/-! ## The libraries-stable transition (qfx_hook_manager.cpp, `OnLibLoad` and the four
`QfxLoadLibrary` hooks) -/

def LOAD_LIBRARY_AS_DATAFILE : Nat := 0x00000002
def LOAD_LIBRARY_AS_IMAGE_RESOURCE : Nat := 0x00000020
def LOAD_LIBRARY_AS_DATAFILE_EXCLUSIVE : Nat := 0x00000040

/-- The static members of `QfxHookManager` together with the file-static `initMutex`
(`initMutexLocked`: some thread owns it) and a count of the invocations of the registered
callback.  What the callback does when it is invoked is not part of the state. -/
structure HookLifecycle where
  manager : QfxHookManager
  initMutexLocked : Bool
  callbackCalls : Nat
  deriving DecidableEq, Repr

namespace HookLifecycle

/-- `RegisterInitCallback(callbackFunc)`. -/
def RegisterInitCallback (callbackFunc : Nat) (s : HookLifecycle) : HookLifecycle :=
  if s.manager.LibLoadCallback = 0 then
    { s with manager := { s.manager with LibLoadCallback := callbackFunc } }
  else s

/-- `OnLibLoad()`, run without interruption: the `unique_lock` is taken with `try_to_lock`
and released when it goes out of scope. -/
def OnLibLoad (s : HookLifecycle) : HookLifecycle :=
  if !s.initMutexLocked then
    let s := { s with initMutexLocked := true }
    let s := { s with manager := { s.manager with initialized := true } }
    let s :=
      if s.manager.LibLoadCallback ≠ 0 then { s with callbackCalls := s.callbackCalls + 1 }
      else s
    { s with initMutexLocked := false }
  else s

/-- `Init(hModule)`.  `RESHADE_TEST_APPLICATION` is the build switch; `addressOf` gives the
addresses of the four `HookLoadLibrary` functions and of their replacements. -/
def Init (RESHADE_TEST_APPLICATION : Bool) (addressOf : String → Nat) (hModule : Nat)
    (s : HookLifecycle) : HookLifecycle :=
  if !s.manager.registered then
    let s := { s with manager := { s.manager with moduleHandle := hModule } }
    let s :=
      if RESHADE_TEST_APPLICATION then s.OnLibLoad
      else
        { s with manager := { s.manager with events := s.manager.events ++
          [.install ⟨some "QfxLoadLibraryA", addressOf "HookLoadLibraryA",
              addressOf "QfxLoadLibraryA", true⟩,
           .install ⟨some "QfxLoadLibraryExA", addressOf "HookLoadLibraryExA",
              addressOf "QfxLoadLibraryExA", true⟩,
           .install ⟨some "QfxLoadLibraryW", addressOf "HookLoadLibraryW",
              addressOf "QfxLoadLibraryW", true⟩,
           .install ⟨some "QfxLoadLibraryExW", addressOf "HookLoadLibraryExW",
              addressOf "QfxLoadLibraryExW", true⟩,
           .apply_queued_actions] } }
    { s with manager := { s.manager with registered := true } }
  else s

/-- `QfxLoadLibraryA(lpFileName)`; `handle` is what the trampoline returns. -/
def QfxLoadLibraryA (_lpFileName : String) (handle : Nat) (s : HookLifecycle) :
    HookLifecycle × Nat :=
  let s :=
    if !s.manager.initialized && handle != 0 && handle != s.manager.moduleHandle then s.OnLibLoad
    else s
  (s, handle)

/-- `QfxLoadLibraryExA(lpFileName, hFile, dwFlags)`; `handle` is what the trampoline
returns. -/
def QfxLoadLibraryExA (_lpFileName : String) (_hFile dwFlags : Nat) (handle : Nat)
    (s : HookLifecycle) : HookLifecycle × Nat :=
  let exFlags := (dwFlags &&& (LOAD_LIBRARY_AS_DATAFILE ||| LOAD_LIBRARY_AS_DATAFILE_EXCLUSIVE |||
    LOAD_LIBRARY_AS_IMAGE_RESOURCE)) == 0
  let s :=
    if !s.manager.initialized && handle != 0 && handle != s.manager.moduleHandle && exFlags then
      s.OnLibLoad
    else s
  (s, handle)

/-- `QfxLoadLibraryW(lpFileName)`; `handle` is what the trampoline returns. -/
def QfxLoadLibraryW (_lpFileName : String) (handle : Nat) (s : HookLifecycle) :
    HookLifecycle × Nat :=
  let s :=
    if !s.manager.initialized && handle != 0 && handle != s.manager.moduleHandle then s.OnLibLoad
    else s
  (s, handle)

/-- `QfxLoadLibraryExW(lpFileName, hFile, dwFlags)`; `handle` is what the trampoline
returns. -/
def QfxLoadLibraryExW (_lpFileName : String) (_hFile dwFlags : Nat) (handle : Nat)
    (s : HookLifecycle) : HookLifecycle × Nat :=
  let exFlags := (dwFlags &&& (LOAD_LIBRARY_AS_DATAFILE ||| LOAD_LIBRARY_AS_DATAFILE_EXCLUSIVE |||
    LOAD_LIBRARY_AS_IMAGE_RESOURCE)) == 0
  let s :=
    if !s.manager.initialized && handle != 0 && handle != s.manager.moduleHandle && exFlags then
      s.OnLibLoad
    else s
  (s, handle)

end HookLifecycle

/-! ### Two threads inside the hooks

The statements of a hook call, with `OnLibLoad` inlined, as the program points of a thread;
each step of a thread is one access to the shared state. -/

/-- Program points of a thread inside a library-load hook: about to evaluate the condition of
the `if`, about to try the lock, about to assign `initialized`, about to test and invoke the
callback, about to release the lock, returned. -/
inductive LoadPc where
  | guard
  | tryLock
  | setInitialized
  | callback
  | unlock
  | done
  deriving DecidableEq, Repr

/-- A thread inside a hook: its program point and its locals, the handle the trampoline
returned and the value of `exFlags` (true in the variants without flags). -/
structure LoadThread where
  pc : LoadPc
  handle : Nat
  exFlags : Bool
  deriving DecidableEq, Repr

namespace LoadThread

/-- One step of the thread on the shared state. -/
def step (t : LoadThread) (s : HookLifecycle) : LoadThread × HookLifecycle :=
  match t.pc with
  | .guard =>
    if !s.manager.initialized && t.handle != 0 && t.handle != s.manager.moduleHandle &&
        t.exFlags then ({ t with pc := .tryLock }, s)
    else ({ t with pc := .done }, s)
  | .tryLock =>
    if !s.initMutexLocked then ({ t with pc := .setInitialized }, { s with initMutexLocked := true })
    else ({ t with pc := .done }, s)
  | .setInitialized =>
    ({ t with pc := .callback }, { s with manager := { s.manager with initialized := true } })
  | .callback =>
    ({ t with pc := .unlock },
     if s.manager.LibLoadCallback ≠ 0 then { s with callbackCalls := s.callbackCalls + 1 } else s)
  | .unlock => ({ t with pc := .done }, { s with initMutexLocked := false })
  | .done => (t, s)

/-- The thread takes `n` steps without interruption. -/
def runAlone : Nat → LoadThread × HookLifecycle → LoadThread × HookLifecycle
  | 0, c => c
  | n + 1, c => runAlone n (c.1.step c.2)

end LoadThread

/-- Two threads and the state they share. -/
structure TwoThreads where
  first : LoadThread
  second : LoadThread
  shared : HookLifecycle
  deriving DecidableEq, Repr

namespace TwoThreads

/-- The scheduler lets the second thread (`true`) or the first thread (`false`) take a
step. -/
def step (second : Bool) (c : TwoThreads) : TwoThreads :=
  if second then
    let (t, s) := c.second.step c.shared
    { c with second := t, shared := s }
  else
    let (t, s) := c.first.step c.shared
    { c with first := t, shared := s }

/-- Run a schedule, first entry first. -/
def run : List Bool → TwoThreads → TwoThreads
  | [], c => c
  | b :: schedule, c => run schedule (step b c)

end TwoThreads

/-! ## Notions used in the statements about the libraries-stable transition -/

/-- An intercepted library-load call: the variant, its arguments, and the handle the
trampoline returns. -/
inductive LoadCall where
  | A (lpFileName : String) (handle : Nat)
  | ExA (lpFileName : String) (hFile dwFlags : Nat) (handle : Nat)
  | W (lpFileName : String) (handle : Nat)
  | ExW (lpFileName : String) (hFile dwFlags : Nat) (handle : Nat)
  deriving DecidableEq, Repr

namespace LoadCall

def run : LoadCall → HookLifecycle → HookLifecycle × Nat
  | A lpFileName handle, s => s.QfxLoadLibraryA lpFileName handle
  | ExA lpFileName hFile dwFlags handle, s => s.QfxLoadLibraryExA lpFileName hFile dwFlags handle
  | W lpFileName handle, s => s.QfxLoadLibraryW lpFileName handle
  | ExW lpFileName hFile dwFlags handle, s => s.QfxLoadLibraryExW lpFileName hFile dwFlags handle

/-- Run the calls one after another, first call first. -/
def runAll : List LoadCall → HookLifecycle → HookLifecycle
  | [], s => s
  | call :: calls, s => runAll calls (call.run s).1

/-- The value of `initialized` before the first call and after each call. -/
def initializedTrace : List LoadCall → HookLifecycle → List Bool
  | [], s => [s.manager.initialized]
  | call :: calls, s => s.manager.initialized :: initializedTrace calls (call.run s).1

/-- The handle the trampoline returns. -/
def handle : LoadCall → Nat
  | A _ handle => handle
  | ExA _ _ _ handle => handle
  | W _ handle => handle
  | ExW _ _ _ handle => handle

/-- The call asks for a mapping as data file or as image resource: it is one of the two
variants with flags and one of the three flags is set. -/
def MapsAsData : LoadCall → Prop
  | A _ _ => False
  | W _ _ => False
  | ExA _ _ dwFlags _ => dwFlags.testBit 1 = true ∨ dwFlags.testBit 5 = true ∨
      dwFlags.testBit 6 = true
  | ExW _ _ dwFlags _ => dwFlags.testBit 1 = true ∨ dwFlags.testBit 5 = true ∨
      dwFlags.testBit 6 = true

/-- The conditions of the libraries-stable transition: it has not happened yet, the handle
is not null, the handle is not the handle of the own module, and the call does not ask for
a mapping as data file or image resource. -/
def Qualifies (call : LoadCall) (s : HookLifecycle) : Prop :=
  s.manager.initialized = false ∧ call.handle ≠ 0 ∧ call.handle ≠ s.manager.moduleHandle ∧
    ¬ call.MapsAsData

/-- The thread that has just entered the hook for the call and computed `exFlags`. -/
def enter (call : LoadCall) : LoadThread :=
  match call with
  | A _ handle => ⟨.guard, handle, true⟩
  | W _ handle => ⟨.guard, handle, true⟩
  | ExA _ _ dwFlags handle =>
    ⟨.guard, handle, (dwFlags &&& (LOAD_LIBRARY_AS_DATAFILE |||
      LOAD_LIBRARY_AS_DATAFILE_EXCLUSIVE ||| LOAD_LIBRARY_AS_IMAGE_RESOURCE)) == 0⟩
  | ExW _ _ dwFlags handle =>
    ⟨.guard, handle, (dwFlags &&& (LOAD_LIBRARY_AS_DATAFILE |||
      LOAD_LIBRARY_AS_DATAFILE_EXCLUSIVE ||| LOAD_LIBRARY_AS_IMAGE_RESOURCE)) == 0⟩

end LoadCall

/-- Number of places where the list goes from `false` to `true`. -/
def risingEdges : List Bool → Nat
  | [] => 0
  | [_] => 0
  | a :: b :: rest => (if a = false ∧ b = true then 1 else 0) + risingEdges (b :: rest)

/-- Number of places where the list goes from `true` to `false`. -/
def fallingEdges : List Bool → Nat
  | [] => 0
  | [_] => 0
  | a :: b :: rest => (if a = true ∧ b = false then 1 else 0) + fallingEdges (b :: rest)

/-- The hook manager of a freshly attached component: registered under module handle 100
with the callback at address 77, not yet initialised, the mutex free. -/
def attachedLifecycle : HookLifecycle :=
  (HookLifecycle.Init false (fun _ => 0)
    100 ⟨⟨0, 0, false, false, false, []⟩, false, 0⟩).RegisterInitCallback 77

/-- Two threads that have just entered `QfxLoadLibraryA` and `QfxLoadLibraryW` with the
handles 500 and 600 of two libraries of the host. -/
def twoLoads : TwoThreads :=
  { first := (LoadCall.A "opengl32.dll" 500).enter, second := (LoadCall.W "user32.dll" 600).enter,
    shared := attachedLifecycle }

/-- Two threads that are about to execute the first statement of `OnLibLoad`. -/
def twoTransitions : TwoThreads :=
  { first := ⟨.tryLock, 500, true⟩, second := ⟨.tryLock, 600, true⟩, shared := attachedLifecycle }

/-! ## Further notions and inputs: events of an install attempt, mapped images -/

/-- What one call of `TryInstallGlHooks` asks of the host and of the log, in order. -/
def QfxHookManager.eventsBy (reshadeExports : List ModuleExport) (m : QfxHookManager) :
    List HookEvent :=
  (QfxHookManager.TryInstallGlHooks reshadeExports m).1.events.drop m.events.length

/-- Five exports: a replacement and its target, a replacement without target, and another
replacement and its target. -/
def unresolvedSecondExports : List ModuleExport :=
  [⟨1, some "qfx_glOrtho", 0⟩, ⟨2, some "glOrtho", 1⟩, ⟨3, some "qfx_glFrustum", 2⟩,
   ⟨4, some "qfx_glBlendFunc", 3⟩, ⟨5, some "glBlendFunc", 4⟩]

/-- `GetEnumeratedModuleExports(handle)` in a process where nothing but the image is
readable around the handle: `none` stands for the access violation at the first access
outside the image, `some` for the vector returned when every access lies inside. -/
def GetEnumeratedModuleExportsMapped (win64 : Bool) (img : ModuleImage) :
    Option (List ModuleExport) :=
  if (GetEnumeratedModuleExportsTraced win64 img).2.all
      (fun rd => decide (rd.InBounds img.size)) then
    some (GetEnumeratedModuleExportsTraced win64 img).1
  else none

/-- The header fields that decide whether the scanner returns early lie inside the declared
bounds of the image: the DOS header, the signature and, when the signature is right, the
export entry of the data directory and, when that entry has a size, the export directory
through its field `NumberOfFunctions`. -/
def ModuleImage.HeadersInBounds (win64 : Bool) (img : ModuleImage) : Prop :=
  64 ≤ img.size ∧ 0 ≤ img.ntHeaders ∧ img.ntHeaders + 4 ≤ img.size ∧
  (img.signature = IMAGE_NT_SIGNATURE →
    img.exportEntry win64 + 8 ≤ img.size ∧
    (img.exportSize win64 ≠ 0 → img.exportDirectory win64 + 24 ≤ img.size))

instance (win64 : Bool) (img : ModuleImage) : Decidable (img.HeadersInBounds win64) := by
  unfold ModuleImage.HeadersInBounds; infer_instance

/-- An image of 4096 bytes with the right signature whose export entry of the data directory
is zero. -/
def noExportImage : ModuleImage :=
  { handle := 0x10000000, size := 4096,
    byteAt := putDWORD 0x3C 0x40 <| putDWORD 0x40 0x4550 fun _ => 0,
    stringAt := fun _ => "" }

/-- An image of 4096 bytes with the right signature and an export directory of 40 bytes at
offset 0x100 that declares no function. -/
def emptyExportImage : ModuleImage :=
  { handle := 0x10000000, size := 4096,
    byteAt := putDWORD 0x3C 0x40 <| putDWORD 0x40 0x4550 <| putDWORD 0xB8 0x100 <|
      putDWORD 0xBC 0x28 fun _ => 0,
    stringAt := fun _ => "" }

/-! ## Theorems -/

/-! ### Capture buffer: the flags `capturing` and `captured` -/

namespace CaptureBuffer

theorem StartCaptureVp_flags (vp : IVec4) (g : GLContext) (cb : CaptureBuffer) :
    (StartCaptureVp vp g cb).2.capturing = (cb.capturing || !cb.captured) ∧
    (StartCaptureVp vp g cb).2.captured = cb.captured := by
  unfold StartCaptureVp
  cases h1 : cb.capturing <;> cases h2 : cb.captured <;> simp [h1, h2]

theorem StartCapture_flags (g : GLContext) (cb : CaptureBuffer) :
    (StartCapture g cb).2.capturing = (cb.capturing || !cb.captured) ∧
    (StartCapture g cb).2.captured = cb.captured :=
  StartCaptureVp_flags g.viewport g cb

theorem ResumeCapture_flags (g : GLContext) (cb : CaptureBuffer) :
    (ResumeCapture g cb).2.capturing = cb.capturing ∧
    (ResumeCapture g cb).2.captured = cb.captured := by
  unfold ResumeCapture
  cases h2 : cb.captured <;> simp [h2]

theorem StopCapture_flags (g : GLContext) (cb : CaptureBuffer) :
    (StopCapture g cb).2.capturing = false ∧
    (StopCapture g cb).2.captured = (cb.capturing || cb.captured) := by
  unfold StopCapture
  cases h1 : cb.capturing <;> simp [h1]

theorem Draw_flags (g : GLContext) (cb : CaptureBuffer) :
    (Draw g cb).2.capturing = false ∧ (Draw g cb).2.captured = false := by
  unfold Draw
  have h := StopCapture_flags g cb
  rcases hs : StopCapture g cb with ⟨g1, cb1⟩
  rw [hs] at h
  simp only at h
  cases h2 : cb1.captured <;> simp [h2, h.1]

theorem construct_flags (linked : QfxProgram) (vp0 : IVec4) (g : GLContext) :
    (construct linked vp0 g).2.capturing = false ∧ (construct linked vp0 g).2.captured = false := by
  unfold construct
  exact ⟨rfl, rfl⟩

/-- The flags are not both set after a step if they were not both set before it. -/
theorem run_exclusive (op : CaptureOp) (s : GLContext × CaptureBuffer)
    (h : ¬ (s.2.capturing = true ∧ s.2.captured = true)) :
    ¬ ((op.run s).2.capturing = true ∧ (op.run s).2.captured = true) := by
  cases op with
  | StartCapture =>
    have f := StartCapture_flags s.1 s.2
    simp only [CaptureOp.run, f.1, f.2]
    cases h1 : s.2.capturing <;> cases h2 : s.2.captured <;> simp_all
  | StartCaptureVp vp =>
    have f := StartCaptureVp_flags vp s.1 s.2
    simp only [CaptureOp.run, f.1, f.2]
    cases h1 : s.2.capturing <;> cases h2 : s.2.captured <;> simp_all
  | ResumeCapture =>
    have f := ResumeCapture_flags s.1 s.2
    simp only [CaptureOp.run, f.1, f.2]
    exact h
  | StopCapture =>
    have f := StopCapture_flags s.1 s.2
    simp [CaptureOp.run, f.1]
  | Draw =>
    have f := Draw_flags s.1 s.2
    simp [CaptureOp.run, f.1]
  | hostCommands after => simpa [CaptureOp.run] using h

theorem runAll_exclusive (ops : List CaptureOp) (s : GLContext × CaptureBuffer)
    (h : ¬ (s.2.capturing = true ∧ s.2.captured = true)) :
    ¬ ((CaptureOp.runAll ops s).2.capturing = true ∧
       (CaptureOp.runAll ops s).2.captured = true) := by
  induction ops generalizing s with
  | nil => exact h
  | cons op ops ih => exact ih (op.run s) (run_exclusive op s h)

end CaptureBuffer

/-! ### Render phase classifier: frame offsets and capture start -/

namespace QfxRenderer

theorem wrapInt32_small (x : Int) (h0 : -(2 ^ 31) ≤ x) (h1 : x < 2 ^ 31) : wrapInt32 x = x := by
  unfold wrapInt32
  omega

end QfxRenderer

theorem wrapInt32_succ_ne (x : Int) : wrapInt32 (x + 1) ≠ x := by
  unfold wrapInt32
  omega

namespace QfxRenderer

theorem OnProjection_perspective (cfg : QfxConfig) (g : GLContext) (r : QfxRenderer) :
    (r.OnProjection cfg false g).1 = g ∧
    (r.OnProjection cfg false g).2 = { r with viewportFrame := r.frameCount } := by
  unfold OnProjection
  by_cases h : r.viewportFrame ≠ r.frameCount
  · simp [h]
  · have h2 : r.viewportFrame = r.frameCount := by simpa using h
    simp only [Bool.false_eq_true, if_false, h, true_and]
    cases r
    simp_all

theorem OnProjection_orthographic (cfg : QfxConfig) (g : GLContext) (r : QfxRenderer) :
    (r.OnProjection cfg true g).2.frameCount = r.frameCount ∧
    (r.OnProjection cfg true g).2.skipQfxRender = r.skipQfxRender ∧
    (r.OnProjection cfg true g).2.lastFrameCount = r.frameCount ∧
    (r.OnProjection cfg true g).2.curFrameOffset =
      (if r.lastFrameCount ≠ r.frameCount then 0 else wrapInt32 (r.curFrameOffset + 1)) ∧
    (r.OnProjection cfg true g).2.uiCap =
      (if (if r.lastFrameCount ≠ r.frameCount then 0 else wrapInt32 (r.curFrameOffset + 1)) =
            cfg.renderFrame ∧ r.skipQfxRender = false ∧ cfg.renderFrame ≠ -1
        then (r.uiCap.StartCapture g).2 else r.uiCap) := by
  unfold OnProjection
  by_cases h : r.lastFrameCount ≠ r.frameCount
  · by_cases h2 : (0 : Int) = cfg.renderFrame
    · by_cases h3 : r.skipQfxRender = false <;> by_cases h4 : cfg.renderFrame = -1 <;>
        simp [h, h2, h3, h4]
    · simp [h, h2]
  · have h' : r.lastFrameCount = r.frameCount := by simpa using h
    by_cases h2 : wrapInt32 (r.curFrameOffset + 1) = cfg.renderFrame
    · by_cases h3 : r.skipQfxRender = false <;> by_cases h4 : cfg.renderFrame = -1 <;>
        simp [h', h2, h3, h4]
    · simp [h', h2]

theorem startsCapture_perspective (cfg : QfxConfig) (g : GLContext) (r : QfxRenderer) :
    startsCapture cfg false g r = false := by
  unfold startsCapture
  rw [(OnProjection_perspective cfg g r).2]
  cases r.uiCap.capturing <;> rfl

theorem captureStarts_after_first (cfg : QfxConfig) (h2 : cfg.renderFrame = 2)
    (events : List Bool) (g : GLContext) (r : QfxRenderer) (hskip : r.skipQfxRender = false)
    (hframe : r.lastFrameCount = r.frameCount) (h0 : 0 ≤ r.curFrameOffset)
    (hsmall : r.curFrameOffset + (events.count true : Int) < 2 ^ 31)
    (hidle : 2 ≤ r.curFrameOffset ∨ r.uiCap.IsIdle) :
    (∀ i, (captureStarts cfg events g r).get? i = some true ↔
      events.get? i = some true ∧ r.curFrameOffset + 1 + ((events.take i).count true : Int) = 2) ∧
    (captureStarts cfg events g r).count true =
      if r.curFrameOffset + 1 ≤ 2 ∧ 2 ≤ r.curFrameOffset + (events.count true : Int) then 1
      else 0 := by
  induction events generalizing g r with
  | nil => 
    refine ⟨fun i => by simp [captureStarts], ?_⟩
    simp only [captureStarts, List.count_nil, Nat.cast_zero, add_zero]
    rw [if_neg]
    omega
  | cons e es ih =>
    cases e with
    | false =>
      have hp := OnProjection_perspective cfg g r
      have hcount : (false :: es).count true = es.count true := by simp
      rw [hcount] at hsmall ⊢
      obtain ⟨ih1, ih2⟩ := ih (r.OnProjection cfg false g).1 (r.OnProjection cfg false g).2
        (by rw [hp.2]; exact hskip) (by rw [hp.2]; exact hframe) (by rw [hp.2]; exact h0)
        (by rw [hp.2]; exact hsmall) (by rw [hp.2]; exact hidle)
      rw [hp.2] at ih1 ih2
      simp only at ih1 ih2
      refine ⟨?_, ?_⟩
      · intro i
        cases i with
        | zero => simp [captureStarts, startsCapture_perspective]
        | succ i =>
          simp only [captureStarts, List.get?_cons_succ, List.take_succ_cons]
          rw [hp.2]
          rw [ih1 i]
          simp
      · simp only [captureStarts, startsCapture_perspective]
        rw [hp.2]
        rw [List.count_cons_of_ne (by decide), ih2]
    | true =>
      obtain ⟨o1, o2, o3, o4, o5⟩ := OnProjection_orthographic cfg g r
      have hcount : ((true :: es).count true : Int) = (es.count true : Int) + 1 := by simp
      rw [hcount] at hsmall
      have hw : wrapInt32 (r.curFrameOffset + 1) = r.curFrameOffset + 1 :=
        wrapInt32_small _ (by omega) (by omega)
      simp only [hframe, ne_eq, not_true_eq_false, if_false, hw] at o4 o5
      obtain ⟨ih1, ih2⟩ := ih (r.OnProjection cfg true g).1 (r.OnProjection cfg true g).2
        (by rw [o2]; exact hskip) (by rw [o3, o1]) (by rw [o4]; omega) (by rw [o4]; omega)
        (by
          rw [o4, o5]
          by_cases hc : 2 ≤ r.curFrameOffset + 1
          · exact Or.inl hc
          · right
            rw [if_neg (by rw [h2]; omega)]
            rcases hidle with hh | hh
            · omega
            · exact hh)
      rw [o4] at ih1 ih2
      have hhead : startsCapture cfg true g r = decide (r.curFrameOffset + 1 = 2) := by
        unfold startsCapture
        rw [o5]
        by_cases hc : r.curFrameOffset + 1 = 2
        · have hi : r.uiCap.IsIdle := by
            rcases hidle with hh | hh
            · omega
            · exact hh
          rw [if_pos ⟨by rw [h2]; exact hc, hskip, by rw [h2]; decide⟩,
            (CaptureBuffer.StartCapture_flags g r.uiCap).1, hi.1, hi.2]
          simp [hc]
        · rw [if_neg (by rw [h2]; tauto)]
          simp only [hc, decide_False]
          cases r.uiCap.capturing <;> rfl
      refine ⟨?_, ?_⟩
      · intro i
        cases i with
        | zero => simp [captureStarts, hhead]
        | succ i =>
          simp only [captureStarts, List.get?_cons_succ, List.take_succ_cons]
          rw [ih1 i]
          simp only [List.count_cons_self, Nat.cast_add, Nat.cast_one]
          constructor
          · rintro ⟨a, b⟩; exact ⟨a, by omega⟩
          · rintro ⟨a, b⟩; exact ⟨a, by omega⟩
      · have hc1 : (captureStarts cfg (true :: es) g r).count true =
            (captureStarts cfg es (r.OnProjection cfg true g).1
              (r.OnProjection cfg true g).2).count true +
              (if r.curFrameOffset + 1 = 2 then 1 else 0) := by
          simp only [captureStarts, hhead, List.count_cons]
          by_cases hc : r.curFrameOffset + 1 = 2 <;> simp [hc]
        rw [hc1, ih2, hcount]
        by_cases hc : r.curFrameOffset + 1 = 2
        · rw [if_pos hc, if_neg (by omega), if_pos (by omega)]
        · rw [if_neg hc]
          by_cases hd : r.curFrameOffset + 1 + 1 ≤ 2 ∧
              2 ≤ r.curFrameOffset + 1 + (es.count true : Int)
          · rw [if_pos hd, if_pos (by omega)]
          · rw [if_neg hd, if_neg (by omega)]

theorem captureStarts_before_first (cfg : QfxConfig) (h2 : cfg.renderFrame = 2)
    (events : List Bool) (g : GLContext) (r : QfxRenderer) (hskip : r.skipQfxRender = false)
    (hadv : r.lastFrameCount ≠ r.frameCount) (hidle : r.uiCap.IsIdle)
    (hsmall : (events.count true : Int) < 2 ^ 31) :
    (∀ i, (captureStarts cfg events g r).get? i = some true ↔
      events.get? i = some true ∧ (events.take i).count true = 2) ∧
    (captureStarts cfg events g r).count true = if 3 ≤ events.count true then 1 else 0 := by
  induction events generalizing g r with
  | nil => exact ⟨fun i => by simp [captureStarts], by simp [captureStarts]⟩
  | cons e es ih =>
    cases e with
    | false =>
      have hp := OnProjection_perspective cfg g r
      have hcount : (false :: es).count true = es.count true := by simp
      rw [hcount] at hsmall ⊢
      obtain ⟨ih1, ih2⟩ := ih (r.OnProjection cfg false g).1 (r.OnProjection cfg false g).2
        (by rw [hp.2]; exact hskip) (by rw [hp.2]; exact hadv) (by rw [hp.2]; exact hidle) hsmall
      refine ⟨?_, ?_⟩
      · intro i
        cases i with
        | zero => simp [captureStarts, startsCapture_perspective]
        | succ i =>
          simp only [captureStarts, List.get?_cons_succ, List.take_succ_cons]
          rw [ih1 i]
          simp
      · simp only [captureStarts, startsCapture_perspective]
        rw [List.count_cons_of_ne (by decide), ih2]
    | true =>
      obtain ⟨o1, o2, o3, o4, o5⟩ := OnProjection_orthographic cfg g r
      have hcount : ((true :: es).count true : Int) = (es.count true : Int) + 1 := by simp
      rw [hcount] at hsmall
      simp only [hadv, ne_eq, not_false_eq_true, if_true] at o4 o5
      rw [if_neg (by rw [h2]; omega)] at o5
      obtain ⟨a1, a2⟩ := captureStarts_after_first cfg h2 es (r.OnProjection cfg true g).1
        (r.OnProjection cfg true g).2 (by rw [o2]; exact hskip) (by rw [o3, o1])
        (by rw [o4]) (by rw [o4]; omega) (by rw [o5]; exact Or.inr hidle)
      rw [o4] at a1 a2
      have hhead : startsCapture cfg true g r = false := by
        unfold startsCapture
        rw [o5]
        cases r.uiCap.capturing <;> rfl
      refine ⟨?_, ?_⟩
      · intro i
        cases i with
        | zero => simp [captureStarts, hhead]
        | succ i =>
          simp only [captureStarts, List.get?_cons_succ, List.take_succ_cons]
          rw [a1 i]
          simp only [List.count_cons_self]
          constructor
          · rintro ⟨a, b⟩; exact ⟨a, by omega⟩
          · rintro ⟨a, b⟩; exact ⟨a, by omega⟩
      · simp only [captureStarts, hhead]
        rw [List.count_cons_of_ne (by decide), a2, List.count_cons_self]
        by_cases hd : 3 ≤ es.count true + 1
        · rw [if_pos hd, if_pos (by omega)]
        · rw [if_neg hd, if_neg (by omega)]

end QfxRenderer

/-- What `OnSwapBuffers` does to the frame bookkeeping: the frame counter advances by one
(modulo `2^32`) exactly when the device context is non-null, the frame recorded at the last
orthographic classification, the offset and `skipQfxRender` are kept, and after a swap
with a non-null device context the capture pipeline is `Idle`. -/
theorem QfxRenderer.OnSwapBuffers_frame (cfg : QfxConfig) (hdc : Nat) (success : Bool)
    (g : GLContext) (r : QfxRenderer) :
    (r.OnSwapBuffers cfg hdc success g).1.2.frameCount =
      (if hdc ≠ 0 then (r.frameCount + 1) % UINT_RANGE else r.frameCount) ∧
    (r.OnSwapBuffers cfg hdc success g).1.2.lastFrameCount = r.lastFrameCount ∧
    (r.OnSwapBuffers cfg hdc success g).1.2.curFrameOffset = r.curFrameOffset ∧
    (r.OnSwapBuffers cfg hdc success g).1.2.skipQfxRender = r.skipQfxRender ∧
    (hdc ≠ 0 → (r.OnSwapBuffers cfg hdc success g).1.2.uiCap.IsIdle) := by
  unfold QfxRenderer.OnSwapBuffers
  by_cases h : hdc ≠ 0
  · simp only [h, ne_eq, not_false_eq_true, if_true, true_and, forall_const]
    have hs := CaptureBuffer.StopCapture_flags g r.uiCap
    simp only [CaptureBuffer.GetIsCaptured]
    split
    · exact ⟨(CaptureBuffer.Draw_flags _ _).1, (CaptureBuffer.Draw_flags _ _).2⟩
    · rename_i hc
      exact ⟨hs.1, by simpa using hc⟩
  · simp only [h, if_false, true_and]
    exact fun hh => hh.elim

/-- A frame that follows a buffer swap with a non-null device context starts with the
pipeline `Idle` and, when the previous frame had an orthographic classification (so that
the recorded frame was the current one), with the frame counter different from the recorded
frame. -/
theorem QfxRenderer.frame_after_swap (cfg : QfxConfig) (hdc : Nat) (success : Bool)
    (g : GLContext) (r : QfxRenderer) (hdc0 : hdc ≠ 0) (hlast : r.lastFrameCount = r.frameCount) :
    (r.OnSwapBuffers cfg hdc success g).1.2.uiCap.IsIdle ∧
    (r.OnSwapBuffers cfg hdc success g).1.2.lastFrameCount ≠
      (r.OnSwapBuffers cfg hdc success g).1.2.frameCount ∧
    (r.OnSwapBuffers cfg hdc success g).1.2.skipQfxRender = r.skipQfxRender := by
  obtain ⟨h1, h2, _, h4, h5⟩ := QfxRenderer.OnSwapBuffers_frame cfg hdc success g r
  refine ⟨h5 hdc0, ?_, h4⟩
  rw [h1, h2, if_pos hdc0, hlast]
  unfold UINT_RANGE at *
  omega

/-- C1, counterexample. With capture target index 2 and the pipeline `Idle`, in the first frame
of a freshly created renderer, and in a frame that follows a buffer swap with a null device
context, four orthographic classifications start capture at the second of them, not at
the third. -/
theorem capture_starts_at_second_orthographic :
    (freshRenderer.2.uiCap.IsIdle ∧
      QfxRenderer.captureStarts sampleConfig [true, true, true, true] freshRenderer.1
        freshRenderer.2 = [false, true, false, false]) ∧
    (afterNullSwap.2.uiCap.IsIdle ∧
      QfxRenderer.captureStarts sampleConfig [true, true, true, true] afterNullSwap.1
        afterNullSwap.2 = [false, true, false, false]) := by
  decide

/-- C1, amended. With capture target index 2, `skipQfxRender` clear (as the constructor leaves
it) and the capture pipeline `Idle`, for every frame at whose start the frame counter
differs from the frame recorded at the last orthographic classification, and in which
`OnProjection` receives four orthographic classifications interleaved with any number of
perspective ones: a classification starts capture if and only if it is the orthographic
classification preceded by exactly two orthographic ones, and exactly one classification
of the frame starts capture. -/
theorem capture_starts_at_third_orthographic (cfg : QfxConfig) (h2 : cfg.renderFrame = 2)
    (events : List Bool) (g : GLContext) (r : QfxRenderer) (hskip : r.skipQfxRender = false)
    (hidle : r.uiCap.IsIdle) (hadv : r.lastFrameCount ≠ r.frameCount)
    (hfour : events.count true = 4) :
    (∀ i, (QfxRenderer.captureStarts cfg events g r).get? i = some true ↔
      events.get? i = some true ∧ (events.take i).count true = 2) ∧
    (QfxRenderer.captureStarts cfg events g r).count true = 1 := by
  obtain ⟨a, b⟩ := QfxRenderer.captureStarts_before_first cfg h2 events g r hskip hadv hidle
    (by rw [hfour]; norm_num)
  exact ⟨a, by rw [b, hfour]; rfl⟩

/-- C1, amended, in the frame after a buffer swap with a non-null device context: of the
classifications orthographic, perspective, orthographic, orthographic, orthographic only
the fourth event, the third orthographic one, starts capture. -/
theorem capture_starts_at_third_orthographic_witness :
    (QfxRenderer.captureStarts sampleConfig [true, false, true, true, true] afterSwap.1
      afterSwap.2).count true = 1 ∧
    (QfxRenderer.captureStarts sampleConfig [true, false, true, true, true] afterSwap.1
      afterSwap.2).get? 3 = some true :=
  ⟨(capture_starts_at_third_orthographic sampleConfig rfl [true, false, true, true, true]
      afterSwap.1 afterSwap.2 (by decide) (by decide) (by decide) (by decide)).2,
   ((capture_starts_at_third_orthographic sampleConfig rfl [true, false, true, true, true]
      afterSwap.1 afterSwap.2 (by decide) (by decide) (by decide) (by decide)).1 3).mpr
     (by decide)⟩

/-! ### Render phase classifier: perspective or orthographic -/

theorem GLreal.ltZero_iff (x : GLreal) : x.ltZero = true ↔ x.IsNegative := by
  cases x with
  | finite q => simp [GLreal.ltZero, GLreal.IsNegative]
  | posInf => simp [GLreal.ltZero, GLreal.IsNegative]
  | negInf => simp [GLreal.ltZero, GLreal.IsNegative]
  | nan => simp [GLreal.ltZero, GLreal.IsNegative]

theorem GLreal.not_isNegative_of_isZeroOrPositive (x : GLreal) (h : x.IsZeroOrPositive) :
    ¬ x.IsNegative := by
  rintro (h1 | ⟨q, h1, h2⟩) <;> rcases h with h3 | ⟨p, h3, h4⟩
  · rw [h1] at h3; cases h3
  · rw [h1] at h3; cases h3
  · rw [h1] at h3; cases h3
  · rw [h1] at h3
    cases h3
    exact absurd h4 (not_le.mpr h2)

theorem World.OnProjection_ne (w : World) (r : QfxRenderer) (hr : w.instancePtr = some r) :
    w.OnProjection true ≠ w.OnProjection false := by
  intro h
  have h1 : (w.OnProjection true).instancePtr = (w.OnProjection false).instancePtr := by rw [h]
  simp only [World.OnProjection, hr] at h1
  simp only [Option.some.injEq] at h1
  obtain ⟨_, _, o3, o4, _⟩ := QfxRenderer.OnProjection_orthographic w.cfg w.gl r
  have p := (QfxRenderer.OnProjection_perspective w.cfg w.gl r).2
  rw [h1, p] at o3 o4
  simp only at o3 o4
  by_cases hf : r.lastFrameCount ≠ r.frameCount
  · exact hf o3
  · rw [if_neg hf] at o4
    exact wrapInt32_succ_ne _ o4.symm

theorem hook_projection_step (w : World) (h : w.InProjectionMode) (c : GLCall) (b : Bool) :
    (if ((w.forward c).GetInstance.GetIsInitialized &&
          (w.forward c).GetInstance.GetInstance.MATRIXMODE == some GL_PROJECTION) = true
      then (w.forward c).GetInstance.GetInstance.OnProjection b
      else (w.forward c).GetInstance) = (w.forward c).OnProjection b := by
  obtain ⟨h1, h2, r, hr, hm⟩ := h
  have hfi : (w.forward c).GetInstance = w.forward c := by
    simp [World.GetInstance, World.forward, hr]
  rw [hfi, hfi]
  simp [World.GetIsInitialized, World.MATRIXMODE, World.forward, h1, h2, hr, hm]

/-- C2. While the renderer is initialised and its recorded matrix mode is `GL_PROJECTION`:
a 16-value load (double or float variant) is forwarded and then handled as a perspective
classification if and only if the value at flattened index 11 is strictly negative, and as
an orthographic one otherwise, in particular for zero and every positive value; the other
fifteen values play no part.  The frustum call is always handled as perspective and the
orthographic-setup call as orthographic, for all six arguments. -/
theorem projection_classification (w : World) (h : w.InProjectionMode) :
    (∀ m : Fin 16 → GLreal,
      (qfx_glLoadMatrixd m w = (w.forward (.glLoadMatrixd (List.ofFn m))).OnProjection false ↔
        (m 11).IsNegative) ∧
      (qfx_glLoadMatrixd m w = (w.forward (.glLoadMatrixd (List.ofFn m))).OnProjection true ↔
        ¬ (m 11).IsNegative) ∧
      ((m 11).IsZeroOrPositive →
        qfx_glLoadMatrixd m w = (w.forward (.glLoadMatrixd (List.ofFn m))).OnProjection true) ∧
      (qfx_glLoadMatrixf m w = (w.forward (.glLoadMatrixf (List.ofFn m))).OnProjection false ↔
        (m 11).IsNegative) ∧
      (qfx_glLoadMatrixf m w = (w.forward (.glLoadMatrixf (List.ofFn m))).OnProjection true ↔
        ¬ (m 11).IsNegative) ∧
      ((m 11).IsZeroOrPositive →
        qfx_glLoadMatrixf m w = (w.forward (.glLoadMatrixf (List.ofFn m))).OnProjection true)) ∧
    (∀ left right bottom top zNear zFar : GLreal,
      qfx_glFrustum left right bottom top zNear zFar w =
        (w.forward (.glFrustum left right bottom top zNear zFar)).OnProjection false ∧
      qfx_glOrtho left right bottom top zNear zFar w =
        (w.forward (.glOrtho left right bottom top zNear zFar)).OnProjection true) := by
  have hstep := hook_projection_step w h
  obtain ⟨_, _, r, hr, _⟩ := h
  have hne : ∀ c, (w.forward c).OnProjection true ≠ (w.forward c).OnProjection false :=
    fun c => World.OnProjection_ne (w.forward c) r (by simp [World.forward, hr])
  have hd : ∀ m : Fin 16 → GLreal, qfx_glLoadMatrixd m w =
      (w.forward (.glLoadMatrixd (List.ofFn m))).OnProjection (!(m 11).ltZero) := by
    intro m
    exact hstep _ _
  have hf : ∀ m : Fin 16 → GLreal, qfx_glLoadMatrixf m w =
      (w.forward (.glLoadMatrixf (List.ofFn m))).OnProjection (!(m 11).ltZero) := by
    intro m
    exact hstep _ _
  have key : ∀ (m : Fin 16 → GLreal) (c : GLCall),
      ((w.forward c).OnProjection (!(m 11).ltZero) = (w.forward c).OnProjection false ↔
        (m 11).IsNegative) ∧
      ((w.forward c).OnProjection (!(m 11).ltZero) = (w.forward c).OnProjection true ↔
        ¬ (m 11).IsNegative) := by
    intro m c
    rw [← GLreal.ltZero_iff]
    cases hl : (m 11).ltZero
    · refine ⟨⟨fun h => absurd h (hne c), fun h => by cases h⟩, ⟨fun _ => by decide, fun _ => rfl⟩⟩
    · refine ⟨⟨fun _ => rfl, fun _ => rfl⟩, ⟨fun h => absurd h.symm (hne c), fun h => absurd rfl h⟩⟩
  refine ⟨fun m => ⟨?_, ?_, ?_, ?_, ?_, ?_⟩, fun l r b t n f => ⟨hstep _ _, hstep _ _⟩⟩
  · rw [hd]; exact (key m _).1
  · rw [hd]; exact (key m _).2
  · intro hz
    rw [hd]
    exact (key m _).2.mpr (GLreal.not_isNegative_of_isZeroOrPositive _ hz)
  · rw [hf]; exact (key m _).1
  · rw [hf]; exact (key m _).2
  · intro hz
    rw [hf]
    exact (key m _).2.mpr (GLreal.not_isNegative_of_isZeroOrPositive _ hz)

/-- C2 at the sample world, for a matrix with -1 at index 11 and for one with 0 there. -/
theorem projection_classification_witness :
    sampleWorld.InProjectionMode ∧
    qfx_glLoadMatrixd (matrixWith11 (.finite (-1))) sampleWorld =
      (sampleWorld.forward (.glLoadMatrixd (List.ofFn (matrixWith11 (.finite (-1)))))).OnProjection
        false ∧
    qfx_glLoadMatrixf (matrixWith11 (.finite 0)) sampleWorld =
      (sampleWorld.forward (.glLoadMatrixf (List.ofFn (matrixWith11 (.finite 0))))).OnProjection
        true :=
  have h : sampleWorld.InProjectionMode := ⟨rfl, rfl, _, rfl, rfl⟩
  ⟨h,
   ((projection_classification sampleWorld h).1 (matrixWith11 (.finite (-1)))).1.mpr
     (Or.inr ⟨-1, rfl, by norm_num⟩),
   ((projection_classification sampleWorld h).1 (matrixWith11 (.finite 0))).2.2.2.2.2
     (Or.inr ⟨0, rfl, le_refl 0⟩)⟩

/-! ### Hook target matcher -/

theorem strcmp_eq_zero_iff (a b : List Char) : strcmp a b = 0 ↔ a = b := by
  induction a generalizing b with
  | nil => cases b <;> simp [strcmp]
  | cons x xs ih =>
    cases b with
    | nil => simp [strcmp]
    | cons y ys =>
      by_cases hxy : x = y
      · simp [strcmp, hxy, ih]
      · by_cases hlt : x.toNat < y.toNat <;> simp [strcmp, hxy, hlt]

theorem strstr_isSome_of_isPrefixOf (hay needle : List Char) (h : needle.isPrefixOf hay = true) :
    (strstr hay needle).isSome = true := by
  cases hay with
  | nil => simp [strstr, h]
  | cons c rest => simp [strstr, h]

theorem strstr_isSome_iff (hay needle : List Char) :
    (strstr hay needle).isSome = true ↔ needle <:+: hay := by
  induction hay with
  | nil =>
    cases needle <;> simp [strstr]
  | cons c rest ih =>
    unfold strstr
    by_cases hp : needle.isPrefixOf (c :: rest) = true
    · simp only [hp, if_true, Option.isSome_some, true_iff]
      exact (List.isPrefixOf_iff_prefix.mp hp).isInfix
    · simp only [hp, Bool.false_eq_true, if_false, Option.isSome_map', ih]
      rw [List.infix_cons_iff]
      constructor
      · intro h; exact Or.inr h
      · rintro (h | h)
        · exact absurd (List.isPrefixOf_iff_prefix.mpr h) hp
        · exact h

theorem collectReplacements_mem (pfx : String) (l : List ModuleExport) (i : Nat) (p : RepTargPair) :
    p ∈ collectReplacements pfx l i ↔
      p.target = none ∧ ∃ k e, l.get? k = some e ∧ p.replacement = i + k ∧ e.IsCandidate pfx := by
  induction l generalizing i with
  | nil => simp [collectReplacements]
  | cons symbol rest ih =>
    have step : (p.target = none ∧ ∃ k e, (symbol :: rest).get? k = some e ∧
          p.replacement = i + k ∧ e.IsCandidate pfx) ↔
        ((p.target = none ∧ p.replacement = i ∧ symbol.IsCandidate pfx) ∨
          (p.target = none ∧ ∃ k e, rest.get? k = some e ∧ p.replacement = (i + 1) + k ∧
            e.IsCandidate pfx)) := by
      constructor
      · rintro ⟨ht, k, e, hk, hr, hc⟩
        cases k with
        | zero =>
          simp only [List.get?_cons_zero, Option.some.injEq] at hk
          subst hk
          exact Or.inl ⟨ht, by simpa using hr, hc⟩
        | succ k =>
          simp only [List.get?_cons_succ] at hk
          exact Or.inr ⟨ht, k, e, hk, by omega, hc⟩
      · rintro (⟨ht, hr, hc⟩ | ⟨ht, k, e, hk, hr, hc⟩)
        · exact ⟨ht, 0, symbol, by simp, by simpa using hr, hc⟩
        · exact ⟨ht, k + 1, e, by simpa using hk, by omega, hc⟩
    rw [step]
    unfold collectReplacements
    cases hn : symbol.name with
    | none =>
      simp only [ih]
      constructor
      · intro h; exact Or.inr h
      · rintro (⟨_, _, _, n, hn2, _⟩ | h)
        · rw [hn] at hn2; cases hn2
        · exact h
    | some name =>
      simp only
      by_cases hc : symbol.address ≠ 0 ∧ (strstr name.toList pfx.toList).isSome = true
      · rw [if_pos hc, List.mem_cons, ih]
        constructor
        · rintro (h | h)
          · subst h
            exact Or.inl ⟨rfl, rfl, hc.1, name, hn, hc.2⟩
          · exact Or.inr h
        · rintro (⟨ht, hr, _⟩ | h)
          · left
            cases p
            simp_all
          · exact Or.inr h
      · rw [if_neg hc, ih]
        constructor
        · intro h; exact Or.inr h
        · rintro (⟨_, _, ha, n, hn2, hs⟩ | h)
          · rw [hn] at hn2
            cases hn2
            exact absurd ⟨ha, hs⟩ hc
          · exact h

theorem collectReplacements_sorted (pfx : String) (l : List ModuleExport) (i : Nat) :
    ((collectReplacements pfx l i).map (·.replacement)).Pairwise (· < ·) ∧
    ∀ r ∈ (collectReplacements pfx l i).map (·.replacement), i ≤ r := by
  induction l generalizing i with
  | nil => simp [collectReplacements]
  | cons symbol rest ih =>
    obtain ⟨h1, h2⟩ := ih (i + 1)
    unfold collectReplacements
    cases hn : symbol.name with
    | none => exact ⟨h1, fun r hr => by have := h2 r hr; omega⟩
    | some name =>
      simp only
      split
      · refine ⟨?_, ?_⟩
        · simp only [List.map_cons, List.pairwise_cons]
          exact ⟨fun r hr => by have := h2 r hr; omega, h1⟩
        · intro r hr
          simp only [List.map_cons, List.mem_cons] at hr
          rcases hr with rfl | hr
          · exact le_refl _
          · have := h2 r hr; omega
      · exact ⟨h1, fun r hr => by have := h2 r hr; omega⟩

/-- With a prefix of at least four characters every candidate name has at least four
characters, so `name + 4` points into the name. -/
theorem candidate_name_length (pfx : String) (e : ModuleExport) (h : e.IsCandidate pfx)
    (h4 : 4 ≤ pfx.toList.length) : ∃ n, e.name = some n ∧ 4 ≤ n.toList.length := by
  obtain ⟨_, n, hn, hs⟩ := h
  refine ⟨n, hn, ?_⟩
  obtain ⟨a, b, hab⟩ := (strstr_isSome_iff _ _).mp hs
  have hl := congrArg List.length hab
  simp only [List.length_append] at hl
  omega

theorem matchTarget_replacement (reshadeExports : List ModuleExport) (pair : RepTargPair) :
    (matchTarget reshadeExports pair).replacement = pair.replacement := by
  unfold matchTarget
  split
  · split
    · split <;> rfl
    · rfl
  · rfl

theorem GetQfxReshadeHookPairs_mem (reshadeExports : List ModuleExport) (pfx : String)
    (p : RepTargPair) (hp : p ∈ (GetQfxReshadeHookPairs reshadeExports pfx).1) :
    ∃ e, reshadeExports.get? p.replacement = some e ∧ e.IsCandidate pfx ∧
      ∀ n, e.name = some n → p.target = findTarget p.replacement (skipFour n) reshadeExports 0 := by
  simp only [GetQfxReshadeHookPairs, List.mem_map] at hp
  obtain ⟨p0, hp0, rfl⟩ := hp
  obtain ⟨ht, k, e, hk, hr, hc⟩ := (collectReplacements_mem pfx reshadeExports 0 p0).mp hp0
  have hr2 : p0.replacement = k := by omega
  refine ⟨e, by rw [matchTarget_replacement, hr2]; exact hk, hc, ?_⟩
  intro n hn
  rw [matchTarget_replacement]
  unfold matchTarget
  rw [hr2] at *
  rw [hk]
  simp only [hn]
  cases hf : findTarget k (skipFour n) reshadeExports 0 with
  | none => simpa using ht
  | some j => rfl

theorem findTarget_some (replacement : Nat) (stripped : List Char) (l : List ModuleExport)
    (j t : Nat) (h : findTarget replacement stripped l j = some t) :
    ∃ i e n, t = j + i ∧ l.get? i = some e ∧ t ≠ replacement ∧ e.address ≠ 0 ∧
      e.name = some n ∧ n.toList = stripped := by
  induction l generalizing j with
  | nil => simp [findTarget] at h
  | cons symbol rest ih =>
    unfold findTarget at h
    cases hn : symbol.name with
    | none =>
      rw [hn] at h
      obtain ⟨i, e, n, h1, h2, h3⟩ := ih (j + 1) h
      exact ⟨i + 1, e, n, by omega, by simpa using h2, h3⟩
    | some name =>
      rw [hn] at h
      simp only at h
      split at h
      · rename_i hc
        simp only [Option.some.injEq] at h
        subst h
        exact ⟨0, symbol, name, rfl, rfl, hc.1, hc.2.1, hn,
          ((strcmp_eq_zero_iff _ _).mp hc.2.2).symm⟩
      · obtain ⟨i, e, n, h1, h2, h3⟩ := ih (j + 1) h
        exact ⟨i + 1, e, n, by omega, by simpa using h2, h3⟩

theorem findTarget_none (replacement : Nat) (stripped : List Char) (l : List ModuleExport)
    (j : Nat) (h : findTarget replacement stripped l j = none) (i : Nat) (e : ModuleExport)
    (n : String) (hi : l.get? i = some e) (hne : j + i ≠ replacement) (ha : e.address ≠ 0)
    (hn : e.name = some n) : n.toList ≠ stripped := by
  induction l generalizing j i with
  | nil => simp at hi
  | cons symbol rest ih =>
    unfold findTarget at h
    cases i with
    | zero =>
      simp only [List.get?_cons_zero, Option.some.injEq] at hi
      subst hi
      rw [hn] at h
      simp only at h
      split at h
      · cases h
      · rename_i hc
        intro heq
        exact hc ⟨by simpa using hne, ha, (strcmp_eq_zero_iff _ _).mpr heq.symm⟩
    | succ i =>
      simp only [List.get?_cons_succ] at hi
      cases hs : symbol.name with
      | none =>
        rw [hs] at h
        exact ih (j + 1) h i hi (by omega)
      | some name =>
        rw [hs] at h
        simp only at h
        split at h
        · cases h
        · exact ih (j + 1) h i hi (by omega)

/-- The first loop of the matcher accepts a name that contains the prefix without starting
with it, although its comment reads "Get the symbols that start with qfx_". -/
theorem matcher_accepts_prefix_inside_name :
    (ModuleExport.mk 1 (some "my_qfx_probe") 0).nameStartsWith "qfx_" = false ∧
    (GetQfxReshadeHookPairs [⟨1, some "my_qfx_probe", 0⟩] "qfx_").1 = [⟨0, none⟩] := by
  decide

/-- C3, counterexample. The export `qfx_glOrtho` starts with the prefix `qfx_`, but its address is
null, and the matcher returns no pair for it: a table with one prefixed name yields zero
pairs. -/
theorem matcher_skips_prefixed_export_without_address :
    (ModuleExport.mk 0 (some "qfx_glOrtho") 7).nameStartsWith "qfx_" = true ∧
    (GetQfxReshadeHookPairs [⟨0, some "qfx_glOrtho", 7⟩] "qfx_").1 = [] := by
  decide

/-- C3, amended. For every export table and every prefix, the matcher returns its pairs in
table order with at most one pair per export; it returns exactly one pair for each export
that has a non-null address and a name starting with the prefix; and every pair it returns
is for an export with a name and a non-null address whose name contains the prefix. -/
theorem matcher_pairs_prefixed_exports (reshadeExports : List ModuleExport) (pfx : String) :
    (((GetQfxReshadeHookPairs reshadeExports pfx).1.map (·.replacement)).Pairwise (· < ·)) ∧
    (∀ i e, reshadeExports.get? i = some e → e.address ≠ 0 → e.nameStartsWith pfx = true →
      ((GetQfxReshadeHookPairs reshadeExports pfx).1.map (·.replacement)).count i = 1) ∧
    (∀ p ∈ (GetQfxReshadeHookPairs reshadeExports pfx).1,
      ∃ e n, reshadeExports.get? p.replacement = some e ∧ e.address ≠ 0 ∧ e.name = some n ∧
        pfx.toList <:+: n.toList) := by
  have hmap : (GetQfxReshadeHookPairs reshadeExports pfx).1.map (·.replacement) =
      (collectReplacements pfx reshadeExports 0).map (·.replacement) := by
    simp only [GetQfxReshadeHookPairs, List.map_map]
    apply List.map_congr_left
    intro p _
    exact matchTarget_replacement reshadeExports p
  have hsorted := (collectReplacements_sorted pfx reshadeExports 0).1
  refine ⟨by rw [hmap]; exact hsorted, ?_, ?_⟩
  · intro i e hi ha hs
    rw [hmap]
    have hnodup : ((collectReplacements pfx reshadeExports 0).map (·.replacement)).Nodup :=
      hsorted.imp (fun h => Nat.ne_of_lt h)
    apply List.count_eq_one_of_mem hnodup
    rw [List.mem_map]
    refine ⟨⟨i, none⟩, ?_, rfl⟩
    rw [collectReplacements_mem]
    refine ⟨rfl, i, e, hi, by simp, ha, ?_⟩
    unfold ModuleExport.nameStartsWith at hs
    cases hn : e.name with
    | none => rw [hn] at hs; cases hs
    | some n =>
      rw [hn] at hs
      exact ⟨n, rfl, strstr_isSome_of_isPrefixOf _ _ hs⟩
  · intro p hp
    obtain ⟨e, he, ⟨ha, n, hn, hs⟩, _⟩ := GetQfxReshadeHookPairs_mem reshadeExports pfx p hp
    exact ⟨e, n, he, ha, hn, (strstr_isSome_iff _ _).mp hs⟩

/-- C3, amended, on a table holding `qfx_glOrtho` and `glOrtho`: one pair for position 0. -/
theorem matcher_pairs_prefixed_exports_witness :
    ((GetQfxReshadeHookPairs [⟨1, some "qfx_glOrtho", 0⟩, ⟨2, some "glOrtho", 1⟩] "qfx_").1.map
      (·.replacement)).count 0 = 1 :=
  (matcher_pairs_prefixed_exports [⟨1, some "qfx_glOrtho", 0⟩, ⟨2, some "glOrtho", 1⟩] "qfx_").2.1
    0 ⟨1, some "qfx_glOrtho", 0⟩ (by decide) (by decide) (by decide)

/-- C4, counterexample. The table holds `qfx_glOrtho` and another entry named exactly `glOrtho`,
but that entry has a null address: the returned pair has no target. -/
theorem matcher_ignores_target_without_address :
    (GetQfxReshadeHookPairs [⟨1, some "qfx_glOrtho", 0⟩, ⟨0, some "glOrtho", 1⟩] "qfx_").1 =
      [⟨0, none⟩] ∧
    (∃ j e, j ≠ 0 ∧
      [ModuleExport.mk 1 (some "qfx_glOrtho") 0, ⟨0, some "glOrtho", 1⟩].get? j = some e ∧
      e.name = some "glOrtho") :=
  ⟨by decide, 1, ⟨0, some "glOrtho", 1⟩, by decide, by decide, by decide⟩

/-- C4, amended. With the prefix `qfx_`, for every returned pair whose replacement name starts
with the prefix, the target is present if and only if some other entry of the table with a
non-null address has a name equal, as a whole string, to the replacement's name with the
prefix removed; and a target that is present is such an entry. -/
theorem matcher_target_iff (reshadeExports : List ModuleExport) (p : RepTargPair)
    (hp : p ∈ (GetQfxReshadeHookPairs reshadeExports "qfx_").1) (e : ModuleExport) (n : String)
    (he : reshadeExports.get? p.replacement = some e) (hn : e.name = some n)
    (hpre : "qfx_".toList <+: n.toList) :
    (p.target.isSome = true ↔
      ∃ j e2 s, j ≠ p.replacement ∧ reshadeExports.get? j = some e2 ∧ e2.address ≠ 0 ∧
        e2.name = some s ∧ "qfx_".toList ++ s.toList = n.toList) ∧
    (∀ j, p.target = some j →
      j ≠ p.replacement ∧ ∃ e2 s, reshadeExports.get? j = some e2 ∧ e2.address ≠ 0 ∧
        e2.name = some s ∧ "qfx_".toList ++ s.toList = n.toList) := by
  obtain ⟨e1, he1, _, ht⟩ := GetQfxReshadeHookPairs_mem reshadeExports "qfx_" p hp
  rw [he] at he1
  cases he1
  have ht := ht n hn
  obtain ⟨rest, hrest⟩ := hpre
  have hskip : skipFour n = rest := by
    unfold skipFour
    rw [← hrest]
    rfl
  have key : ∀ s : String, s.toList = skipFour n ↔ "qfx_".toList ++ s.toList = n.toList := by
    intro s
    rw [hskip, ← hrest]
    constructor
    · intro h; rw [h]
    · intro h; exact List.append_cancel_left h
  have hsome : ∀ j, p.target = some j →
      j ≠ p.replacement ∧ ∃ e2 s, reshadeExports.get? j = some e2 ∧ e2.address ≠ 0 ∧
        e2.name = some s ∧ "qfx_".toList ++ s.toList = n.toList := by
    intro j hj
    rw [ht] at hj
    obtain ⟨i, e2, s, h1, h2, h3, h4, h5, h6⟩ := findTarget_some _ _ _ _ _ hj
    have hji : j = i := by omega
    subst hji
    exact ⟨h3, e2, s, h2, h4, h5, (key s).mp h6⟩
  refine ⟨?_, hsome⟩
  constructor
  · intro h
    obtain ⟨j, hj⟩ := Option.isSome_iff_exists.mp h
    obtain ⟨h1, e2, s, h2⟩ := hsome j hj
    exact ⟨j, e2, s, h1, h2⟩
  · rintro ⟨j, e2, s, h1, h2, h3, h4, h5⟩
    cases hf : p.target with
    | some t => rfl
    | none =>
      rw [ht] at hf
      exact absurd ((key s).mpr h5) (findTarget_none _ _ _ _ hf j e2 s h2 (by omega) h3 h4)

/-- C4, amended, on the table `qfx_glOrtho`, `glOrtho`: the pair for position 0 has a target,
hence another entry with an address is named `glOrtho`. -/
theorem matcher_target_iff_witness :
    ∃ j e2 s, j ≠ 0 ∧ resolvedExports.get? j = some e2 ∧ e2.address ≠ 0 ∧ e2.name = some s ∧
      "qfx_".toList ++ s.toList = "qfx_glOrtho".toList :=
  (matcher_target_iff resolvedExports ⟨0, some 1⟩ (by decide) ⟨1, some "qfx_glOrtho", 0⟩
    "qfx_glOrtho" (by decide) rfl ⟨"glOrtho".toList, rfl⟩).1.mp rfl

/-! ### Hook installation -/

namespace QfxHookManager

theorem installRequests_append (a b : List HookEvent) :
    installRequests (a ++ b) = installRequests a ++ installRequests b := by
  induction a with
  | nil => rfl
  | cons x xs ih => cases x <;> simp [installRequests, ih]

theorem installLoop_spec (reshadeExports : List ModuleExport) (pairs : List RepTargPair)
    (installed : Bool) (events : List HookEvent)
    (hnames : ∀ p ∈ pairs, ((reshadeExports.get? p.replacement).getD ⟨0, none, 0⟩).name.isSome = true) :
    installRequests (installLoop reshadeExports pairs installed events).2 =
      installRequests events ++
        (pairs.takeWhile (·.target.isSome)).map (requestFor reshadeExports) ∧
    (installLoop reshadeExports pairs installed events).1 =
      (installed && pairs.all (·.target.isSome)) := by
  induction pairs generalizing events with
  | nil => simp [installLoop]
  | cons p rest ih =>
    have hrest : ∀ q ∈ rest,
        ((reshadeExports.get? q.replacement).getD ⟨0, none, 0⟩).name.isSome = true :=
      fun q hq => hnames q (List.mem_cons_of_mem _ hq)
    unfold installLoop
    cases ht : p.target with
    | some t =>
      simp only
      obtain ⟨h1, h2⟩ := ih (events ++ [.install ⟨((reshadeExports.get? p.replacement).getD
        ⟨0, none, 0⟩).name, ((reshadeExports.get? t).getD ⟨0, none, 0⟩).address,
        ((reshadeExports.get? p.replacement).getD ⟨0, none, 0⟩).address, true⟩]) hrest
      refine ⟨?_, ?_⟩
      · rw [h1, installRequests_append]
        simp [installRequests, List.takeWhile_cons, ht, requestFor]
      · rw [h2]
        simp [ht]
    | none =>
      have hp := hnames p (List.mem_cons_self _ _)
      simp only [hp, if_true]
      simp [installRequests_append, installRequests, List.takeWhile_cons, ht]

theorem matcher_names (reshadeExports : List ModuleExport) (pfx : String) :
    ∀ p ∈ (GetQfxReshadeHookPairs reshadeExports pfx).1,
      ((reshadeExports.get? p.replacement).getD ⟨0, none, 0⟩).name.isSome = true := by
  intro p hp
  obtain ⟨e, he, ⟨_, n, hn, _⟩, _⟩ := GetQfxReshadeHookPairs_mem reshadeExports pfx p hp
  rw [he]
  simp [hn]

theorem GetQfxReshadeHookPairs_log (reshadeExports : List ModuleExport) (pfx : String) :
    installRequests (GetQfxReshadeHookPairs reshadeExports pfx).2 = [] := rfl

theorem TryInstallGlHooks_attempt (reshadeExports : List ModuleExport) (m : QfxHookManager)
    (hinit : m.initialized = true) (hnot : m.glHooksInstalled = false) :
    requestsBy reshadeExports m =
      ((GetQfxReshadeHookPairs reshadeExports "qfx_").1.takeWhile (·.target.isSome)).map
        (requestFor reshadeExports) ∧
    (TryInstallGlHooks reshadeExports m).2 =
      (decide ((GetQfxReshadeHookPairs reshadeExports "qfx_").1 ≠ []) &&
        (GetQfxReshadeHookPairs reshadeExports "qfx_").1.all (·.target.isSome)) := by
  have hloop := fun ev => installLoop_spec reshadeExports
    (GetQfxReshadeHookPairs reshadeExports "qfx_").1 true ev (matcher_names reshadeExports "qfx_")
  unfold requestsBy TryInstallGlHooks
  simp only [hinit, hnot, Bool.not_false, Bool.and_self, if_true]
  by_cases hlen : (GetQfxReshadeHookPairs reshadeExports "qfx_").1.length > 0
  · have hne : (GetQfxReshadeHookPairs reshadeExports "qfx_").1 ≠ [] := by
      intro h; rw [h] at hlen; simp at hlen
    simp only [hlen, if_true]
    refine ⟨?_, ?_⟩
    · simp only [installRequests_append, (hloop _).1, GetQfxReshadeHookPairs_log]
      simp [installRequests]
    · simp only [(hloop _).2]
      simp [hne]
  · have he : (GetQfxReshadeHookPairs reshadeExports "qfx_").1 = [] := by
      cases h : (GetQfxReshadeHookPairs reshadeExports "qfx_").1 with
      | nil => rfl
      | cons a b => rw [h] at hlen; simp at hlen
    simp only [hlen, if_false]
    refine ⟨?_, ?_⟩
    · simp [installRequests_append, installRequests, GetQfxReshadeHookPairs_log, he]
    · simp [he]

end QfxHookManager

namespace QfxHookManager

/-- The events of the install loop: a request for every pair before the first pair without
target, then the error for that pair, if there is one, and nothing after it. -/
theorem installLoop_log (reshadeExports : List ModuleExport) (pairs : List RepTargPair)
    (installed : Bool) (events : List HookEvent)
    (hnames : ∀ p ∈ pairs, ((reshadeExports.get? p.replacement).getD ⟨0, none, 0⟩).name.isSome = true) :
    (installLoop reshadeExports pairs installed events).2 =
      events ++
        (pairs.takeWhile (·.target.isSome)).map (fun q => .install (requestFor reshadeExports q)) ++
        (pairs.find? (·.target.isNone)).toList.map
          (fun p => .LogError "Could not find hook target for %s" (requestFor reshadeExports p).name) := by
  induction pairs generalizing events with
  | nil => simp [installLoop]
  | cons p rest ih =>
    have hrest : ∀ q ∈ rest,
        ((reshadeExports.get? q.replacement).getD ⟨0, none, 0⟩).name.isSome = true :=
      fun q hq => hnames q (List.mem_cons_of_mem _ hq)
    unfold installLoop
    cases ht : p.target with
    | some t =>
      simp only [ih _ hrest]
      simp [List.takeWhile_cons, List.find?_cons, ht, requestFor]
    | none =>
      have hp := hnames p (List.mem_cons_self _ _)
      simp only [hp, if_true]
      simp [List.takeWhile_cons, List.find?_cons, ht, requestFor]

/-- The events of an install attempt with at least one candidate pair. -/
theorem TryInstallGlHooks_log (reshadeExports : List ModuleExport) (m : QfxHookManager)
    (hinit : m.initialized = true) (hnot : m.glHooksInstalled = false)
    (hne : (GetQfxReshadeHookPairs reshadeExports "qfx_").1 ≠ []) :
    eventsBy reshadeExports m =
      (GetQfxReshadeHookPairs reshadeExports "qfx_").2 ++
        [.LogInfo "Found %i OpenGL Hooks. Installing..."
          (GetQfxReshadeHookPairs reshadeExports "qfx_").1.length] ++
        ((GetQfxReshadeHookPairs reshadeExports "qfx_").1.takeWhile (·.target.isSome)).map
          (fun q => .install (requestFor reshadeExports q)) ++
        ((GetQfxReshadeHookPairs reshadeExports "qfx_").1.find? (·.target.isNone)).toList.map
          (fun p => .LogError "Could not find hook target for %s"
            (requestFor reshadeExports p).name) ++
        [.apply_queued_actions] := by
  have hlen : (GetQfxReshadeHookPairs reshadeExports "qfx_").1.length > 0 :=
    List.length_pos.mpr hne
  unfold eventsBy TryInstallGlHooks
  simp only [hinit, hnot, Bool.not_false, Bool.and_self, if_true, hlen,
    installLoop_log reshadeExports _ true _ (matcher_names reshadeExports "qfx_")]
  simp only [List.append_assoc, List.drop_left]

end QfxHookManager

/-- C5, counterexample. The candidate list is `qfx_glFrustum` without target followed by
`qfx_glOrtho` with its target resolved; the install attempt issues no request at all, so the
resolved pair after the unresolved one is skipped. -/
theorem install_loop_stops_at_unresolved_pair :
    (⟨1, some 2⟩ : RepTargPair) ∈ (GetQfxReshadeHookPairs unresolvedFirstExports "qfx_").1 ∧
    QfxHookManager.requestsBy unresolvedFirstExports stableManager = [] := by
  decide

/-- C5, amended. In an install attempt the requests are issued, in order, for exactly the
pairs that come before the first pair whose target is missing (for all pairs when none is
missing).  At the first pair whose target is missing the error is logged, after the requests
for the pairs before it, and the loop stops: the only event that follows is the application
of the queued actions, after the call, and the result and `glHooksInstalled` are false.  When
no target is missing nothing is logged as an error. -/
theorem install_requests_until_first_unresolved (reshadeExports : List ModuleExport)
    (m : QfxHookManager) (hinit : m.initialized = true) (hnot : m.glHooksInstalled = false) :
    (QfxHookManager.requestsBy reshadeExports m).map (·.replacement) =
      ((GetQfxReshadeHookPairs reshadeExports "qfx_").1.takeWhile (·.target.isSome)).map
        (fun p => ((reshadeExports.get? p.replacement).map (·.address)).getD 0) ∧
    QfxHookManager.requestsBy reshadeExports m =
      ((GetQfxReshadeHookPairs reshadeExports "qfx_").1.takeWhile (·.target.isSome)).map
        (QfxHookManager.requestFor reshadeExports) ∧
    (∀ p, (GetQfxReshadeHookPairs reshadeExports "qfx_").1.find? (·.target.isNone) = some p →
      QfxHookManager.eventsBy reshadeExports m =
        (GetQfxReshadeHookPairs reshadeExports "qfx_").2 ++
          [.LogInfo "Found %i OpenGL Hooks. Installing..."
            (GetQfxReshadeHookPairs reshadeExports "qfx_").1.length] ++
          ((GetQfxReshadeHookPairs reshadeExports "qfx_").1.takeWhile (·.target.isSome)).map
            (fun q => .install (QfxHookManager.requestFor reshadeExports q)) ++
          [.LogError "Could not find hook target for %s"
            ((reshadeExports.get? p.replacement).getD ⟨0, none, 0⟩).name,
           .apply_queued_actions] ∧
      (QfxHookManager.TryInstallGlHooks reshadeExports m).2 = false ∧
      (QfxHookManager.TryInstallGlHooks reshadeExports m).1.glHooksInstalled = false) ∧
    ((GetQfxReshadeHookPairs reshadeExports "qfx_").1 ≠ [] →
      (GetQfxReshadeHookPairs reshadeExports "qfx_").1.find? (·.target.isNone) = none →
      QfxHookManager.eventsBy reshadeExports m =
        (GetQfxReshadeHookPairs reshadeExports "qfx_").2 ++
          [.LogInfo "Found %i OpenGL Hooks. Installing..."
            (GetQfxReshadeHookPairs reshadeExports "qfx_").1.length] ++
          (GetQfxReshadeHookPairs reshadeExports "qfx_").1.map
            (fun q => .install (QfxHookManager.requestFor reshadeExports q)) ++
          [.apply_queued_actions]) := by
  have hattempt := QfxHookManager.TryInstallGlHooks_attempt reshadeExports m hinit hnot
  refine ⟨?_, hattempt.1, fun p hp => ?_, fun hne hnone => ?_⟩
  · rw [hattempt.1, List.map_map]
    apply List.map_congr_left
    intro p _
    simp only [Function.comp, QfxHookManager.requestFor]
    cases reshadeExports.get? p.replacement <;> rfl
  · have hmem := List.mem_of_find?_eq_some hp
    have hnone : p.target.isNone = true := by simpa using List.find?_some hp
    have hne : (GetQfxReshadeHookPairs reshadeExports "qfx_").1 ≠ [] :=
      List.ne_nil_of_mem hmem
    have hres : (QfxHookManager.TryInstallGlHooks reshadeExports m).2 = false := by
      rw [hattempt.2, Bool.and_eq_false_iff]
      right
      rw [List.all_eq_false]
      refine ⟨p, hmem, ?_⟩
      cases ht : p.target with
      | none => simp
      | some t => rw [ht] at hnone; simp at hnone
    refine ⟨?_, hres, ?_⟩
    · rw [QfxHookManager.TryInstallGlHooks_log reshadeExports m hinit hnot hne, hp]
      simp [QfxHookManager.requestFor]
    · exact hres
  · rw [QfxHookManager.TryInstallGlHooks_log reshadeExports m hinit hnot hne, hnone]
    have hall : ∀ p ∈ (GetQfxReshadeHookPairs reshadeExports "qfx_").1,
        p.target.isSome = true := by
      intro p hp
      have := List.find?_eq_none.mp hnone p hp
      cases ht : p.target with
      | none => rw [ht] at this; simp at this
      | some t => rfl
    rw [List.takeWhile_eq_self_iff.mpr hall]
    simp

/-- C5, amended, on the table `qfx_glOrtho`, `glOrtho` (one request, for the replacement at
address 1) and on the table `qfx_glOrtho`, `glOrtho`, `qfx_glFrustum`, `qfx_glBlendFunc`,
`glBlendFunc`: one request, the error for `qfx_glFrustum`, and no request for
`qfx_glBlendFunc`. -/
theorem install_requests_until_first_unresolved_witness :
    (QfxHookManager.requestsBy resolvedExports stableManager).map (·.replacement) = [1] ∧
    ((GetQfxReshadeHookPairs unresolvedSecondExports "qfx_").1 =
        [⟨0, some 1⟩, ⟨2, none⟩, ⟨3, some 4⟩] ∧
      QfxHookManager.requestsBy unresolvedSecondExports stableManager =
        [⟨some "qfx_glOrtho", 2, 1, true⟩] ∧
      QfxHookManager.eventsBy unresolvedSecondExports stableManager =
        [.LogInfo "Loaded %i exported functions from the local module." 5,
         .LogInfo "Found %i OpenGL Hooks. Installing..." 3,
         .install ⟨some "qfx_glOrtho", 2, 1, true⟩,
         .LogError "Could not find hook target for %s" (some "qfx_glFrustum"),
         .apply_queued_actions] ∧
      (QfxHookManager.TryInstallGlHooks unresolvedSecondExports stableManager).2 = false) :=
  ⟨(install_requests_until_first_unresolved resolvedExports stableManager rfl rfl).1,
   by decide,
   by rw [(install_requests_until_first_unresolved unresolvedSecondExports stableManager rfl
      rfl).2.1]; decide,
   by rw [((install_requests_until_first_unresolved unresolvedSecondExports stableManager rfl
      rfl).2.2.1 ⟨2, none⟩ (by decide)).1]; decide,
   ((install_requests_until_first_unresolved unresolvedSecondExports stableManager rfl
      rfl).2.2.1 ⟨2, none⟩ (by decide)).2.1⟩

/-- C6. When `TryInstallGlHooks` performs an install attempt (`initialized` set,
`glHooksInstalled` clear) it returns false if the candidate list is empty or some candidate
pair has no target, and true if the list is non-empty and every pair has a target. -/
theorem try_install_result (reshadeExports : List ModuleExport) (m : QfxHookManager)
    (hinit : m.initialized = true) (hnot : m.glHooksInstalled = false) :
    (((GetQfxReshadeHookPairs reshadeExports "qfx_").1 = [] ∨
        ∃ p ∈ (GetQfxReshadeHookPairs reshadeExports "qfx_").1, p.target = none) →
      (QfxHookManager.TryInstallGlHooks reshadeExports m).2 = false) ∧
    (((GetQfxReshadeHookPairs reshadeExports "qfx_").1 ≠ [] ∧
        ∀ p ∈ (GetQfxReshadeHookPairs reshadeExports "qfx_").1, p.target.isSome = true) →
      (QfxHookManager.TryInstallGlHooks reshadeExports m).2 = true) := by
  rw [(QfxHookManager.TryInstallGlHooks_attempt reshadeExports m hinit hnot).2]
  constructor
  · rintro (h | ⟨p, hp, ht⟩)
    · simp [h]
    · rw [Bool.and_eq_false_iff]
      right
      rw [List.all_eq_false]
      exact ⟨p, hp, by simp [ht]⟩
  · rintro ⟨hne, hall⟩
    simp only [Bool.and_eq_true, decide_eq_true_eq, List.all_eq_true]
    exact ⟨hne, hall⟩

/-- C6 on three tables: all targets resolved, one target missing, no candidate. -/
theorem try_install_result_witness :
    (QfxHookManager.TryInstallGlHooks resolvedExports stableManager).2 = true ∧
    (QfxHookManager.TryInstallGlHooks unresolvedFirstExports stableManager).2 = false ∧
    (QfxHookManager.TryInstallGlHooks [] stableManager).2 = false :=
  ⟨(try_install_result resolvedExports stableManager rfl rfl).2 ⟨by decide, by decide⟩,
   (try_install_result unresolvedFirstExports stableManager rfl rfl).1
     (Or.inr ⟨⟨0, none⟩, by decide, rfl⟩),
   (try_install_result [] stableManager rfl rfl).1 (Or.inl (by decide))⟩

/-- C8. In every state reached from a freshly constructed capture buffer by any sequence of
`StartCapture` (either overload), `ResumeCapture`, `StopCapture` and `Draw`, with arbitrary
commands of the host in between, `capturing` and `captured` are not both true. -/
theorem capture_flags_mutually_exclusive (linked : QfxProgram) (vp0 : IVec4) (g : GLContext)
    (ops : List CaptureOp) :
    ¬ ((CaptureOp.runAll ops (CaptureBuffer.construct linked vp0 g)).2.capturing = true ∧
       (CaptureOp.runAll ops (CaptureBuffer.construct linked vp0 g)).2.captured = true) := by
  apply CaptureBuffer.runAll_exclusive
  simp [(CaptureBuffer.construct_flags linked vp0 g).1]

/-- C9. From `Idle`, after `StartCapture`, `StopCapture`, `ResumeCapture` the pipeline is
still `Captured` (`ResumeCapture` does not touch the flags), so the second `StopCapture` is
not invoked from `Capturing` and changes nothing; the sequence is therefore not legal in the
sense of the specification, although it does end in `Idle`. -/
theorem resume_sequence_second_stop_not_capturing (g : GLContext) (cb : CaptureBuffer)
    (h : cb.IsIdle) :
    (CaptureOp.runAll [.StartCapture, .StopCapture, .ResumeCapture] (g, cb)).2.IsCaptured ∧
    CaptureOp.StopCapture.run
        (CaptureOp.runAll [.StartCapture, .StopCapture, .ResumeCapture] (g, cb)) =
      CaptureOp.runAll [.StartCapture, .StopCapture, .ResumeCapture] (g, cb) ∧
    ¬ CaptureOp.Legal [.StartCapture, .StopCapture, .ResumeCapture, .StopCapture, .Draw] (g, cb) ∧
    (CaptureOp.runAll [.StartCapture, .StopCapture, .ResumeCapture, .StopCapture, .Draw]
      (g, cb)).2.IsIdle := by
  obtain ⟨h1, h2⟩ := h
  have a := CaptureBuffer.StartCapture_flags g cb
  rw [h1, h2] at a
  have b := CaptureBuffer.StopCapture_flags (cb.StartCapture g).1 (cb.StartCapture g).2
  rw [a.1, a.2] at b
  have c := CaptureBuffer.ResumeCapture_flags
    ((cb.StartCapture g).2.StopCapture (cb.StartCapture g).1).1
    ((cb.StartCapture g).2.StopCapture (cb.StartCapture g).1).2
  rw [b.1, b.2] at c
  simp only [Bool.true_or, Bool.not_false, Bool.or_true] at a b c
  have h3 : (CaptureOp.runAll [.StartCapture, .StopCapture, .ResumeCapture] (g, cb)).2.IsCaptured :=
    ⟨c.1, c.2⟩
  refine ⟨h3, ?_, ?_, ?_⟩
  · simp only [CaptureOp.run, CaptureBuffer.StopCapture, h3.1]
    rfl
  · intro hl
    simp only [CaptureOp.Legal, CaptureOp.ValidIn] at hl
    have h4 := hl.2.2.2.1
    simp only [CaptureOp.run, CaptureBuffer.IsCapturing, c.1] at h4
    exact absurd h4.1 (by decide)
  · exact CaptureBuffer.Draw_flags _ _

/-- C9, at the freshly constructed sample capture buffer. -/
theorem resume_sequence_second_stop_not_capturing_witness :
    sampleCapture.2.IsIdle ∧
    (CaptureOp.runAll [.StartCapture, .StopCapture, .ResumeCapture] sampleCapture).2.IsCaptured ∧
    ¬ CaptureOp.Legal [.StartCapture, .StopCapture, .ResumeCapture, .StopCapture, .Draw]
      sampleCapture :=
  ⟨by decide,
   (resume_sequence_second_stop_not_capturing sampleCapture.1 sampleCapture.2 (by decide)).1,
   (resume_sequence_second_stop_not_capturing sampleCapture.1 sampleCapture.2 (by decide)).2.2.1⟩

/-- C10. `Draw` from `Idle` is a no-operation: the OpenGL context, command list included, and
the capture buffer are returned unchanged, so no draw command is issued, no binding changes
and the pipeline stays `Idle`. -/
theorem draw_from_idle_is_rejected (g : GLContext) (cb : CaptureBuffer) (h : cb.IsIdle) :
    cb.Draw g = (g, cb) ∧ (cb.Draw g).2.IsIdle := by
  obtain ⟨h1, h2⟩ := h
  have e : cb.Draw g = (g, cb) := by
    simp [CaptureBuffer.Draw, CaptureBuffer.StopCapture, h1, h2]
  exact ⟨e, by rw [e]; exact ⟨h1, h2⟩⟩

/-- C10, at the freshly constructed sample capture buffer. -/
theorem draw_from_idle_is_rejected_witness :
    sampleCapture.2.IsIdle ∧ sampleCapture.2.Draw sampleCapture.1 = sampleCapture :=
  ⟨by decide, (draw_from_idle_is_rejected sampleCapture.1 sampleCapture.2 (by decide)).1⟩

/-! ### OpenGL bindings: the effect of the binding helpers -/

theorem issuedSince_append (g : GLContext) (l : List GLCall) (g2 : GLContext)
    (h : g2.calls = g.calls ++ l) : g2.issuedSince g = l := by
  simp [GLContext.issuedSince, h]

theorem record_eq (g : GLContext) (c : GLCall) :
    g.record c = { g with calls := g.calls ++ [c] } := rfl

theorem REPORTERROR_eq (msg : String) (g : GLContext) :
    REPORTERROR msg g =
      { g with calls := g.calls ++ if g.NDEBUG then [] else [GLCall.REPORTERROR msg] } := by
  unfold REPORTERROR
  cases g
  split <;> simp_all [GLContext.record]

theorem glBindFramebuffer_both (id : Nat) (g : GLContext) :
    glBindFramebuffer GL_FRAMEBUFFER id g =
      { g with drawFramebuffer := id, readFramebuffer := id,
               calls := g.calls ++ [.glBindFramebuffer GL_FRAMEBUFFER id] } := by
  simp [glBindFramebuffer, GLContext.record]

theorem glBindFramebuffer_draw (id : Nat) (g : GLContext) :
    glBindFramebuffer GL_DRAW_FRAMEBUFFER id g =
      { g with drawFramebuffer := id,
               calls := g.calls ++ [.glBindFramebuffer GL_DRAW_FRAMEBUFFER id] } := by
  simp [glBindFramebuffer, GLContext.record, (by decide : GL_DRAW_FRAMEBUFFER ≠ GL_FRAMEBUFFER)]

theorem glBindFramebuffer_read (id : Nat) (g : GLContext) :
    glBindFramebuffer GL_READ_FRAMEBUFFER id g =
      { g with readFramebuffer := id,
               calls := g.calls ++ [.glBindFramebuffer GL_READ_FRAMEBUFFER id] } := by
  simp [glBindFramebuffer, GLContext.record, (by decide : GL_READ_FRAMEBUFFER ≠ GL_FRAMEBUFFER),
    (by decide : GL_READ_FRAMEBUFFER ≠ GL_DRAW_FRAMEBUFFER)]

theorem glBindVertexArray_eq (id : Nat) (g : GLContext) :
    glBindVertexArray id g =
      { g with vertexArray := id, calls := g.calls ++ [.glBindVertexArray id] } := rfl

theorem glUseProgram_eq (id : Nat) (g : GLContext) :
    glUseProgram id g =
      { g with currentProgram := id, calls := g.calls ++ [.glUseProgram id] } := rfl

theorem glViewport_eq (x y w h : Int) (g : GLContext) :
    glViewport x y w h g =
      { g with
        viewport := if w < 0 ∨ h < 0 then g.viewport else ⟨x, y, w, h⟩,
        calls := g.calls ++ [.glViewport x y w h] } := by
  unfold glViewport
  split <;> simp_all [GLContext.record]

theorem QfxTextureBase.BindTexture_2D (id slot : Nat) (g : GLContext) :
    QfxTextureBase.BindTexture GL_TEXTURE_2D id slot g =
      { g with activeUnit := slot,
               texture2D := fun u => if u = slot then id else g.texture2D u,
               calls := g.calls ++
                 [.glActiveTexture (GL_TEXTURE0 + slot), .glBindTexture GL_TEXTURE_2D id] } := by
  simp [QfxTextureBase.BindTexture, glBindTexture, glActiveTexture, GLContext.record]

theorem QfxTexture2D.Bind_eq (slot : Nat) (g : GLContext) (t : QfxTexture2D) :
    t.Bind slot g =
      ({ g with activeUnit := slot,
                texture2D := fun u =>
                  if t.target = GL_TEXTURE_2D ∧ u = slot then t.id else g.texture2D u,
                calls := g.calls ++
                  [.glActiveTexture (GL_TEXTURE0 + slot), .glBindTexture t.target t.id] },
       { t with texUnit := slot }) := by
  by_cases h : t.target = GL_TEXTURE_2D <;>
    simp [QfxTexture2D.Bind, glBindTexture, glActiveTexture, GLContext.record, h]

theorem QfxBuffer.GetCurrentBuffer_array (g : GLContext) :
    QfxBuffer.GetCurrentBuffer GL_ARRAY_BUFFER g = g.arrayBuffer := rfl

theorem QfxBuffer.GetCurrentBuffer_element (g : GLContext) :
    QfxBuffer.GetCurrentBuffer GL_ELEMENT_ARRAY_BUFFER g = g.elementArrayOf g.vertexArray := rfl

theorem QfxBuffer.BindBuffer_array (id : Nat) (g : GLContext) :
    QfxBuffer.BindBuffer GL_ARRAY_BUFFER id g =
      { g with arrayBuffer := id, calls := g.calls ++ [.glBindBuffer GL_ARRAY_BUFFER id] } := by
  have hb : QfxBuffer.GetBufferContextBinding GL_ARRAY_BUFFER ≠ ENUM_INVALID := by decide
  simp [QfxBuffer.BindBuffer, QfxBuffer.ValidateBuffer, hb, glBindBuffer, GLContext.record]

theorem QfxBuffer.BindBuffer_element (id : Nat) (g : GLContext) :
    QfxBuffer.BindBuffer GL_ELEMENT_ARRAY_BUFFER id g =
      { g with elementArrayOf := fun v => if v = g.vertexArray then id else g.elementArrayOf v,
               calls := g.calls ++ [.glBindBuffer GL_ELEMENT_ARRAY_BUFFER id] } := by
  have hb : QfxBuffer.GetBufferContextBinding GL_ELEMENT_ARRAY_BUFFER ≠ ENUM_INVALID := by decide
  simp [QfxBuffer.BindBuffer, QfxBuffer.ValidateBuffer, hb, glBindBuffer, GLContext.record,
    (by decide : GL_ELEMENT_ARRAY_BUFFER ≠ GL_ARRAY_BUFFER)]

theorem CaptureBuffer.Draw_captured (g : GLContext) (cb : CaptureBuffer) (h : cb.IsCaptured) :
    (cb.Draw g).1.vertexArray = g.vertexArray ∧
    (cb.Draw g).1.arrayBuffer = g.arrayBuffer ∧
    (cb.Draw g).1.elementArrayOf = g.elementArrayOf ∧
    (cb.Draw g).1.currentProgram = g.currentProgram ∧
    (cb.Draw g).1.texture2D = g.texture2D ∧
    (cb.Draw g).1.activeUnit = g.activeUnit ∧
    (cb.Draw g).1.drawFramebuffer = g.drawFramebuffer ∧
    (cb.Draw g).1.readFramebuffer = g.readFramebuffer ∧
    (cb.Draw g).1.calls = g.calls ++
      [.glActiveTexture (GL_TEXTURE0 + g.activeUnit), .glBindTexture cb.texture.target cb.texture.id,
       .glUseProgram cb.program.id,
       .glUniform1i (cb.program.GetUniformLocation "u_Texture" g).2 g.activeUnit,
       .glBindVertexArray cb.vao.id,
       .glDrawElements GL_TRIANGLES (cb.triangles.length * 3) GL_UNSIGNED_INT,
       .glBindVertexArray g.vertexArray,
       .glBindBuffer GL_ARRAY_BUFFER g.arrayBuffer,
       .glBindBuffer GL_ELEMENT_ARRAY_BUFFER (g.elementArrayOf g.vertexArray),
       .glUseProgram g.currentProgram,
       .glActiveTexture (GL_TEXTURE0 + g.activeUnit),
       .glBindTexture GL_TEXTURE_2D (g.texture2D g.activeUnit)] ∧
    (cb.Draw g).2.IsIdle := by
  obtain ⟨h1, h2⟩ := h
  simp only [CaptureBuffer.Draw, CaptureBuffer.StopCapture, h1, h2, QfxTexture2D.Bind_eq,
    QfxProgram.Bind, QfxProgram.SetUniform, QfxProgram.Validate, QfxProgram.GetUniformLocation,
    QfxVertexArrayObj.Bind, QfxVertexArrayObj.BindVAO, QfxBuffer.BindBuffer_array,
    QfxBuffer.BindBuffer_element, QfxProgram.BindProgram, QfxTextureBase.BindTexture_2D,
    QfxVertexArrayObj.GetCurrentVAO, QfxBuffer.GetCurrentBuffer_array,
    QfxBuffer.GetCurrentBuffer_element, QfxTextureBase.GetCurrentTexture,
    QfxTextureBase.GetActiveTextureUnit, glBindVertexArray_eq, glUseProgram_eq,
    record_eq, GLContext.boundTexture2D, QfxProgram.GetCurrentProgram,
    Bool.false_eq_true, if_false, if_true, ne_eq, not_true_eq_false, ite_self,
    CaptureBuffer.IsIdle, List.append_assoc, List.singleton_append, List.cons_append,
    List.nil_append, and_true, true_and]
  refine ⟨?_, ?_⟩
  · funext v
    split <;> simp_all
  · funext u
    split <;> simp_all

theorem QfxFramebufferObj.GetCurrent_read (g : GLContext) :
    QfxFramebufferObj.GetCurrent GL_READ_FRAMEBUFFER g =
      (g, if g.drawFramebuffer ≠ 0 then g.drawFramebuffer else g.readFramebuffer) := by
  have h1 : GL_READ_FRAMEBUFFER ≠ GL_FRAMEBUFFER := by decide
  have h2 : (GL_DRAW_FRAMEBUFFER_BINDING &&& GL_READ_FRAMEBUFFER) > 0 := by decide
  have h3 : (GL_READ_FRAMEBUFFER_BINDING &&& GL_READ_FRAMEBUFFER) > 0 := by decide
  simp only [QfxFramebufferObj.GetCurrent, h1, h2, h3, and_false, if_false, true_and]
  by_cases hd : g.drawFramebuffer = 0 <;> by_cases hr : g.readFramebuffer = 0 <;> simp [hd, hr]

theorem QfxFramebufferObj.GetCurrent_draw (g : GLContext) :
    QfxFramebufferObj.GetCurrent GL_DRAW_FRAMEBUFFER g =
      (g, if g.drawFramebuffer ≠ 0 then g.drawFramebuffer else g.readFramebuffer) := by
  have h1 : GL_DRAW_FRAMEBUFFER ≠ GL_FRAMEBUFFER := by decide
  have h2 : (GL_DRAW_FRAMEBUFFER_BINDING &&& GL_DRAW_FRAMEBUFFER) > 0 := by decide
  have h3 : (GL_READ_FRAMEBUFFER_BINDING &&& GL_DRAW_FRAMEBUFFER) > 0 := by decide
  simp only [QfxFramebufferObj.GetCurrent, h1, h2, h3, and_false, if_false, true_and]
  by_cases hd : g.drawFramebuffer = 0 <;> by_cases hr : g.readFramebuffer = 0 <;> simp [hd, hr]

/-- The debug validation of a framebuffer object only ever adds error reports. -/
theorem QfxFramebufferObj.Validate_eq (fbo : QfxFramebufferObj) (rc : Bool) (g : GLContext) :
    ∃ l : List GLCall, fbo.Validate rc g = { g with calls := g.calls ++ l } ∧
      ∀ c ∈ l, ∃ m, c = GLCall.REPORTERROR m := by
  unfold QfxFramebufferObj.Validate QfxFramebufferObj.ValidateFramebuffer
  cases g with
  | mk d r rb va ab ea cp au t2 vp nn fs ul nd cs =>
    cases nd
    · simp only [Bool.false_eq_true, if_false, REPORTERROR_eq]
      split
      · exact ⟨_, rfl, by simp⟩
      · split
        · split
          · exact ⟨_, rfl, by simp⟩
          · exact ⟨[], by simp, by simp⟩
        · exact ⟨[], by simp, by simp⟩
    · exact ⟨[], by simp, by simp⟩

theorem QfxFramebufferObj.Validate_calls (fbo : QfxFramebufferObj) (rc : Bool) (g : GLContext) :
    (fbo.Validate rc g).calls = g.calls ++ (fbo.Validate rc g).issuedSince g := by
  obtain ⟨l, h, _⟩ := QfxFramebufferObj.Validate_eq fbo rc g
  rw [h]
  simp [GLContext.issuedSince]

theorem QfxFramebufferObj.Validate_reports (fbo : QfxFramebufferObj) (rc : Bool) (g : GLContext) :
    ∀ c ∈ (fbo.Validate rc g).issuedSince g, ∃ m, c = GLCall.REPORTERROR m := by
  obtain ⟨l, h, hl⟩ := QfxFramebufferObj.Validate_eq fbo rc g
  rw [h]
  simpa [GLContext.issuedSince] using hl

/-! ### Capture pipeline: resume, stop and draw -/

/-- The commands `ResumeCapture` issues from `Captured`, and the members it changes. -/
theorem CaptureBuffer.ResumeCapture_captured (g : GLContext) (cb : CaptureBuffer)
    (h : cb.captured = true) :
    (∃ l, (cb.ResumeCapture g).1.calls = g.calls ++ l ∧ ∀ c ∈ l, c.isClearOrResize = false) ∧
    (cb.ResumeCapture g).2 =
      { cb with
        lastReadFbo := if g.drawFramebuffer ≠ 0 then g.drawFramebuffer else g.readFramebuffer,
        lastDrawFbo := if g.drawFramebuffer ≠ 0 then g.drawFramebuffer else g.readFramebuffer,
        fbo := { cb.fbo with target := GL_FRAMEBUFFER } } := by
  constructor
  · apply Exists.intro
    refine ⟨?h1, ?h2⟩
    case h1 =>
      simp only [CaptureBuffer.ResumeCapture, h, if_true, QfxFramebufferObj.GetCurrent_read,
        QfxFramebufferObj.GetCurrent_draw, QfxFramebufferObj.Bind, glBindFramebuffer_both,
        QfxFramebufferObj.SetDrawBuffer, QfxFramebufferObj.SetFramebufferTexture, record_eq,
        glViewport_eq, QfxFramebufferObj.Validate_calls, List.append_assoc]
      rfl
    case h2 =>
      intro c hc
      simp only [List.mem_append, List.mem_singleton] at hc
      rcases hc with rfl | rfl | hx | rfl | rfl
      · rfl
      · rfl
      · obtain ⟨m, rfl⟩ := QfxFramebufferObj.Validate_reports _ _ _ c hx
        rfl
      · rfl
      · rfl
  · simp only [CaptureBuffer.ResumeCapture, h, if_true, QfxFramebufferObj.GetCurrent_read,
      QfxFramebufferObj.GetCurrent_draw, QfxFramebufferObj.Bind]

/-- What `StartCaptureVp` records and sets when it is called from `Idle`. -/
theorem CaptureBuffer.StartCaptureVp_idle (vp : IVec4) (g : GLContext) (cb : CaptureBuffer)
    (h : cb.IsIdle) :
    (cb.StartCaptureVp vp g).2.lastReadFbo =
      (if g.drawFramebuffer ≠ 0 then g.drawFramebuffer else g.readFramebuffer) ∧
    (cb.StartCaptureVp vp g).2.lastDrawFbo =
      (if g.drawFramebuffer ≠ 0 then g.drawFramebuffer else g.readFramebuffer) ∧
    (cb.StartCaptureVp vp g).2.IsCapturing := by
  obtain ⟨h1, h2⟩ := h
  simp only [CaptureBuffer.StartCaptureVp, h1, h2, Bool.not_false, Bool.and_self, if_true,
    QfxFramebufferObj.GetCurrent_read, QfxFramebufferObj.GetCurrent_draw,
    CaptureBuffer.IsCapturing, and_self]

/-- The framebuffer bindings `StopCapture` leaves when it is called from `Capturing`. -/
theorem CaptureBuffer.StopCapture_capturing (g : GLContext) (cb : CaptureBuffer)
    (h : cb.capturing = true) :
    (cb.StopCapture g).1.readFramebuffer = cb.lastReadFbo ∧
    (cb.StopCapture g).1.drawFramebuffer = cb.lastDrawFbo ∧
    (cb.StopCapture g).2 = { cb with captured := true, capturing := false } := by
  simp only [CaptureBuffer.StopCapture, h, if_true, QfxFramebufferObj.BindFramebuffer,
    glBindFramebuffer_read, glBindFramebuffer_draw, and_self]

/-- C11. `ResumeCapture` invoked in `Captured` leaves the pipeline in `Captured`: afterwards
`GetIsCapturing()` is false and `GetIsCaptured()` is true.  It keeps the colour target and
issues neither a clear nor a storage allocation. -/
theorem resume_from_captured_stays_captured (g : GLContext) (cb : CaptureBuffer)
    (h : cb.IsCaptured) :
    (cb.ResumeCapture g).2.GetIsCapturing = false ∧
    (cb.ResumeCapture g).2.GetIsCaptured = true ∧
    (cb.ResumeCapture g).2.texture = cb.texture ∧
    ∀ c ∈ (cb.ResumeCapture g).1.issuedSince g, c.isClearOrResize = false := by
  obtain ⟨h1, h2⟩ := h
  obtain ⟨⟨l, hl, hc⟩, he⟩ := CaptureBuffer.ResumeCapture_captured g cb h2
  refine ⟨?_, ?_, ?_, ?_⟩
  · rw [he]; exact h1
  · rw [he]; exact h2
  · rw [he]
  · rw [issuedSince_append g l _ hl]
    exact hc

/-- C11, at the captured sample capture buffer. -/
theorem resume_from_captured_stays_captured_witness :
    capturedSample.2.IsCaptured ∧
    (capturedSample.2.ResumeCapture capturedSample.1).2.GetIsCapturing = false ∧
    (capturedSample.2.ResumeCapture capturedSample.1).2.GetIsCaptured = true :=
  ⟨by decide,
   (resume_from_captured_stays_captured capturedSample.1 capturedSample.2 (by decide)).1,
   (resume_from_captured_stays_captured capturedSample.1 capturedSample.2 (by decide)).2.1⟩

/-- C12. `StartCapture` from `Idle` followed by `StopCapture` leaves the pipeline in
`Captured`, but both framebuffer bindings end up equal to the draw binding in effect before
`StartCapture` when that was not the default framebuffer, and to the read binding otherwise:
the read binding is restored only when it was equal to that value. -/
theorem stop_capture_binds_draw_framebuffer_for_reading (g : GLContext) (cb : CaptureBuffer)
    (h : cb.IsIdle) :
    (CaptureOp.runAll [.StartCapture, .StopCapture] (g, cb)).1.readFramebuffer =
      (if g.drawFramebuffer ≠ 0 then g.drawFramebuffer else g.readFramebuffer) ∧
    (CaptureOp.runAll [.StartCapture, .StopCapture] (g, cb)).1.drawFramebuffer =
      (if g.drawFramebuffer ≠ 0 then g.drawFramebuffer else g.readFramebuffer) ∧
    (CaptureOp.runAll [.StartCapture, .StopCapture] (g, cb)).2.IsCaptured := by
  have a := CaptureBuffer.StartCaptureVp_idle g.viewport g cb h
  have b := CaptureBuffer.StopCapture_capturing (cb.StartCapture g).1 (cb.StartCapture g).2 a.2.2.1
  simp only [CaptureOp.runAll, CaptureOp.run]
  refine ⟨?_, ?_, ?_⟩
  · rw [b.1]; exact a.1
  · rw [b.2.1]; exact a.2.1
  · rw [b.2.2]; exact ⟨rfl, rfl⟩

/-- C12, for the sample capture buffer in a context with framebuffer 5 bound for drawing and
framebuffer 7 bound for reading: after `StartCapture` and `StopCapture` framebuffer 5 is bound
for reading. -/
theorem stop_capture_binds_draw_framebuffer_for_reading_witness :
    sampleCapture.2.IsIdle ∧ hostContext.readFramebuffer = 7 ∧
    (CaptureOp.runAll [.StartCapture, .StopCapture] (hostContext, sampleCapture.2)).1.readFramebuffer
      = 5 :=
  ⟨by decide, rfl,
   (stop_capture_binds_draw_framebuffer_for_reading hostContext sampleCapture.2 (by decide)).1⟩

/-- C13. `Draw` invoked in `Captured` issues exactly one indexed draw, leaves the bound vertex
array, vertex buffer, index buffer (of every vertex array), program, 2D texture (of every
unit) and active texture unit as they were before the call, and leaves the pipeline in
`Idle`. -/
theorem draw_from_captured_restores_bindings (g : GLContext) (cb : CaptureBuffer)
    (h : cb.IsCaptured) :
    (((cb.Draw g).1.issuedSince g).filter GLCall.isDrawElements).length = 1 ∧
    (cb.Draw g).1.vertexArray = g.vertexArray ∧
    (cb.Draw g).1.arrayBuffer = g.arrayBuffer ∧
    (cb.Draw g).1.elementArrayOf = g.elementArrayOf ∧
    (cb.Draw g).1.elementArrayBuffer = g.elementArrayBuffer ∧
    (cb.Draw g).1.currentProgram = g.currentProgram ∧
    (cb.Draw g).1.texture2D = g.texture2D ∧
    (cb.Draw g).1.boundTexture2D = g.boundTexture2D ∧
    (cb.Draw g).1.activeUnit = g.activeUnit ∧
    (cb.Draw g).2.IsIdle := by
  obtain ⟨a, b, c, d, e, f, _, _, k, i⟩ := CaptureBuffer.Draw_captured g cb h
  refine ⟨?_, a, b, c, ?_, d, e, ?_, f, i⟩
  · rw [issuedSince_append g _ _ k]
    rfl
  · simp only [GLContext.elementArrayBuffer, a, c]
  · simp only [GLContext.boundTexture2D, e, f]

/-- C13, at the captured sample capture buffer in a context where the host has bound objects
of its own. -/
theorem draw_from_captured_restores_bindings_witness :
    capturedInHost.2.IsCaptured ∧
    (((capturedInHost.2.Draw capturedInHost.1).1.issuedSince capturedInHost.1).filter
      GLCall.isDrawElements).length = 1 ∧
    (capturedInHost.2.Draw capturedInHost.1).1.vertexArray = 3 ∧
    (capturedInHost.2.Draw capturedInHost.1).2.IsIdle :=
  ⟨by decide,
   (draw_from_captured_restores_bindings capturedInHost.1 capturedInHost.2 (by decide)).1,
   (draw_from_captured_restores_bindings capturedInHost.1 capturedInHost.2 (by decide)).2.1,
   (draw_from_captured_restores_bindings capturedInHost.1 capturedInHost.2 (by decide)).2.2.2.2.2.2.2.2.2⟩

/-! ### Render phase classifier: frame offset, matrix mode, disabled capture -/

/-- C18. On an orthographic classification: if the frame counter differs from the frame
recorded at the previous orthographic classification, `curFrameOffset` becomes 0 and the
current frame is recorded; otherwise `curFrameOffset` increases by exactly one (the `int` not
being at its maximum) and the recorded frame is unchanged. -/
theorem orthographic_frame_offset (cfg : QfxConfig) (g : GLContext) (r : QfxRenderer)
    (hmin : -(2 ^ 31) ≤ r.curFrameOffset) (hmax : r.curFrameOffset < 2 ^ 31 - 1) :
    (r.lastFrameCount ≠ r.frameCount →
      (r.OnProjection cfg true g).2.curFrameOffset = 0 ∧
      (r.OnProjection cfg true g).2.lastFrameCount = r.frameCount) ∧
    (r.lastFrameCount = r.frameCount →
      (r.OnProjection cfg true g).2.curFrameOffset = r.curFrameOffset + 1 ∧
      (r.OnProjection cfg true g).2.lastFrameCount = r.lastFrameCount) := by
  obtain ⟨_, _, hl, ho, _⟩ := QfxRenderer.OnProjection_orthographic cfg g r
  constructor
  · intro h
    rw [ho, hl, if_pos h]
    exact ⟨rfl, rfl⟩
  · intro h
    rw [ho, hl, if_neg (not_not.mpr h),
      QfxRenderer.wrapInt32_small (r.curFrameOffset + 1) (by omega) (by omega)]
    exact ⟨rfl, h.symm⟩

/-- C18, at the renderer after a first buffer swap (the frame counter has advanced) and at a
freshly created renderer (it has not). -/
theorem orthographic_frame_offset_witness :
    (afterSwap.2.lastFrameCount ≠ afterSwap.2.frameCount ∧
      (afterSwap.2.OnProjection sampleConfig true afterSwap.1).2.curFrameOffset = 0) ∧
    (freshRenderer.2.lastFrameCount = freshRenderer.2.frameCount ∧
      (freshRenderer.2.OnProjection sampleConfig true freshRenderer.1).2.curFrameOffset =
        freshRenderer.2.curFrameOffset + 1) :=
  ⟨⟨by decide,
    ((orthographic_frame_offset sampleConfig afterSwap.1 afterSwap.2 (by decide)
      (by decide)).1 (by decide)).1⟩,
   ⟨by decide,
    ((orthographic_frame_offset sampleConfig freshRenderer.1 freshRenderer.2 (by decide)
      (by decide)).2 (by decide)).1⟩⟩

/-- C19. While the renderer exists and its recorded matrix mode is not `GL_PROJECTION`, an
intercepted matrix load (double or float variant), frustum call or orthographic-setup call
only forwards the command: the renderer, with its frame offset, recorded frames and capture
buffer, is the same afterwards, and nothing but the forwarded command is issued. -/
theorem no_classification_outside_projection (w : World) (r : QfxRenderer)
    (hr : w.instancePtr = some r) (hm : r.lastMatrixMode ≠ GL_PROJECTION) :
    (∀ m : Fin 16 → GLreal,
      qfx_glLoadMatrixd m w = w.forward (.glLoadMatrixd (List.ofFn m)) ∧
      qfx_glLoadMatrixf m w = w.forward (.glLoadMatrixf (List.ofFn m))) ∧
    (∀ left right bottom top zNear zFar : GLreal,
      qfx_glFrustum left right bottom top zNear zFar w =
        w.forward (.glFrustum left right bottom top zNear zFar) ∧
      qfx_glOrtho left right bottom top zNear zFar w =
        w.forward (.glOrtho left right bottom top zNear zFar)) ∧
    (∀ c : GLCall, (w.forward c).instancePtr = some r ∧
      (w.forward c).gl.issuedSince w.gl = [c]) := by
  have hi : ∀ c : GLCall, (w.forward c).GetInstance = w.forward c := by
    intro c
    simp [World.GetInstance, World.forward, hr]
  have hmode : ∀ c : GLCall, ((w.forward c).MATRIXMODE == some GL_PROJECTION) = false := by
    intro c
    simp [World.MATRIXMODE, World.forward, hr, hm]
  refine ⟨fun m => ⟨?_, ?_⟩, fun left right bottom top zNear zFar => ⟨?_, ?_⟩, fun c => ⟨?_, ?_⟩⟩
  · simp only [qfx_glLoadMatrixd, hi, hmode, Bool.and_false, Bool.false_eq_true, if_false]
  · simp only [qfx_glLoadMatrixf, hi, hmode, Bool.and_false, Bool.false_eq_true, if_false]
  · simp only [qfx_glFrustum, hi, hmode, Bool.and_false, Bool.false_eq_true, if_false]
  · simp only [qfx_glOrtho, hi, hmode, Bool.and_false, Bool.false_eq_true, if_false]
  · simpa [World.forward] using hr
  · simp [World.forward, GLContext.issuedSince, GLContext.record]

/-- C19, at the sample world whose renderer still records `GL_MODELVIEW`. -/
theorem no_classification_outside_projection_witness :
    modelViewWorld.instancePtr = some freshRenderer.2 ∧
    freshRenderer.2.lastMatrixMode ≠ GL_PROJECTION ∧
    qfx_glOrtho (.finite 0) (.finite 640) (.finite 480) (.finite 0) (.finite 0) (.finite 1)
        modelViewWorld =
      modelViewWorld.forward
        (.glOrtho (.finite 0) (.finite 640) (.finite 480) (.finite 0) (.finite 0) (.finite 1)) :=
  ⟨rfl, by decide,
   ((no_classification_outside_projection modelViewWorld freshRenderer.2 rfl (by decide)).2.1
      (.finite 0) (.finite 640) (.finite 480) (.finite 0) (.finite 0) (.finite 1)).2⟩

/-- With capture target index -1 a classification leaves the context and the capture buffer
as they are. -/
theorem QfxRenderer.OnProjection_never (cfg : QfxConfig) (h : cfg.renderFrame = -1)
    (isOrthographic : Bool) (g : GLContext) (r : QfxRenderer) :
    (r.OnProjection cfg isOrthographic g).1 = g ∧
    (r.OnProjection cfg isOrthographic g).2.uiCap = r.uiCap := by
  cases isOrthographic
  · have hp := QfxRenderer.OnProjection_perspective cfg g r
    exact ⟨hp.1, by rw [hp.2]⟩
  · unfold QfxRenderer.OnProjection
    simp only [if_true, h, bne_self_eq_false, Bool.and_false, Bool.false_eq_true, if_false,
      ite_self]
    split <;> simp

/-- A buffer swap that starts with the pipeline `Idle` ends with the pipeline `Idle`. -/
theorem QfxRenderer.OnSwapBuffers_idle (cfg : QfxConfig) (hdc : Nat) (success : Bool)
    (g : GLContext) (r : QfxRenderer) (h : r.uiCap.IsIdle) :
    (r.OnSwapBuffers cfg hdc success g).1.2.uiCap.IsIdle := by
  by_cases h0 : hdc ≠ 0
  · exact (QfxRenderer.OnSwapBuffers_frame cfg hdc success g r).2.2.2.2 h0
  · obtain ⟨h1, h2⟩ := h
    unfold QfxRenderer.OnSwapBuffers
    simp only [h0, if_false, CaptureBuffer.StopCapture, h1, Bool.false_eq_true]
    exact ⟨h1, h2⟩

/-- With capture target index -1 every sequence of events that starts with the pipeline
`Idle` keeps it `Idle`. -/
theorem RenderEvent.runAll_idle (cfg : QfxConfig) (h : cfg.renderFrame = -1)
    (events : List RenderEvent) (s : GLContext × QfxRenderer) (hs : s.2.uiCap.IsIdle) :
    (RenderEvent.runAll cfg events s).2.uiCap.IsIdle := by
  induction events generalizing s with
  | nil => exact hs
  | cons e es ih =>
    apply ih
    cases e with
    | matrixMode mode => exact hs
    | projection isOrthographic =>
      simp only [RenderEvent.run]
      rw [(QfxRenderer.OnProjection_never cfg h isOrthographic s.1 s.2).2]
      exact hs
    | swapBuffers hdc success => exact QfxRenderer.OnSwapBuffers_idle cfg hdc success s.1 s.2 hs

/-- C20. With the configured capture target index equal to -1, after every sequence of
matrix-mode, projection and buffer-swap events that starts with the pipeline `Idle` (as the
constructor leaves it) the pipeline is `Idle`, and a further classification of either kind
issues no command, leaves the OpenGL context as it is and leaves the capture buffer as it
is: the classifier never starts capture. -/
theorem capture_never_starts_when_disabled (cfg : QfxConfig) (h : cfg.renderFrame = -1)
    (events : List RenderEvent) (s : GLContext × QfxRenderer) (hs : s.2.uiCap.IsIdle) :
    (RenderEvent.runAll cfg events s).2.uiCap.IsIdle ∧
    ∀ isOrthographic : Bool,
      ((RenderEvent.runAll cfg events s).2.OnProjection cfg isOrthographic
          (RenderEvent.runAll cfg events s).1).1 = (RenderEvent.runAll cfg events s).1 ∧
      ((RenderEvent.runAll cfg events s).2.OnProjection cfg isOrthographic
          (RenderEvent.runAll cfg events s).1).2.uiCap = (RenderEvent.runAll cfg events s).2.uiCap ∧
      QfxRenderer.startsCapture cfg isOrthographic (RenderEvent.runAll cfg events s).1
        (RenderEvent.runAll cfg events s).2 = false := by
  have hi := RenderEvent.runAll_idle cfg h events s hs
  refine ⟨hi, fun o => ?_⟩
  have hn := QfxRenderer.OnProjection_never cfg h o (RenderEvent.runAll cfg events s).1
    (RenderEvent.runAll cfg events s).2
  refine ⟨hn.1, hn.2, ?_⟩
  unfold QfxRenderer.startsCapture
  rw [hn.2, hi.1]
  rfl

/-- C20, at a freshly created renderer: a frame with three orthographic classifications, a
swap, and a fourth orthographic classification. -/
theorem capture_never_starts_when_disabled_witness :
    neverCaptureConfig.renderFrame = -1 ∧ freshRenderer.2.uiCap.IsIdle ∧
    (RenderEvent.runAll neverCaptureConfig
      [.matrixMode GL_PROJECTION, .projection true, .projection true, .projection true,
       .swapBuffers 1 true, .projection true] freshRenderer).2.uiCap.IsIdle :=
  ⟨rfl, by decide,
   (capture_never_starts_when_disabled neverCaptureConfig rfl
      [.matrixMode GL_PROJECTION, .projection true, .projection true, .projection true,
       .swapBuffers 1 true, .projection true] freshRenderer (by decide)).1⟩

/-! ### Render buffers: resizing and attachment -/

/-- The scanner in terms of the fields of the image. -/
theorem GetEnumeratedModuleExportsTraced_eq (win64 : Bool) (img : ModuleImage) :
    GetEnumeratedModuleExportsTraced win64 img =
      if img.signature ≠ IMAGE_NT_SIGNATURE then ([], [⟨0x3C, 4⟩, ⟨img.ntHeaders, 4⟩])
      else if img.exportSize win64 = 0 then
        ([], [⟨0x3C, 4⟩, ⟨img.ntHeaders, 4⟩, ⟨img.exportEntry win64 + 4, 4⟩])
      else if img.numberOfFunctions win64 = 0 then
        ([], [⟨0x3C, 4⟩, ⟨img.ntHeaders, 4⟩, ⟨img.exportEntry win64 + 4, 4⟩,
              ⟨img.exportEntry win64, 4⟩, ⟨img.exportDirectory win64 + 16, 4⟩,
              ⟨img.exportDirectory win64 + 20, 4⟩])
      else
        ((List.range (img.numberOfNames win64)).map fun i =>
            (scanSymbol img (img.exportDirectory win64) (img.ordinalBase win64 % 2 ^ 16) i).1,
         [⟨0x3C, 4⟩, ⟨img.ntHeaders, 4⟩, ⟨img.exportEntry win64 + 4, 4⟩,
          ⟨img.exportEntry win64, 4⟩, ⟨img.exportDirectory win64 + 16, 4⟩,
          ⟨img.exportDirectory win64 + 20, 4⟩, ⟨img.exportDirectory win64 + 24, 4⟩] ++
          ((List.range (img.numberOfNames win64)).map fun i =>
            (scanSymbol img (img.exportDirectory win64) (img.ordinalBase win64 % 2 ^ 16)
              i).2).flatten) := by
  simp only [GetEnumeratedModuleExportsTraced, ModuleImage.signature, ModuleImage.ntHeaders,
    ModuleImage.exportSize, ModuleImage.exportEntry, ModuleImage.exportDirectory,
    ModuleImage.numberOfFunctions, ModuleImage.numberOfNames, ModuleImage.ordinalBase,
    OFFSET_e_lfanew, OFFSET_DataDirectory, OFFSET_VirtualAddress,
    OFFSET_Size, OFFSET_Base, OFFSET_NumberOfFunctions, OFFSET_NumberOfNames,
    IMAGE_DIRECTORY_ENTRY_EXPORT, Nat.cast_zero, mul_zero, add_zero, List.map_map,
    List.cons_append, List.nil_append]
  rfl

/-- The loop body for a name ordinal that is an index into the address table. -/
theorem scanSymbol_valid (win64 : Bool) (img : ModuleImage) (i : Nat)
    (hb : img.ordinalBase win64 + img.numberOfFunctions win64 ≤ 2 ^ 16)
    (hi : img.nameOrdinal win64 i < img.numberOfFunctions win64) :
    scanSymbol img (img.exportDirectory win64) (img.ordinalBase win64 % 2 ^ 16) i =
      (⟨img.handle + img.functionRva win64 (img.nameOrdinal win64 i),
        some (img.exportName win64 i), img.ordinalBase win64 + img.nameOrdinal win64 i⟩,
       [⟨img.exportDirectory win64 + 36, 4⟩, ⟨img.exportDirectory win64 + 32, 4⟩,
        ⟨img.exportDirectory win64 + 28, 4⟩, ⟨img.nameOrdinalTable win64 + 2 * i, 2⟩,
        ⟨img.nameTable win64 + 4 * i, 4⟩,
        ⟨img.addressTable win64 + 4 * img.nameOrdinal win64 i, 4⟩]) := by
  have h1 : img.ordinalBase win64 % 2 ^ 16 = img.ordinalBase win64 :=
    Nat.mod_eq_of_lt (by omega)
  have h2 : (img.ordinalBase win64 + img.nameOrdinal win64 i) % 2 ^ 16 =
      img.ordinalBase win64 + img.nameOrdinal win64 i := Nat.mod_eq_of_lt (by omega)
  have h3 : ((img.ordinalBase win64 + img.nameOrdinal win64 i : Nat) : Int) -
      (img.ordinalBase win64 : Int) = (img.nameOrdinal win64 i : Int) := by
    push_cast
    ring
  rw [h1]
  simp only [scanSymbol, OFFSET_AddressOfNameOrdinals, OFFSET_AddressOfNames,
    OFFSET_AddressOfFunctions]
  simp only [ModuleImage.nameOrdinal, ModuleImage.nameOrdinalTable, ModuleImage.functionRva,
    ModuleImage.addressTable, ModuleImage.exportName, ModuleImage.nameTable] at h2 h3 ⊢
  rw [h2, h3]

/-- C15. For every image with a valid header and export directory the scanner returns
exactly one symbol per declared name, in name-table order, and the `i`-th symbol has the
`i`-th name, the ordinal `base + nameOrdinals[i]`, and as address the image base plus the
entry of the address table at index `nameOrdinals[i]`, whatever the number of exported
functions without a name. -/
theorem scanner_enumerates_named_exports (win64 : Bool) (img : ModuleImage)
    (h : img.HasValidExports win64) :
    (GetEnumeratedModuleExports win64 img).length = img.numberOfNames win64 ∧
    ∀ i < img.numberOfNames win64,
      (GetEnumeratedModuleExports win64 img).get? i =
        some ⟨img.handle + img.functionRva win64 (img.nameOrdinal win64 i),
              some (img.exportName win64 i),
              img.ordinalBase win64 + img.nameOrdinal win64 i⟩ := by
  obtain ⟨h1, h2, h3, h4, h5⟩ := h
  have e : GetEnumeratedModuleExports win64 img =
      (List.range (img.numberOfNames win64)).map fun i =>
        (scanSymbol img (img.exportDirectory win64) (img.ordinalBase win64 % 2 ^ 16) i).1 := by
    unfold GetEnumeratedModuleExports
    rw [GetEnumeratedModuleExportsTraced_eq]
    simp only [h1, ne_eq, not_true_eq_false, if_false, h2, h3]
  rw [e]
  refine ⟨by simp, fun i hi => ?_⟩
  rw [List.get?_eq_getElem?, List.getElem?_map, List.getElem?_range hi, Option.map_some',
    scanSymbol_valid win64 img i h4 (h5 i hi)]

/-- C15, at the sample image: two names for three functions. -/
theorem scanner_enumerates_named_exports_witness :
    sampleImage.HasValidExports false ∧ sampleImage.numberOfFunctions false = 3 ∧
    (GetEnumeratedModuleExports false sampleImage).length = 2 :=
  ⟨by decide, by decide,
   by rw [(scanner_enumerates_named_exports false sampleImage (by decide)).1]; decide⟩

/-- C16, counterexample. For the image of 4096 bytes whose field `e_lfanew` holds 0x100000,
the scanner reads the four bytes of the signature at offset 0x100000. -/
theorem scanner_reads_outside_declared_bounds :
    strayHeaderImage.size = 4096 ∧
    (⟨0x100000, 4⟩ : MemRead) ∈ (GetEnumeratedModuleExportsTraced false strayHeaderImage).2 ∧
    ¬ (⟨0x100000, 4⟩ : MemRead).InBounds strayHeaderImage.size := by
  decide

/-- C16, amended. For every image in which everything the headers declare lies inside the
declared bounds, every access of the scanner lies inside the declared bounds. -/
theorem scanner_reads_inside_well_formed_image (win64 : Bool) (img : ModuleImage)
    (h : img.WellFormed win64) :
    ∀ rd ∈ (GetEnumeratedModuleExportsTraced win64 img).2, rd.InBounds img.size := by
  obtain ⟨h1, h2, h3, h4⟩ := h
  have he : img.exportEntry win64 = img.ntHeaders + (if win64 then 136 else 120) := rfl
  have he0 : 0 ≤ img.exportEntry win64 := by
    rw [he]
    split <;> omega
  intro rd hrd
  rw [GetEnumeratedModuleExportsTraced_eq] at hrd
  unfold MemRead.InBounds
  by_cases hs : img.signature = IMAGE_NT_SIGNATURE
  · by_cases hz : img.exportSize win64 = 0
    · simp only [hs, ne_eq, not_true_eq_false, if_false, hz, if_true, List.mem_cons,
        List.mem_singleton, List.not_mem_nil, or_false] at hrd
      rcases hrd with rfl | rfl | rfl <;> simp only [] <;> omega
    · obtain ⟨h5, h6⟩ := h4 hs hz
      have hd0 : 0 ≤ img.exportDirectory win64 := by
        unfold ModuleImage.exportDirectory
        exact Int.ofNat_nonneg _
      by_cases hf : img.numberOfFunctions win64 = 0
      · simp only [hs, ne_eq, not_true_eq_false, if_false, hz, hf, if_true, List.mem_cons,
          List.mem_singleton, List.not_mem_nil, or_false] at hrd
        rcases hrd with rfl | rfl | rfl | rfl | rfl | rfl <;> simp only [] <;> omega
      · obtain ⟨h7, h8, h9, h10, h11⟩ := h6 hf
        have ha0 : 0 ≤ img.addressTable win64 := by
          unfold ModuleImage.addressTable
          exact Int.ofNat_nonneg _
        have hn0 : 0 ≤ img.nameTable win64 := by
          unfold ModuleImage.nameTable
          exact Int.ofNat_nonneg _
        have ho0 : 0 ≤ img.nameOrdinalTable win64 := by
          unfold ModuleImage.nameOrdinalTable
          exact Int.ofNat_nonneg _
        simp only [hs, ne_eq, not_true_eq_false, if_false, hz, hf, List.mem_append,
          List.mem_cons, List.mem_singleton, List.not_mem_nil, or_false, List.mem_flatten,
          List.mem_map, List.mem_range] at hrd
        rcases hrd with (rfl | rfl | rfl | rfl | rfl | rfl | rfl) | ⟨l, ⟨i, hi, rfl⟩, hl⟩
        · simp only []; omega
        · simp only []; omega
        · simp only []; omega
        · simp only []; omega
        · simp only []; omega
        · simp only []; omega
        · simp only []; omega
        · rw [scanSymbol_valid win64 img i h7 (h11 i hi)] at hl
          have hlt := h11 i hi
          simp only [List.mem_cons, List.mem_singleton, List.not_mem_nil, or_false] at hl
          rcases hl with rfl | rfl | rfl | rfl | rfl | rfl <;> simp only [] <;> omega
  · simp only [hs, ne_eq, not_false_eq_true, if_true, List.mem_cons, List.mem_singleton,
      List.not_mem_nil, or_false] at hrd
    rcases hrd with rfl | rfl <;> simp only [] <;> omega

/-- C16, amended, at the sample image. -/
theorem scanner_reads_inside_well_formed_image_witness :
    sampleImage.WellFormed false ∧
    (⟨0x150, 2⟩ : MemRead) ∈ (GetEnumeratedModuleExportsTraced false sampleImage).2 ∧
    (⟨0x150, 2⟩ : MemRead).InBounds sampleImage.size :=
  ⟨by decide, by decide,
   scanner_reads_inside_well_formed_image false sampleImage (by decide) ⟨0x150, 2⟩ (by decide)⟩

/-- C17, counterexample. The image of 4096 bytes whose field `e_lfanew` holds 0x100000 has
no signature `PE\0\0` where its header says, and the scanner does not return: it reads the
signature outside the image. -/
theorem scanner_faults_on_header_outside_image :
    strayHeaderImage.signature ≠ IMAGE_NT_SIGNATURE ∧
    GetEnumeratedModuleExportsMapped false strayHeaderImage = none ∧
    GetEnumeratedModuleExportsMapped false strayHeaderImage ≠ some [] := by
  decide

/-- C17, amended. For every image whose header fields, as far as they decide the early
return, lie inside its declared bounds, and whose header signature is wrong, whose export
entry of the data directory has size zero, or whose export directory declares zero exported
functions: every access of the scanner lies inside the image and it returns the empty
sequence. -/
theorem scanner_returns_empty_without_exports (win64 : Bool) (img : ModuleImage)
    (hb : img.HeadersInBounds win64)
    (h : img.signature ≠ IMAGE_NT_SIGNATURE ∨ img.exportSize win64 = 0 ∨
      img.numberOfFunctions win64 = 0) :
    GetEnumeratedModuleExportsMapped win64 img = some [] ∧
    GetEnumeratedModuleExports win64 img = [] ∧
    ∀ rd ∈ (GetEnumeratedModuleExportsTraced win64 img).2, rd.InBounds img.size := by
  obtain ⟨h1, h2, h3, h4⟩ := hb
  have he : img.exportEntry win64 = img.ntHeaders + (if win64 then 136 else 120) := rfl
  have he0 : 0 ≤ img.exportEntry win64 := by
    rw [he]
    split <;> omega
  have hd0 : 0 ≤ img.exportDirectory win64 := by
    unfold ModuleImage.exportDirectory
    exact Int.ofNat_nonneg _
  have key : (GetEnumeratedModuleExportsTraced win64 img).1 = [] ∧
      ∀ rd ∈ (GetEnumeratedModuleExportsTraced win64 img).2, rd.InBounds img.size := by
    rw [GetEnumeratedModuleExportsTraced_eq]
    by_cases hs : img.signature = IMAGE_NT_SIGNATURE
    · obtain ⟨h5, h6⟩ := h4 hs
      by_cases hz : img.exportSize win64 = 0
      · simp only [hs, ne_eq, not_true_eq_false, if_false, hz, if_true, List.mem_cons,
          List.mem_singleton, List.not_mem_nil, or_false, true_and]
        intro rd hrd
        unfold MemRead.InBounds
        rcases hrd with rfl | rfl | rfl <;> simp only [] <;> omega
      · have hf : img.numberOfFunctions win64 = 0 := by
          rcases h with h | h | h
          · exact absurd hs h
          · exact absurd h hz
          · exact h
        have h7 := h6 hz
        simp only [hs, ne_eq, not_true_eq_false, if_false, hz, hf, if_true, List.mem_cons,
          List.mem_singleton, List.not_mem_nil, or_false, true_and]
        intro rd hrd
        unfold MemRead.InBounds
        rcases hrd with rfl | rfl | rfl | rfl | rfl | rfl <;> simp only [] <;> omega
    · simp only [hs, ne_eq, not_false_eq_true, if_true, List.mem_cons, List.mem_singleton,
        List.not_mem_nil, or_false, true_and]
      intro rd hrd
      unfold MemRead.InBounds
      rcases hrd with rfl | rfl <;> simp only [] <;> omega
  refine ⟨?_, key.1, key.2⟩
  unfold GetEnumeratedModuleExportsMapped
  rw [if_pos, key.1]
  rw [List.all_eq_true]
  intro rd hrd
  exact decide_eq_true (key.2 rd hrd)

/-- C17, amended, at three images: zero everywhere (wrong signature), right signature with
an export entry of size zero, and an export directory that declares no function. -/
theorem scanner_returns_empty_without_exports_witness :
    (blankImage.HeadersInBounds false ∧ blankImage.signature ≠ IMAGE_NT_SIGNATURE ∧
      GetEnumeratedModuleExportsMapped false blankImage = some []) ∧
    (noExportImage.HeadersInBounds false ∧ noExportImage.signature = IMAGE_NT_SIGNATURE ∧
      noExportImage.exportSize false = 0 ∧
      GetEnumeratedModuleExportsMapped false noExportImage = some []) ∧
    (emptyExportImage.HeadersInBounds false ∧
      emptyExportImage.signature = IMAGE_NT_SIGNATURE ∧
      emptyExportImage.exportSize false ≠ 0 ∧ emptyExportImage.numberOfFunctions false = 0 ∧
      GetEnumeratedModuleExportsMapped false emptyExportImage = some []) :=
  ⟨⟨by decide, by decide,
    (scanner_returns_empty_without_exports false blankImage (by decide)
      (Or.inl (by decide))).1⟩,
   ⟨by decide, by decide, by decide,
    (scanner_returns_empty_without_exports false noExportImage (by decide)
      (Or.inr (Or.inl (by decide)))).1⟩,
   ⟨by decide, by decide, by decide, by decide,
    (scanner_returns_empty_without_exports false emptyExportImage (by decide)
      (Or.inr (Or.inr (by decide)))).1⟩⟩

/-! ### Blend function and anisotropy -/

theorem QfxRenderer.construct_not_capturing (linked : QfxProgram) (vp0 : IVec4) (g : GLContext) :
    (QfxRenderer.construct linked vp0 g).2.uiCap.capturing = false := by
  unfold QfxRenderer.construct
  exact (CaptureBuffer.construct_flags linked vp0 g).1

/-- C21. For every requested pair `(sfactor, dfactor)`: `OnSetBlendFunc` issues exactly one
command, the blend function `(GL_SRC_ALPHA, GL_ONE_MINUS_SRC_ALPHA)` while the capture
pipeline is capturing and the requested pair otherwise; and the last command the hook
`qfx_glBlendFunc` issues is that blend function, the requested pair also when the renderer
is not initialised. -/
theorem blend_function_forced_while_capturing (sfactor dfactor : Nat) :
    (∀ (g : GLContext) (r : QfxRenderer),
      (r.OnSetBlendFunc sfactor dfactor g).issuedSince g =
        [if r.uiCap.GetIsCapturing = true then .glBlendFunc GL_SRC_ALPHA GL_ONE_MINUS_SRC_ALPHA
         else .glBlendFunc sfactor dfactor]) ∧
    (∀ w : World,
      (qfx_glBlendFunc sfactor dfactor w).gl.calls.getLast? =
        some (if w.capturing = true then .glBlendFunc GL_SRC_ALPHA GL_ONE_MINUS_SRC_ALPHA
              else .glBlendFunc sfactor dfactor)) := by
  constructor
  · intro g r
    unfold QfxRenderer.OnSetBlendFunc
    split <;> simp [GLContext.issuedSince, GLContext.record]
  · intro w
    unfold qfx_glBlendFunc World.capturing
    cases hi : w.isInitialized <;> cases hc : w.runtimeCompat <;>
      cases hp : w.instancePtr with
      | none =>
        simp [World.GetInstance, World.GetIsInitialized, World.OnSetBlendFunc, World.forward,
          hi, hc, hp, QfxRenderer.OnSetBlendFunc, CaptureBuffer.GetIsCapturing,
          QfxRenderer.construct_not_capturing, GLContext.record]
      | some r =>
        cases hcap : r.uiCap.capturing <;>
        simp [World.GetInstance, World.GetIsInitialized, World.OnSetBlendFunc, World.forward,
          hi, hc, hp, QfxRenderer.OnSetBlendFunc, CaptureBuffer.GetIsCapturing, hcap,
          GLContext.record]

/-- C22, counterexample. With a supported maximum of 16 and a configured anisotropy level
of 0, a bind to the 2D target applies the anisotropy parameter with the value 1. -/
theorem anisotropy_applied_for_level_zero :
    anisotropicRenderer.maxAnisotropy = 16 ∧ noAnisotropyConfig.anisotropyLevel = 0 ∧
    (anisotropicRenderer.OnBindTex2D noAnisotropyConfig sampleContext).issuedSince sampleContext =
      [.glTexParameteri GL_TEXTURE_2D GL_TEXTURE_MAX_ANISOTROPY_EXT 1] := by
  refine ⟨rfl, rfl, rfl⟩

/-- C22, amended. On a bind to the 2D texture target with an initialised renderer, the
anisotropy parameter is applied exactly when the supported maximum is greater than 1, and
the value applied is the configured level clamped to the range from 1 to the supported
maximum; for a positive configured level that is the smaller of the level and the maximum,
for the level 0 it is 1.  A bind to another target applies no parameter. -/
theorem anisotropy_clamped_between_one_and_maximum (cfg : QfxConfig) (r : QfxRenderer)
    (hmax : r.maxAnisotropy < 2 ^ 31) :
    (∀ g : GLContext,
      (1 < r.maxAnisotropy →
        (r.OnBindTex2D cfg g).issuedSince g =
          [.glTexParameteri GL_TEXTURE_2D GL_TEXTURE_MAX_ANISOTROPY_EXT
            (max 1 (min (r.maxAnisotropy : Int) cfg.anisotropyLevel))]) ∧
      (r.maxAnisotropy ≤ 1 → r.OnBindTex2D cfg g = g)) ∧
    (1 < r.maxAnisotropy → 0 < cfg.anisotropyLevel →
      max 1 (min (r.maxAnisotropy : Int) cfg.anisotropyLevel) =
        min cfg.anisotropyLevel (r.maxAnisotropy : Int)) ∧
    (cfg.anisotropyLevel = 0 →
      max 1 (min (r.maxAnisotropy : Int) cfg.anisotropyLevel) = 1) ∧
    (∀ (w : World) (target texture : Nat), w.cfg = cfg → w.isInitialized = true →
      w.runtimeCompat = true → w.instancePtr = some r →
      (qfx_glBindTexture target texture w).gl =
        if target = GL_TEXTURE_2D then r.OnBindTex2D cfg (glBindTexture target texture w.gl)
        else glBindTexture target texture w.gl) := by
  have hw : wrapInt32 (r.maxAnisotropy : Int) = (r.maxAnisotropy : Int) :=
    QfxRenderer.wrapInt32_small _ (by omega) (by omega)
  refine ⟨fun g => ⟨fun h => ?_, fun h => ?_⟩, fun h1 h2 => ?_, fun h => ?_, ?_⟩
  · simp [QfxRenderer.OnBindTex2D, h, hw, GLContext.issuedSince, GLContext.record]
  · simp [QfxRenderer.OnBindTex2D, Nat.not_lt.mpr h]
  · omega
  · omega
  · intro w target texture hcfg hi hc hp
    by_cases ht : target = GL_TEXTURE_2D <;>
      simp [qfx_glBindTexture, World.GetInstance, World.GetIsInitialized, World.OnBindTex2D,
        hi, hc, hp, ht, hcfg]

/-- C22, amended, at a renderer with supported maximum 16 and configured level 16. -/
theorem anisotropy_clamped_between_one_and_maximum_witness :
    anisotropicRenderer.maxAnisotropy < 2 ^ 31 ∧ 1 < anisotropicRenderer.maxAnisotropy ∧
    (anisotropicRenderer.OnBindTex2D sampleConfig sampleContext).issuedSince sampleContext =
      [.glTexParameteri GL_TEXTURE_2D GL_TEXTURE_MAX_ANISOTROPY_EXT
        (max 1 (min (anisotropicRenderer.maxAnisotropy : Int) sampleConfig.anisotropyLevel))] :=
  ⟨by decide, by decide,
   ((anisotropy_clamped_between_one_and_maximum sampleConfig anisotropicRenderer
      (by decide)).1 sampleContext).1 (by decide)⟩

/-! ### Capture pipeline: operations invoked from a state in which they are not valid -/

theorem CaptureBuffer.StartCaptureVp_not_idle (vp : IVec4) (g : GLContext) (cb : CaptureBuffer)
    (h : cb.capturing = true ∨ cb.captured = true) : cb.StartCaptureVp vp g = (g, cb) := by
  unfold CaptureBuffer.StartCaptureVp
  rcases h with h | h <;> simp [h]

theorem CaptureBuffer.ResumeCapture_not_captured (g : GLContext) (cb : CaptureBuffer)
    (h : cb.captured = false) : cb.ResumeCapture g = (g, cb) := by
  unfold CaptureBuffer.ResumeCapture
  simp [h]

/-- C27, counterexample. In the debug-build context `hostContext`, `StartCapture` invoked
while the pipeline is `Capturing` returns the context, command list included, and the
capture buffer as they were: no error is reported. -/
theorem start_capture_while_capturing_is_silent_in_debug :
    capturingInHost.1.NDEBUG = false ∧ capturingInHost.2.IsCapturing ∧
    capturingInHost.2.StartCapture capturingInHost.1 = capturingInHost :=
  ⟨rfl, by decide,
   CaptureBuffer.StartCaptureVp_not_idle _ capturingInHost.1 capturingInHost.2
     (Or.inl (by decide))⟩

/-- C27, amended. In a debug build as in a release build, a capture-pipeline operation
invoked from a state in which it is not valid (`StartCapture`, either overload, while
`Capturing` or `Captured`; `ResumeCapture` while `Idle` or `Capturing`; `Draw` while `Idle`)
returns normally and is ignored: the context, with its command list, and the capture buffer
are as before, so no error is reported. -/
theorem invalid_capture_operation_is_ignored (g : GLContext) (cb : CaptureBuffer) :
    (cb.IsCapturing ∨ cb.IsCaptured →
      cb.StartCapture g = (g, cb) ∧ ∀ vp : IVec4, cb.StartCaptureVp vp g = (g, cb)) ∧
    (cb.IsIdle ∨ cb.IsCapturing → cb.ResumeCapture g = (g, cb)) ∧
    (cb.IsIdle → cb.Draw g = (g, cb)) := by
  refine ⟨fun h => ?_, fun h => ?_, fun h => ?_⟩
  · have hf : cb.capturing = true ∨ cb.captured = true := by
      rcases h with h | h
      · exact Or.inl h.1
      · exact Or.inr h.2
    exact ⟨CaptureBuffer.StartCaptureVp_not_idle _ g cb hf,
      fun vp => CaptureBuffer.StartCaptureVp_not_idle vp g cb hf⟩
  · apply CaptureBuffer.ResumeCapture_not_captured
    rcases h with h | h <;> exact h.2
  · simp [CaptureBuffer.Draw, CaptureBuffer.StopCapture, h.1, h.2]

/-- C27, amended, in the debug-build context: `StartCapture` while `Capturing`, and `Draw`
and `ResumeCapture` while `Idle`. -/
theorem invalid_capture_operation_is_ignored_witness :
    hostContext.NDEBUG = false ∧
    (capturingInHost.2.IsCapturing ∧
      capturingInHost.2.StartCapture capturingInHost.1 = capturingInHost) ∧
    (sampleCapture.2.IsIdle ∧ sampleCapture.2.Draw hostContext = (hostContext, sampleCapture.2) ∧
      sampleCapture.2.ResumeCapture hostContext = (hostContext, sampleCapture.2)) :=
  ⟨rfl,
   ⟨by decide,
    ((invalid_capture_operation_is_ignored capturingInHost.1 capturingInHost.2).1
      (Or.inl (by decide))).1⟩,
   ⟨by decide,
    (invalid_capture_operation_is_ignored hostContext sampleCapture.2).2.2 (by decide),
    (invalid_capture_operation_is_ignored hostContext sampleCapture.2).2.1
      (Or.inl (by decide))⟩⟩

/-! ### Framebuffer queries -/

/-- C28. For each of the three framebuffer targets, `GetIsFramebufferBound(id, target)` is
true exactly when some framebuffer other than the default one is bound for drawing or for
reading, whatever `id` is: the binding enumerants it compares the target with are equal to
none of the targets. -/
theorem framebuffer_bound_query_ignores_name (id target : Nat) (g : GLContext)
    (ht : IsFramebufferTarget target) :
    QfxFramebufferObj.GetIsFramebufferBound id target g =
      decide (g.drawFramebuffer ≠ 0 ∨ g.readFramebuffer ≠ 0) := by
  have h1 : GL_FRAMEBUFFER_BINDING ≠ target := by
    rcases ht with rfl | rfl | rfl <;> decide
  have h2 : GL_DRAW_FRAMEBUFFER_BINDING ≠ target := by
    rcases ht with rfl | rfl | rfl <;> decide
  have h3 : GL_READ_FRAMEBUFFER_BINDING ≠ target := by
    rcases ht with rfl | rfl | rfl <;> decide
  unfold QfxFramebufferObj.GetIsFramebufferBound
  simp only [h1, h2, h3, false_and, if_false]
  by_cases h : g.drawFramebuffer ≠ 0 ∨ g.readFramebuffer ≠ 0
  · simp [h]
  · simp [h]

/-- C28, with framebuffer 5 bound for drawing and framebuffer 7 for reading: the query for
framebuffer 3 at the draw target is true although framebuffer 3 is not bound there. -/
theorem framebuffer_bound_query_ignores_name_witness :
    IsFramebufferTarget GL_DRAW_FRAMEBUFFER ∧
    ¬ hostContext.framebufferBoundAt 3 GL_DRAW_FRAMEBUFFER ∧
    QfxFramebufferObj.GetIsFramebufferBound 3 GL_DRAW_FRAMEBUFFER hostContext = true :=
  ⟨Or.inl rfl, by unfold GLContext.framebufferBoundAt; decide,
   by rw [framebuffer_bound_query_ignores_name 3 GL_DRAW_FRAMEBUFFER hostContext (Or.inl rfl)]
      decide⟩

/-- C29. `GetCurrent(Draw)` and `GetCurrent(Read)` both return the draw binding when a
framebuffer other than the default one is bound for drawing, and the read binding otherwise;
with framebuffer 5 bound for drawing and framebuffer 7 for reading `GetCurrent(Read)` is 5,
and with the default framebuffer bound for drawing and framebuffer 7 for reading
`GetCurrent(Draw)` is 7. -/
theorem get_current_prefers_draw_binding :
    (∀ g : GLContext,
      (QfxFramebufferObj.GetCurrent GL_DRAW_FRAMEBUFFER g).2 =
        (if g.drawFramebuffer ≠ 0 then g.drawFramebuffer else g.readFramebuffer) ∧
      (QfxFramebufferObj.GetCurrent GL_READ_FRAMEBUFFER g).2 =
        (if g.drawFramebuffer ≠ 0 then g.drawFramebuffer else g.readFramebuffer)) ∧
    (hostContext.readFramebuffer = 7 ∧
      (QfxFramebufferObj.GetCurrent GL_READ_FRAMEBUFFER hostContext).2 = 5) ∧
    ({ hostContext with drawFramebuffer := 0 }.drawFramebuffer = 0 ∧
      (QfxFramebufferObj.GetCurrent GL_DRAW_FRAMEBUFFER
        { hostContext with drawFramebuffer := 0 }).2 = 7) := by
  refine ⟨fun g => ⟨?_, ?_⟩, ⟨rfl, ?_⟩, ⟨rfl, ?_⟩⟩
  · rw [QfxFramebufferObj.GetCurrent_draw]
  · rw [QfxFramebufferObj.GetCurrent_read]
  · rw [QfxFramebufferObj.GetCurrent_read]
    rfl
  · rw [QfxFramebufferObj.GetCurrent_draw]
    rfl

/-! ### Frame counter -/

/-- C30. `OnSwapBuffers` increases the frame counter by exactly one modulo `2^32` when the
device context is not null and leaves it unchanged when it is null; a matrix-mode change
and a projection event of either kind leave the frame counter unchanged, and a texture
bind and a blend-function request leave the whole renderer unchanged. -/
theorem frame_counter_advances_only_on_swap (cfg : QfxConfig) (g : GLContext)
    (r : QfxRenderer) :
    (∀ (hdc : Nat) (success : Bool),
      (r.OnSwapBuffers cfg hdc success g).1.2.frameCount =
        if hdc ≠ 0 then (r.frameCount + 1) % 2 ^ 32 else r.frameCount) ∧
    (∀ mode : Nat, (r.OnMatrixModeChanged mode).frameCount = r.frameCount) ∧
    (∀ isOrthographic : Bool,
      (r.OnProjection cfg isOrthographic g).2.frameCount = r.frameCount) ∧
    (∀ w : World, w.OnBindTex2D.instancePtr = w.instancePtr ∧
      w.OnBindTex2D.frameCount = w.frameCount) ∧
    (∀ (w : World) (sfactor dfactor : Nat),
      (w.OnSetBlendFunc sfactor dfactor).instancePtr = w.instancePtr ∧
      (w.OnSetBlendFunc sfactor dfactor).frameCount = w.frameCount) := by
  refine ⟨fun hdc success => ?_, fun mode => rfl, fun o => ?_, fun w => ?_, fun w s d => ?_⟩
  · exact (QfxRenderer.OnSwapBuffers_frame cfg hdc success g r).1
  · cases o
    · rw [(QfxRenderer.OnProjection_perspective cfg g r).2]
    · exact (QfxRenderer.OnProjection_orthographic cfg g r).1
  · unfold World.frameCount World.OnBindTex2D
    obtain ⟨gl, wcfg, a, b, c, ip, lp, sv⟩ := w
    cases ip <;> exact ⟨rfl, rfl⟩
  · unfold World.frameCount World.OnSetBlendFunc
    obtain ⟨gl, wcfg, a, b, c, ip, lp, sv⟩ := w
    cases ip <;> exact ⟨rfl, rfl⟩

/-! ### Libraries-stable transition -/

theorem and_load_flags_eq_zero_iff (x : Nat) :
    x &&& (LOAD_LIBRARY_AS_DATAFILE ||| LOAD_LIBRARY_AS_DATAFILE_EXCLUSIVE |||
      LOAD_LIBRARY_AS_IMAGE_RESOURCE) = 0 ↔
    ¬ (x.testBit 1 = true ∨ x.testBit 5 = true ∨ x.testBit 6 = true) := by
  have hm : (LOAD_LIBRARY_AS_DATAFILE ||| LOAD_LIBRARY_AS_DATAFILE_EXCLUSIVE |||
      LOAD_LIBRARY_AS_IMAGE_RESOURCE) = 98 := by decide
  rw [hm]
  constructor
  · intro h
    have h1 := congrArg (fun n => n.testBit 1) h
    have h5 := congrArg (fun n => n.testBit 5) h
    have h6 := congrArg (fun n => n.testBit 6) h
    simp only [Nat.testBit_and, Nat.zero_testBit] at h1 h5 h6
    have b1 : Nat.testBit 98 1 = true := by decide
    have b5 : Nat.testBit 98 5 = true := by decide
    have b6 : Nat.testBit 98 6 = true := by decide
    rw [b1, Bool.and_true] at h1
    rw [b5, Bool.and_true] at h5
    rw [b6, Bool.and_true] at h6
    simp [h1, h5, h6]
  · intro h
    have h1 : x.testBit 1 = false := by
      cases hx : x.testBit 1
      · rfl
      · exact absurd (Or.inl hx) h
    have h5 : x.testBit 5 = false := by
      cases hx : x.testBit 5
      · rfl
      · exact absurd (Or.inr (Or.inl hx)) h
    have h6 : x.testBit 6 = false := by
      cases hx : x.testBit 6
      · rfl
      · exact absurd (Or.inr (Or.inr hx)) h
    apply Nat.eq_of_testBit_eq
    intro i
    rw [Nat.testBit_and, Nat.zero_testBit]
    by_cases hi : i < 7
    · interval_cases i
      · have : Nat.testBit 98 0 = false := by decide
        rw [this, Bool.and_false]
      · rw [h1, Bool.false_and]
      · have : Nat.testBit 98 2 = false := by decide
        rw [this, Bool.and_false]
      · have : Nat.testBit 98 3 = false := by decide
        rw [this, Bool.and_false]
      · have : Nat.testBit 98 4 = false := by decide
        rw [this, Bool.and_false]
      · rw [h5, Bool.false_and]
      · rw [h6, Bool.false_and]
    · have hlt : 98 < 2 ^ i :=
        lt_of_lt_of_le (by decide : 98 < 2 ^ 7) (Nat.pow_le_pow_right (by decide) (by omega))
      rw [Nat.testBit_lt_two_pow hlt, Bool.and_false]

theorem HookLifecycle.OnLibLoad_free (s : HookLifecycle) (h : s.initMutexLocked = false) :
    s.OnLibLoad =
      { s with
        manager := { s.manager with initialized := true },
        callbackCalls :=
          if s.manager.LibLoadCallback ≠ 0 then s.callbackCalls + 1 else s.callbackCalls } := by
  obtain ⟨m, l, c⟩ := s
  simp only at h
  subst h
  unfold HookLifecycle.OnLibLoad
  by_cases hc : m.LibLoadCallback = 0 <;> simp [hc]

theorem HookLifecycle.OnLibLoad_locked (s : HookLifecycle) (h : s.initMutexLocked = true) :
    s.OnLibLoad = s := by
  unfold HookLifecycle.OnLibLoad
  simp [h]

theorem LoadCall.enter_exFlags_iff (call : LoadCall) :
    call.enter.exFlags = true ↔ ¬ call.MapsAsData := by
  cases call with
  | A n h => simp [LoadCall.enter, LoadCall.MapsAsData]
  | W n h => simp [LoadCall.enter, LoadCall.MapsAsData]
  | ExA n f d h =>
    simp only [LoadCall.enter, LoadCall.MapsAsData, beq_iff_eq]
    exact and_load_flags_eq_zero_iff d
  | ExW n f d h =>
    simp only [LoadCall.enter, LoadCall.MapsAsData, beq_iff_eq]
    exact and_load_flags_eq_zero_iff d

/-- Every hook evaluates the same condition and returns the handle of the trampoline. -/
theorem LoadCall.run_eq (call : LoadCall) (s : HookLifecycle) :
    call.run s =
      (if (!s.manager.initialized && call.handle != 0 && call.handle != s.manager.moduleHandle &&
            call.enter.exFlags) = true then s.OnLibLoad else s,
       call.handle) := by
  cases call with
  | A n h =>
    simp only [LoadCall.run, HookLifecycle.QfxLoadLibraryA, LoadCall.handle, LoadCall.enter,
      Bool.and_true]
  | W n h =>
    simp only [LoadCall.run, HookLifecycle.QfxLoadLibraryW, LoadCall.handle, LoadCall.enter,
      Bool.and_true]
  | ExA n f d h =>
    simp only [LoadCall.run, HookLifecycle.QfxLoadLibraryExA, LoadCall.handle, LoadCall.enter]
  | ExW n f d h =>
    simp only [LoadCall.run, HookLifecycle.QfxLoadLibraryExW, LoadCall.handle, LoadCall.enter]

theorem LoadCall.condition_iff (call : LoadCall) (s : HookLifecycle) :
    (!s.manager.initialized && call.handle != 0 && call.handle != s.manager.moduleHandle &&
      call.enter.exFlags) = true ↔ call.Qualifies s := by
  unfold LoadCall.Qualifies
  rw [← LoadCall.enter_exFlags_iff]
  simp [and_assoc]

/-- C23. With the mutex free, as it is whenever no other thread is inside `OnLibLoad`, an
intercepted library-load call of any of the four variants sets `initialized`, which was
clear, if and only if the transition has not happened yet, the returned handle is not null,
it is not the handle of the own module and, for the two variants with flags, none of the
flags for a mapping as data file or image resource is set.  Such a call invokes the
callback once if one is registered and changes nothing else; every other call leaves the
state unchanged and invokes no callback; every call returns the handle of the trampoline. -/
theorem load_call_transition_iff (call : LoadCall) (s : HookLifecycle)
    (hfree : s.initMutexLocked = false) :
    ((s.manager.initialized = false ∧ (call.run s).1.manager.initialized = true) ↔
      call.Qualifies s) ∧
    (call.Qualifies s →
      (call.run s).1 =
        { s with
          manager := { s.manager with initialized := true },
          callbackCalls :=
            if s.manager.LibLoadCallback ≠ 0 then s.callbackCalls + 1 else s.callbackCalls }) ∧
    (¬ call.Qualifies s → (call.run s).1 = s) ∧
    (call.run s).2 = call.handle := by
  have hq := LoadCall.condition_iff call s
  have hyes : call.Qualifies s → (call.run s).1 =
      { s with
        manager := { s.manager with initialized := true },
        callbackCalls :=
          if s.manager.LibLoadCallback ≠ 0 then s.callbackCalls + 1 else s.callbackCalls } := by
    intro h
    rw [LoadCall.run_eq, if_pos (hq.mpr h), HookLifecycle.OnLibLoad_free s hfree]
  have hno : ¬ call.Qualifies s → (call.run s).1 = s := by
    intro h
    rw [LoadCall.run_eq, if_neg (fun hc => h (hq.mp hc))]
  refine ⟨⟨fun h => ?_, fun h => ?_⟩, hyes, hno, ?_⟩
  · by_contra hn
    rw [hno hn, h.1] at h
    exact absurd h.2 (by decide)
  · refine ⟨h.1, ?_⟩
    rw [hyes h]
  · rw [LoadCall.run_eq]

/-- C23, at the freshly attached hook manager: a load of a library of the host performs the
transition and invokes the callback; a load as data file does not. -/
theorem load_call_transition_iff_witness :
    attachedLifecycle.initMutexLocked = false ∧
    (LoadCall.ExA "opengl32.dll" 0 0 500).Qualifies attachedLifecycle ∧
    ((LoadCall.ExA "opengl32.dll" 0 0 500).run attachedLifecycle).1.callbackCalls = 1 ∧
    ¬ (LoadCall.ExA "shell32.dll" 0 LOAD_LIBRARY_AS_DATAFILE 500).Qualifies attachedLifecycle ∧
    ((LoadCall.ExA "shell32.dll" 0 LOAD_LIBRARY_AS_DATAFILE 500).run attachedLifecycle).1 =
      attachedLifecycle :=
  ⟨rfl,
   ((load_call_transition_iff (.ExA "opengl32.dll" 0 0 500) attachedLifecycle rfl).1).mp
     ⟨rfl, by decide⟩,
   by decide,
   fun h => absurd
     (((load_call_transition_iff (.ExA "shell32.dll" 0 LOAD_LIBRARY_AS_DATAFILE 500)
        attachedLifecycle rfl).1).mpr h).2 (by decide),
   by decide⟩

/-- A call either leaves the state as it is, or finds `initialized` clear, sets it and
invokes the callback at most once. -/
theorem LoadCall.run_cases (call : LoadCall) (s : HookLifecycle) :
    (call.run s).1 = s ∨
    (s.manager.initialized = false ∧ (call.run s).1.manager.initialized = true ∧
      (call.run s).1.callbackCalls ≤ s.callbackCalls + 1) := by
  rw [LoadCall.run_eq]
  by_cases hc : (!s.manager.initialized && call.handle != 0 &&
      call.handle != s.manager.moduleHandle && call.enter.exFlags) = true
  · rw [if_pos hc]
    have hi : s.manager.initialized = false := ((LoadCall.condition_iff call s).mp hc).1
    cases hl : s.initMutexLocked
    · right
      rw [HookLifecycle.OnLibLoad_free s hl]
      refine ⟨hi, rfl, ?_⟩
      simp only
      split <;> omega
    · left
      rw [HookLifecycle.OnLibLoad_locked s hl]
  · rw [if_neg hc]
    exact Or.inl rfl

theorem LoadCall.run_initialized (call : LoadCall) (s : HookLifecycle)
    (h : s.manager.initialized = true) : (call.run s).1 = s := by
  rcases LoadCall.run_cases call s with h1 | h1
  · exact h1
  · rw [h] at h1
    exact absurd h1.1 (by decide)

theorem LoadCall.initializedTrace_head (calls : List LoadCall) (s : HookLifecycle) :
    ∃ rest, LoadCall.initializedTrace calls s = s.manager.initialized :: rest := by
  cases calls with
  | nil => exact ⟨[], rfl⟩
  | cons c cs => exact ⟨_, rfl⟩

theorem LoadCall.runAll_bounds (calls : List LoadCall) (s : HookLifecycle) :
    risingEdges (LoadCall.initializedTrace calls s) ≤
      (if s.manager.initialized = true then 0 else 1) ∧
    fallingEdges (LoadCall.initializedTrace calls s) = 0 ∧
    (LoadCall.runAll calls s).callbackCalls ≤
      s.callbackCalls + (if s.manager.initialized = true then 0 else 1) := by
  induction calls generalizing s with
  | nil => exact ⟨Nat.zero_le _, rfl, Nat.le_add_right _ _⟩
  | cons c cs ih =>
    obtain ⟨rest, hrest⟩ := LoadCall.initializedTrace_head cs (c.run s).1
    obtain ⟨ih1, ih2, ih3⟩ := ih (c.run s).1
    simp only [LoadCall.initializedTrace, LoadCall.runAll]
    rw [hrest] at ih1 ih2 ⊢
    simp only [risingEdges, fallingEdges]
    rcases LoadCall.run_cases c s with h | ⟨h0, h1, h2⟩
    · rw [h] at ih1 ih2 ih3 ⊢
      cases hi : s.manager.initialized <;> simp [hi] at ih1 ih2 ih3 ⊢ <;> exact ⟨ih1, ih2, ih3⟩
    · rw [h1] at ih1 ih2 ih3 ⊢
      rw [h0]
      simp only [if_true] at ih1 ih3
      simp only [and_self, if_true, Bool.false_eq_true, false_and, if_false, zero_add]
      refine ⟨by omega, ih2, by omega⟩

/-- C24. For every sequence of intercepted library-load calls executed one after another,
of any variants and with any handles and flags, from any state: `initialized` goes from
false to true at most once and never from true to false, and the callback is invoked at
most once. -/
theorem initialized_transitions_at_most_once (calls : List LoadCall) (s : HookLifecycle) :
    risingEdges (LoadCall.initializedTrace calls s) ≤ 1 ∧
    fallingEdges (LoadCall.initializedTrace calls s) = 0 ∧
    (LoadCall.runAll calls s).callbackCalls ≤ s.callbackCalls + 1 := by
  obtain ⟨h1, h2, h3⟩ := LoadCall.runAll_bounds calls s
  refine ⟨le_trans h1 ?_, h2, le_trans h3 ?_⟩
  · split <;> omega
  · split <;> omega

/-- A thread that runs through a hook without interruption does what the hook does. -/
theorem LoadThread.runAlone_eq (call : LoadCall) (s : HookLifecycle) :
    LoadThread.runAlone 5 (call.enter, s) =
      (⟨.done, call.handle, call.enter.exFlags⟩, (call.run s).1) := by
  have he : call.enter = ⟨.guard, call.handle, call.enter.exFlags⟩ := by
    cases call <;> rfl
  rw [LoadCall.run_eq]
  generalize call.enter.exFlags = x at he ⊢
  rw [he]
  generalize call.handle = h
  obtain ⟨m, l, c⟩ := s
  by_cases hg : (!m.initialized && h != 0 && h != m.moduleHandle && x) = true
  · cases l <;> by_cases hc : m.LibLoadCallback = 0 <;>
      simp [LoadThread.runAlone, LoadThread.step, HookLifecycle.OnLibLoad, hg, hc]
  · simp [LoadThread.runAlone, LoadThread.step, hg]

/-- C25. Two threads are inside `QfxLoadLibraryA` and `QfxLoadLibraryW` with handles of
libraries of the host, `initialized` is clear and a callback is registered.  When the second
thread evaluates the condition of its `if`, the first thread then runs through its whole
call, and the second thread continues, both threads take the lock in turn and the callback
is invoked twice.  The same happens for two direct calls of `OnLibLoad` that are scheduled
one after the other.  When the second thread tries the lock while the first one holds it,
the callback is invoked once. -/
theorem concurrent_transition_invokes_callback_twice :
    (twoLoads.shared.manager.initialized = false ∧ twoLoads.shared.callbackCalls = 0 ∧
      twoLoads.shared.manager.LibLoadCallback ≠ 0) ∧
    ((TwoThreads.run [true, false, false, false, false, false, true, true, true, true]
        twoLoads).first.pc = .done ∧
      (TwoThreads.run [true, false, false, false, false, false, true, true, true, true]
        twoLoads).second.pc = .done ∧
      (TwoThreads.run [true, false, false, false, false, false, true, true, true, true]
        twoLoads).shared.callbackCalls = 2) ∧
    ((TwoThreads.run [false, false, false, false, true, true, true, true]
        twoTransitions).first.pc = .done ∧
      (TwoThreads.run [false, false, false, false, true, true, true, true]
        twoTransitions).second.pc = .done ∧
      (TwoThreads.run [false, false, false, false, true, true, true, true]
        twoTransitions).shared.callbackCalls = 2) ∧
    ((TwoThreads.run [false, true, false, true, false, false, false] twoLoads).first.pc = .done ∧
      (TwoThreads.run [false, true, false, true, false, false, false] twoLoads).second.pc =
        .done ∧
      (TwoThreads.run [false, true, false, true, false, false, false]
        twoLoads).shared.callbackCalls = 1) := by
  decide

/-! ### Repeated install attempts -/

theorem QfxHookManager.TryInstallGlHooks_flags (reshadeExports : List ModuleExport)
    (m : QfxHookManager) :
    (QfxHookManager.TryInstallGlHooks reshadeExports m).1.initialized = m.initialized ∧
    (QfxHookManager.TryInstallGlHooks reshadeExports m).1.registered = m.registered ∧
    (QfxHookManager.TryInstallGlHooks reshadeExports m).1.glHooksInstalled =
      (QfxHookManager.TryInstallGlHooks reshadeExports m).2 := by
  unfold QfxHookManager.TryInstallGlHooks
  simp only []
  split
  · split <;> simp
  · simp

theorem QfxHookManager.TryInstallGlHooks_installed (reshadeExports : List ModuleExport)
    (m : QfxHookManager) (h : m.glHooksInstalled = true) :
    QfxHookManager.TryInstallGlHooks reshadeExports m =
      ({ m with events := m.events ++ [.apply_queued_actions] }, true) := by
  unfold QfxHookManager.TryInstallGlHooks
  simp [h]

theorem QfxHookManager.installLoop_events (reshadeExports : List ModuleExport)
    (pairs : List RepTargPair) (installed : Bool) (events : List HookEvent) :
    ∃ rest, (QfxHookManager.installLoop reshadeExports pairs installed events).2 =
      events ++ rest := by
  induction pairs generalizing events with
  | nil => exact ⟨[], by simp [QfxHookManager.installLoop]⟩
  | cons p ps ih =>
    unfold QfxHookManager.installLoop
    simp only []
    split
    · obtain ⟨rest, hrest⟩ := ih (events ++ [.install
        ⟨((reshadeExports.get? p.replacement).getD ⟨0, none, 0⟩).name,
          ((reshadeExports.get? _).getD ⟨0, none, 0⟩).address,
          ((reshadeExports.get? p.replacement).getD ⟨0, none, 0⟩).address, true⟩])
      exact ⟨_, by rw [hrest, List.append_assoc]⟩
    · split
      · exact ⟨_, rfl⟩
      · exact ih events

/-- An install attempt starts with the log entry of the matcher about the scanned exports. -/
theorem QfxHookManager.TryInstallGlHooks_scan (reshadeExports : List ModuleExport)
    (m : QfxHookManager) (hinit : m.initialized = true) (hnot : m.glHooksInstalled = false) :
    ∃ rest, (QfxHookManager.TryInstallGlHooks reshadeExports m).1.events =
      m.events ++ (GetQfxReshadeHookPairs reshadeExports "qfx_").2 ++ rest := by
  unfold QfxHookManager.TryInstallGlHooks
  simp only [hinit, hnot, Bool.not_false, Bool.and_self, if_true]
  split
  · obtain ⟨rest, hrest⟩ := QfxHookManager.installLoop_events reshadeExports
      (GetQfxReshadeHookPairs reshadeExports "qfx_").1 true
      (m.events ++ (GetQfxReshadeHookPairs reshadeExports "qfx_").2 ++
        [.LogInfo "Found %i OpenGL Hooks. Installing..."
          (GetQfxReshadeHookPairs reshadeExports "qfx_").1.length])
    simp only [hrest]
    exact ⟨[.LogInfo "Found %i OpenGL Hooks. Installing..."
      (GetQfxReshadeHookPairs reshadeExports "qfx_").1.length] ++ rest ++
      [.apply_queued_actions], by simp only [List.append_assoc]⟩
  · exact ⟨[.LogError "No hook targets found." none, .apply_queued_actions],
      by simp only [List.append_assoc, List.singleton_append]⟩

/-- C26. A call of `TryInstallGlHooks` that follows a call which returned true only applies
the queued actions: whatever the exports are, it makes no log entry and no install request,
leaves the flags unchanged and returns true.  A call that follows a failed attempt (a call
made once the libraries are stable which returned false) is an attempt again: it logs the
scan, makes the install requests of an attempt for the pairs the matcher finds, and returns
the result of that attempt. -/
theorem try_install_again (first second : List ModuleExport) (m : QfxHookManager) :
    ((QfxHookManager.TryInstallGlHooks first m).2 = true →
      QfxHookManager.TryInstallGlHooks second (QfxHookManager.TryInstallGlHooks first m).1 =
        ({ (QfxHookManager.TryInstallGlHooks first m).1 with
            events := (QfxHookManager.TryInstallGlHooks first m).1.events ++
              [.apply_queued_actions] }, true) ∧
      QfxHookManager.requestsBy second (QfxHookManager.TryInstallGlHooks first m).1 = []) ∧
    (m.initialized = true → (QfxHookManager.TryInstallGlHooks first m).2 = false →
      (∃ rest,
        (QfxHookManager.TryInstallGlHooks second
          (QfxHookManager.TryInstallGlHooks first m).1).1.events =
        (QfxHookManager.TryInstallGlHooks first m).1.events ++
          (GetQfxReshadeHookPairs second "qfx_").2 ++ rest) ∧
      QfxHookManager.requestsBy second (QfxHookManager.TryInstallGlHooks first m).1 =
        ((GetQfxReshadeHookPairs second "qfx_").1.takeWhile (·.target.isSome)).map
          (QfxHookManager.requestFor second) ∧
      (QfxHookManager.TryInstallGlHooks second
          (QfxHookManager.TryInstallGlHooks first m).1).2 =
        (decide ((GetQfxReshadeHookPairs second "qfx_").1 ≠ []) &&
          (GetQfxReshadeHookPairs second "qfx_").1.all (·.target.isSome))) := by
  obtain ⟨hi, _, hg⟩ := QfxHookManager.TryInstallGlHooks_flags first m
  constructor
  · intro h
    have e := QfxHookManager.TryInstallGlHooks_installed second
      (QfxHookManager.TryInstallGlHooks first m).1 (hg.trans h)
    refine ⟨e, ?_⟩
    unfold QfxHookManager.requestsBy
    rw [e]
    simp [QfxHookManager.installRequests_append, QfxHookManager.installRequests]
  · intro hinit h
    have a := QfxHookManager.TryInstallGlHooks_attempt second
      (QfxHookManager.TryInstallGlHooks first m).1 (hi.trans hinit) (hg.trans h)
    exact ⟨QfxHookManager.TryInstallGlHooks_scan second _ (hi.trans hinit) (hg.trans h),
      a.1, a.2⟩

/-- C26, at the stable hook manager: a second call after a successful attempt, and a second
call after an attempt that failed because a target was missing. -/
theorem try_install_again_witness :
    ((QfxHookManager.TryInstallGlHooks resolvedExports stableManager).2 = true ∧
      (QfxHookManager.TryInstallGlHooks unresolvedFirstExports
        (QfxHookManager.TryInstallGlHooks resolvedExports stableManager).1).2 = true) ∧
    (stableManager.initialized = true ∧
      (QfxHookManager.TryInstallGlHooks unresolvedFirstExports stableManager).2 = false ∧
      QfxHookManager.requestsBy resolvedExports
          (QfxHookManager.TryInstallGlHooks unresolvedFirstExports stableManager).1 =
        ((GetQfxReshadeHookPairs resolvedExports "qfx_").1.takeWhile (·.target.isSome)).map
          (QfxHookManager.requestFor resolvedExports)) :=
  ⟨⟨by decide,
    by rw [((try_install_again resolvedExports unresolvedFirstExports stableManager).1
      (by decide)).1]⟩,
   ⟨rfl, by decide,
    ((try_install_again unresolvedFirstExports resolvedExports stableManager).2 rfl
      (by decide)).2.1⟩⟩

end QuakeFX
